import Mathlib

/-!
# Capability-gated request/reply shim: dispatcher, escalation, wait status

A shallow embedding of the client-side headers of the microkernel adaptation
(`linux/sys.h`, `linux/kernel.h`, `linux/mm.h`, `asm/memory.h`, `asm/io.h`,
`asm/segment.h`, `asm/system.h`, `sys/wait.h`, `sys/stat.h`, `sys/utsname.h`,
`signal.h`, `utime.h`, `unistd.h`).

Conventions of the embedding.

* `unsigned int`, `unsigned long`, `capability_t` and pointers are `Nat`
  (a null pointer is `0`); `int` and `pid_t` are `Int`.
* The two transport primitives `mk_msg_send` and `mk_msg_receive` are calls
  into the outside world.  They are modelled by an arbitrary deterministic
  `Transport` over an arbitrary world state; every call and its outcome is
  appended to a trace kept in the machine state.
* `*kernel_state` is only ever read by the embedded functions and is part of
  the read-only context `Ctx`.
* Constants and layout facts that the headers use but never define are fields
  of `Target`.
-/

set_option linter.unusedVariables false

namespace MicroKernel

/-! ## Constants of `linux/sys.h` and `linux/kernel.h` -/

def SERVER_PROCESS : Nat := 0x01
def SERVER_FILE : Nat := 0x02
def SERVER_FS : Nat := 0x03
def SERVER_SIGNAL : Nat := 0x04
def SERVER_TIME : Nat := 0x05
def SERVER_USER : Nat := 0x06
def SERVER_TERMINAL : Nat := 0x07
def SERVER_IPC : Nat := 0x08
def SERVER_MEMORY : Nat := 0x09
def SERVER_SYSTEM : Nat := 0x0A

def __NR_ptrace : Nat := 26
def __NR_syscalls : Nat := 74

def CAP_NULL : Nat := 0x0000
def CAP_ROOT : Nat := 0x0001
def CAP_MEMORY : Nat := 0x0002
def CAP_IO : Nat := 0x0004
def CAP_PROCESS : Nat := 0x0008
def CAP_DEVICE : Nat := 0x0010
def CAP_SYSTEM : Nat := 0x0020
def CAP_ALL : Nat := 0xFFFF

/-! ## Signal rights and signal numbers of `signal.h` -/

def CAP_SIGNAL_KILL : Nat := 0x0001
def CAP_SIGNAL_ACTION : Nat := 0x0002
def CAP_SIGNAL_MASK : Nat := 0x0004
def CAP_SIGNAL_ALL : Nat := 0x0007

def _NSIG : Int := 32

/-! ## Message identifiers -/

def MSG_IO_REQUEST_CAP : Nat := 0x0506
def MSG_SEG_GET_BYTE : Nat := 0x0700
def MSG_WAIT : Nat := 0x0900
def MSG_WAITPID : Nat := 0x0901
def MSG_STAT : Nat := 0x0B00
def MSG_FSTAT : Nat := 0x0B01

/-- Identifiers of `linux/kernel.h`. -/
def MSG_MEM_VERIFY : Nat := 0x0100
def MSG_MEM_ALLOC : Nat := 0x0101
def MSG_MEM_FREE : Nat := 0x0102

/-- Identifiers of `linux/mm.h`.  The header defines `MSG_MEM_COPY` as
`0x0109`; `asm/memory.h` defines the same macro as `0x0600`.  The value of
`linux/mm.h` is kept under the name `MSG_MEM_COPY_mm`. -/
def MSG_MEM_GET_FREE_PAGE : Nat := 0x0100
def MSG_MEM_PUT_PAGE : Nat := 0x0101
def MSG_MEM_FREE_PAGE : Nat := 0x0102
def MSG_MEM_MAP : Nat := 0x0103
def MSG_MEM_UNMAP : Nat := 0x0104
def MSG_MEM_ALLOCATE : Nat := 0x0105
def MSG_MEM_DEALLOCATE : Nat := 0x0106
def MSG_MEM_PROTECT : Nat := 0x0107
def MSG_MEM_INHERIT : Nat := 0x0108
def MSG_MEM_COPY_mm : Nat := 0x0109

/-- Identifiers of `asm/memory.h`. -/
def MSG_MEM_COPY : Nat := 0x0600
def MSG_MEM_SET : Nat := 0x0601
def MSG_MEM_CMP : Nat := 0x0602
def MSG_MEM_MOVE : Nat := 0x0603
def MSG_MEM_ZERO : Nat := 0x0604

/-- Identifiers of `asm/segment.h`. -/
def MSG_SEG_GET_WORD : Nat := 0x0701
def MSG_SEG_GET_LONG : Nat := 0x0702
def MSG_SEG_PUT_BYTE : Nat := 0x0703
def MSG_SEG_PUT_WORD : Nat := 0x0704
def MSG_SEG_PUT_LONG : Nat := 0x0705

/-- Identifiers of `signal.h` and `utime.h`. -/
def MSG_SIGNAL_ACTION : Nat := 0x0C00
def MSG_SIGNAL_KILL : Nat := 0x0C01
def MSG_SIGNAL_PROCMASK : Nat := 0x0C03
def MSG_UTIME : Nat := 0x0D00

/-- Identifiers of `asm/system.h`. -/
def MSG_SYS_MOVE_TO_USER : Nat := 0x0800
def MSG_SYS_CLI : Nat := 0x0801
def MSG_SYS_STI : Nat := 0x0802
def MSG_SYS_IRET : Nat := 0x0803
def MSG_SYS_SET_GATE : Nat := 0x0804
def MSG_SYS_SET_TSS : Nat := 0x0808
def MSG_SYS_SET_LDT : Nat := 0x0809

/-- Identifier of `sys/utsname.h`, and the capability space `SPACE_USER` of
`asm/segment.h` that `move_to_user_mode` names. -/
def MSG_UNAME : Nat := 0x0A00
def SPACE_USER : Nat := 1

/-- Flags of `linux/mm.h`: `MEM_FLAG_ZERO`, and `VM_PROT_DEFAULT`, which is
`VM_PROT_READ | VM_PROT_WRITE`. -/
def MEM_FLAG_ZERO : Nat := 0x0001
def VM_PROT_READ : Nat := 0x01
def VM_PROT_WRITE : Nat := 0x02
def VM_PROT_DEFAULT : Nat := VM_PROT_READ ||| VM_PROT_WRITE

/-! ## Structures -/

/-- Header of a dispatcher message (`struct mk_syscall_header`). -/
structure mk_syscall_header where
  syscall_nr : Nat
  sender_task : Nat
  reply_port : Nat
  server_id : Nat
  deriving DecidableEq

structure msg_syscall_0 where
  header : mk_syscall_header
  deriving DecidableEq

structure msg_syscall_1 where
  header : mk_syscall_header
  arg1 : Nat
  deriving DecidableEq

structure msg_syscall_2 where
  header : mk_syscall_header
  arg1 : Nat
  arg2 : Nat
  deriving DecidableEq

structure msg_syscall_3 where
  header : mk_syscall_header
  arg1 : Nat
  arg2 : Nat
  arg3 : Nat
  deriving DecidableEq

/-- Reply of a server to a dispatcher message (`struct msg_syscall_reply`). -/
structure msg_syscall_reply where
  syscall_nr : Nat
  result : Int
  value1 : Nat
  value2 : Nat
  deriving DecidableEq, Inhabited

/-- Envelope of every domain message (`struct mk_msg_header`). -/
structure mk_msg_header where
  msg_id : Nat
  sender_port : Nat
  reply_port : Nat
  size : Nat
  deriving DecidableEq, Inhabited

/-- Request of `asm/memory.h` (`struct msg_mem_copy`).  A field is `none`
when the sender leaves it uninitialised. -/
structure msg_mem_copy where
  header : mk_msg_header
  dest : Option Nat
  src : Option Nat
  n : Option Nat
  caps : Nat
  task_id : Nat
  dest_space : Option Nat
  src_space : Option Nat
  deriving DecidableEq

/-- Reply of the memory server (`struct msg_mem_reply`); the union `data` is
kept as its members. -/
structure msg_mem_reply where
  header : mk_msg_header
  result : Int
  data_value : Nat
  data_addr_dest : Nat
  data_addr_src : Nat
  deriving DecidableEq, Inhabited

/-- Request of `asm/io.h` (`struct msg_io_outb`). -/
structure msg_io_outb where
  header : mk_msg_header
  value : Nat
  port : Nat
  caps : Nat
  task_id : Nat
  deriving DecidableEq

/-- Reply of the device server (`struct msg_io_reply`). -/
structure msg_io_reply where
  header : mk_msg_header
  result : Int
  value_byte : Nat
  value_word : Nat
  value_dword : Nat
  capability : Nat
  deriving DecidableEq, Inhabited

/-- Capability request of `sys/wait.h` and `sys/stat.h`
(`struct msg_cap_request`).  The headers never declare the structure; its
fields are the ones the code assigns. -/
structure msg_cap_request where
  header : mk_msg_header
  task_id : Nat
  requested_cap : Nat
  deriving DecidableEq

/-- Reply to a capability request (`struct msg_cap_reply`), never declared in
the headers; `result` is the only field the code reads. -/
structure msg_cap_reply where
  result : Int
  deriving DecidableEq, Inhabited

/-- Request of `asm/segment.h` (`struct msg_seg_get`). -/
structure msg_seg_get where
  header : mk_msg_header
  addr : Nat
  space_id : Nat
  caps : Nat
  task_id : Nat
  deriving DecidableEq

/-- Reply of the memory server to a segment request (`struct msg_seg_reply`);
the union `data` is kept as its members. -/
structure msg_seg_reply where
  header : mk_msg_header
  result : Int
  data_byte : Nat
  data_word : Nat
  data_dword : Nat
  data_value : Nat
  deriving DecidableEq, Inhabited

/-- Request of `sys/wait.h` (`struct msg_wait`). -/
structure msg_wait where
  header : mk_msg_header
  pid : Int
  options : Int
  task_id : Nat
  caps : Nat
  deriving DecidableEq

/-- Reply of the process server (`struct msg_wait_reply`). -/
structure msg_wait_reply where
  header : mk_msg_header
  result : Int
  pid : Int
  status : Int
  remaining_caps : Nat
  deriving DecidableEq, Inhabited

/-- File status record (`struct stat`). -/
structure stat where
  st_dev : Nat
  st_ino : Nat
  st_mode : Nat
  st_nlink : Nat
  st_uid : Nat
  st_gid : Nat
  st_rdev : Nat
  st_size : Int
  st_atime : Int
  st_mtime : Int
  st_ctime : Int
  deriving DecidableEq, Inhabited

/-- Request of `sys/stat.h` (`struct msg_stat`). -/
structure msg_stat where
  header : mk_msg_header
  path : Nat
  stat_buf : Nat
  task_id : Nat
  caps : Nat
  flags : Nat
  deriving DecidableEq

/-- Request of `sys/stat.h` (`struct msg_fstat`). -/
structure msg_fstat where
  header : mk_msg_header
  fd : Int
  stat_buf : Nat
  task_id : Nat
  caps : Nat
  deriving DecidableEq

/-- Reply of the file server (`struct msg_stat_reply`). -/
structure msg_stat_reply where
  header : mk_msg_header
  result : Int
  st : stat
  file_caps : Nat
  deriving DecidableEq, Inhabited

/-- Request of `linux/kernel.h` (`struct msg_memory_verify`). -/
structure msg_memory_verify where
  header : mk_msg_header
  addr : Nat
  count : Int
  caps : Nat
  deriving DecidableEq

/-- Request of `linux/kernel.h` (`struct msg_memory_alloc`). -/
structure msg_memory_alloc where
  header : mk_msg_header
  size : Nat
  caps : Nat
  deriving DecidableEq

/-- Request of `linux/kernel.h` (`struct msg_memory_free`). -/
structure msg_memory_free where
  header : mk_msg_header
  obj : Nat
  size : Int
  caps : Nat
  deriving DecidableEq

/-- Request of `linux/mm.h` (`struct msg_get_free_page`). -/
structure msg_get_free_page where
  header : mk_msg_header
  task_id : Nat
  flags : Nat
  deriving DecidableEq

/-- Request of `linux/mm.h` (`struct msg_put_page`). -/
structure msg_put_page where
  header : mk_msg_header
  page : Nat
  address : Nat
  task_id : Nat
  protection : Nat
  deriving DecidableEq

/-- Request of `linux/mm.h` (`struct msg_free_page`). -/
structure msg_free_page where
  header : mk_msg_header
  addr : Nat
  task_id : Nat
  deriving DecidableEq

/-- Reply of the memory server in `linux/mm.h` (`struct msg_memory_reply`). -/
structure msg_memory_reply where
  header : mk_msg_header
  result : Int
  value : Nat
  deriving DecidableEq, Inhabited

/-- Request of `asm/segment.h` (`struct msg_seg_put`). -/
structure msg_seg_put where
  header : mk_msg_header
  addr : Nat
  value : Nat
  space_id : Nat
  caps : Nat
  task_id : Nat
  deriving DecidableEq

/-- Request of `utime.h` (`struct msg_utime`). -/
structure msg_utime where
  header : mk_msg_header
  filename : Nat
  times : Nat
  task_id : Nat
  caps : Nat
  flags : Nat
  deriving DecidableEq

/-- Reply of the file server in `utime.h` (`struct msg_utime_reply`). -/
structure msg_utime_reply where
  header : mk_msg_header
  result : Int
  old_atime : Int
  old_mtime : Int
  granted_caps : Nat
  deriving DecidableEq, Inhabited

/-- Signal disposition of `signal.h` (`struct sigaction`); the union `_u` is
kept as its member `sa_handler_port`. -/
structure sigaction where
  sa_handler_port : Nat
  sa_mask : Nat
  sa_flags : Int
  sa_restorer : Nat
  deriving DecidableEq, Inhabited

/-- Request of `signal.h` (`struct msg_signal_action`). -/
structure msg_signal_action where
  header : mk_msg_header
  sig : Int
  handler_port : Nat
  mask : Nat
  flags : Int
  task_id : Nat
  caps : Nat
  deriving DecidableEq

/-- Request of `signal.h` (`struct msg_signal_kill`). -/
structure msg_signal_kill where
  header : mk_msg_header
  pid : Int
  sig : Int
  sender_task : Nat
  caps : Nat
  deriving DecidableEq

/-- Request of `signal.h` (`struct msg_signal_procmask`).  The field `oldset`
is `none`: `sigprocmask` never assigns it. -/
structure msg_signal_procmask where
  header : mk_msg_header
  how : Int
  set : Nat
  oldset : Option Nat
  task_id : Nat
  caps : Nat
  deriving DecidableEq

/-- Reply of the signal server (`struct msg_signal_reply`); the union `data`
is kept as its members. -/
structure msg_signal_reply where
  header : mk_msg_header
  result : Int
  data_mask : Nat
  data_action_old_handler : Nat
  data_action_old_mask : Nat
  data_action_old_flags : Int
  data_sender : Int
  deriving DecidableEq, Inhabited

/-- Request of `asm/system.h` (`struct msg_sys_move_user`). -/
structure msg_sys_move_user where
  header : mk_msg_header
  task_id : Nat
  esp : Nat
  eip : Nat
  caps : Nat
  user_space : Nat
  deriving DecidableEq

/-- Request of `asm/system.h` (`struct msg_sys_cli_sti`). -/
structure msg_sys_cli_sti where
  header : mk_msg_header
  task_id : Nat
  caps : Nat
  cpu_id : Nat
  deriving DecidableEq

/-- The message of `iret()`.  The macro declares it as `struct msg_sys_iret`,
a type no header defines; the fields are the ones the macro assigns. -/
structure msg_sys_iret where
  header : mk_msg_header
  task_id : Nat
  caps : Nat
  deriving DecidableEq

/-- Request of `asm/system.h` (`struct msg_sys_set_gate`). -/
structure msg_sys_set_gate where
  header : mk_msg_header
  gate_idx : Nat
  gate_type : Nat
  dpl : Nat
  handler_port : Nat
  task_id : Nat
  caps : Nat
  deriving DecidableEq

/-- Request of `asm/system.h` (`struct msg_sys_set_tss_ldt`). -/
structure msg_sys_set_tss_ldt where
  header : mk_msg_header
  idx : Nat
  addr : Nat
  type : Nat
  task_id : Nat
  caps : Nat
  deriving DecidableEq

/-- Request of `sys/utsname.h` (`struct msg_uname`). -/
structure msg_uname where
  header : mk_msg_header
  task_id : Nat
  caps : Nat
  flags : Nat
  deriving DecidableEq

/-- A C array `char x[9]`: nine bytes. -/
structure char9 where
  bytes : List Nat
  size_eq : bytes.length = 9
  deriving DecidableEq

instance char9_inhabited : Inhabited char9 :=
  ⟨{ bytes := List.replicate 9 0, size_eq := rfl }⟩

/-- Reply of the system server (`struct msg_uname_reply`). -/
structure msg_uname_reply where
  header : mk_msg_header
  result : Int
  sysname : char9
  nodename : char9
  release : char9
  version : char9
  machine : char9
  domain_id : Nat
  deriving DecidableEq, Inhabited

/-- System identification of `sys/utsname.h` (`struct utsname`). -/
structure utsname where
  sysname : char9
  nodename : char9
  release : char9
  version : char9
  machine : char9
  deriving DecidableEq, Inhabited

/-- A message handed to `mk_msg_send`, tagged with the C structure type it
was built in. -/
inductive Msg where
  | syscall0 (m : msg_syscall_0)
  | syscall1 (m : msg_syscall_1)
  | syscall2 (m : msg_syscall_2)
  | syscall3 (m : msg_syscall_3)
  | mem_copy (m : msg_mem_copy)
  | io_outb (m : msg_io_outb)
  | cap_request (m : msg_cap_request)
  | seg_get (m : msg_seg_get)
  | wait (m : msg_wait)
  | stat (m : msg_stat)
  | fstat (m : msg_fstat)
  | memory_verify (m : msg_memory_verify)
  | memory_alloc (m : msg_memory_alloc)
  | memory_free (m : msg_memory_free)
  | get_free_page (m : msg_get_free_page)
  | put_page (m : msg_put_page)
  | free_page (m : msg_free_page)
  | seg_put (m : msg_seg_put)
  | utime (m : msg_utime)
  | signal_action (m : msg_signal_action)
  | signal_kill (m : msg_signal_kill)
  | signal_procmask (m : msg_signal_procmask)
  | sys_move_user (m : msg_sys_move_user)
  | sys_cli_sti (m : msg_sys_cli_sti)
  | sys_iret (m : msg_sys_iret)
  | sys_set_gate (m : msg_sys_set_gate)
  | sys_set_tss_ldt (m : msg_sys_set_tss_ldt)
  | uname (m : msg_uname)
  deriving DecidableEq

/-- The reply buffer filled by `mk_msg_receive`, seen through each of the
reply structure types a caller may declare for it.  A caller reads only the
view of the type it declared. -/
structure ReplyBuf where
  syscall : msg_syscall_reply
  mem : msg_mem_reply
  io : msg_io_reply
  cap : msg_cap_reply
  seg : msg_seg_reply
  wait : msg_wait_reply
  stat : msg_stat_reply
  memory : msg_memory_reply
  utime : msg_utime_reply
  signal : msg_signal_reply
  uname : msg_uname_reply
  deriving DecidableEq, Inhabited

/-- The C structure types whose `sizeof` the code passes to the transport. -/
inductive CStruct where
  | msg_syscall_0 | msg_syscall_1 | msg_syscall_2 | msg_syscall_3
  | msg_syscall_reply
  | msg_mem_copy | msg_mem_reply
  | msg_io_outb | msg_io_reply
  | msg_cap_request | msg_cap_reply
  | msg_seg_get | msg_seg_reply
  | msg_wait | msg_wait_reply
  | msg_stat | msg_fstat | msg_stat_reply
  | msg_memory_verify | msg_memory_alloc | msg_memory_free
  | msg_get_free_page | msg_put_page | msg_free_page | msg_memory_reply
  | msg_seg_put
  | msg_utime | msg_utime_reply
  | msg_signal_action | msg_signal_kill | msg_signal_procmask | msg_signal_reply
  | msg_sys_move_user | msg_sys_cli_sti | msg_sys_iret | msg_sys_set_gate
  | msg_sys_set_tss_ldt | msg_sys_reply
  | msg_uname | msg_uname_reply
  deriving DecidableEq

/-- What the headers use without defining it: the layout (`sizeof`), four
message identifiers, the file right `CAP_FILE`, and the words that lie behind
the 74 entries of `syscall_to_server` (read when the table is indexed out of
range). -/
structure Target where
  sizeof : CStruct → Nat
  MSG_MEM_REQUEST_CAP : Nat
  MSG_CAP_REQUEST_PROCESS : Nat
  MSG_CAP_REQUEST_FILE : Nat
  MSG_CAP_REQUEST_SIGNAL : Nat
  CAP_FILE : Nat
  beyond_table : Nat → Nat

/-- The fields of `*kernel_state` that the embedded functions read. -/
structure mk_kernel_state where
  kernel_port : Nat
  memory_server : Nat
  process_server : Nat
  file_server : Nat
  fs_server : Nat
  signal_server : Nat
  time_server : Nat
  user_server : Nat
  terminal_server : Nat
  ipc_server : Nat
  system_server : Nat
  device_server : Nat
  current_task : Nat
  deriving DecidableEq

/-- One call of a transport primitive together with its outcome. -/
inductive Event where
  | send (port : Nat) (msg : Msg) (size : Nat) (status : Int)
  | receive (port : Nat) (capacity : Nat) (status : Int) (reply : ReplyBuf)
  deriving DecidableEq

/-- The outside world: how it answers `mk_msg_send(port, msg, size)` and
`mk_msg_receive(port, buf, &size)` in a given world state. -/
structure Transport (σ : Type) where
  send : σ → Nat → Msg → Nat → Int × σ
  receive : σ → Nat → Nat → Int × ReplyBuf × σ

/-- Read-only context of a run. -/
structure Ctx (σ : Type) where
  transport : Transport σ
  kernel_state : mk_kernel_state
  target : Target

/-- Mutable state of a task: the globals `current_capability` and
`current_fs_space`, the world, and the trace of transport calls so far. -/
structure State (σ : Type) where
  current_capability : Nat
  current_fs_space : Nat
  world : σ
  trace : List Event

/-- The messages sent in a trace, with their destination, in order. -/
def sent : List Event → List (Nat × Msg)
  | [] => []
  | Event.send port msg _ _ :: es => (port, msg) :: sent es
  | Event.receive _ _ _ _ :: es => sent es

/-- The endpoints on which `mk_msg_receive` was called in a trace, in order. -/
def received : List Event → List Nat
  | [] => []
  | Event.send _ _ _ _ :: es => received es
  | Event.receive port _ _ _ :: es => port :: received es

/-- Transport primitive `mk_msg_send`. -/
def mk_msg_send {σ : Type} (c : Ctx σ) (port : Nat) (msg : Msg) (size : Nat)
    (s : State σ) : Int × State σ :=
  let r := c.transport.send s.world port msg size
  (r.1, { s with world := r.2, trace := s.trace ++ [Event.send port msg size r.1] })

/-- Transport primitive `mk_msg_receive`. -/
def mk_msg_receive {σ : Type} (c : Ctx σ) (port : Nat) (capacity : Nat)
    (s : State σ) : Int × ReplyBuf × State σ :=
  let r := c.transport.receive s.world port capacity
  (r.1, r.2.1,
    { s with world := r.2.2,
             trace := s.trace ++ [Event.receive port capacity r.1 r.2.1] })

/-! ## The dispatcher of `linux/sys.h` -/

/-- The initialiser of `syscall_to_server`, in index order. -/
def syscall_to_server : List Nat :=
  [ /- 0 setup -/ SERVER_SYSTEM,
    /- 1 exit -/ SERVER_PROCESS,
    /- 2 fork -/ SERVER_PROCESS,
    /- 3 read -/ SERVER_FILE,
    /- 4 write -/ SERVER_FILE,
    /- 5 open -/ SERVER_FILE,
    /- 6 close -/ SERVER_FILE,
    /- 7 waitpid -/ SERVER_PROCESS,
    /- 8 creat -/ SERVER_FILE,
    /- 9 link -/ SERVER_FILE,
    /- 10 unlink -/ SERVER_FILE,
    /- 11 execve -/ SERVER_PROCESS,
    /- 12 chdir -/ SERVER_FILE,
    /- 13 time -/ SERVER_TIME,
    /- 14 mknod -/ SERVER_FILE,
    /- 15 chmod -/ SERVER_FILE,
    /- 16 chown -/ SERVER_FILE,
    /- 17 break -/ SERVER_MEMORY,
    /- 18 stat -/ SERVER_FILE,
    /- 19 lseek -/ SERVER_FILE,
    /- 20 getpid -/ SERVER_PROCESS,
    /- 21 mount -/ SERVER_FS,
    /- 22 umount -/ SERVER_FS,
    /- 23 setuid -/ SERVER_USER,
    /- 24 getuid -/ SERVER_USER,
    /- 25 stime -/ SERVER_TIME,
    /- 26 ptrace -/ SERVER_PROCESS,
    /- 27 alarm -/ SERVER_PROCESS,
    /- 28 fstat -/ SERVER_FILE,
    /- 29 pause -/ SERVER_PROCESS,
    /- 30 utime -/ SERVER_FILE,
    /- 31 stty -/ SERVER_TERMINAL,
    /- 32 gtty -/ SERVER_TERMINAL,
    /- 33 access -/ SERVER_FILE,
    /- 34 nice -/ SERVER_PROCESS,
    /- 35 ftime -/ SERVER_TIME,
    /- 36 sync -/ SERVER_FILE,
    /- 37 kill -/ SERVER_SIGNAL,
    /- 38 rename -/ SERVER_FILE,
    /- 39 mkdir -/ SERVER_FILE,
    /- 40 rmdir -/ SERVER_FILE,
    /- 41 dup -/ SERVER_IPC,
    /- 42 pipe -/ SERVER_IPC,
    /- 43 times -/ SERVER_PROCESS,
    /- 44 prof -/ SERVER_PROCESS,
    /- 45 brk -/ SERVER_MEMORY,
    /- 46 setgid -/ SERVER_USER,
    /- 47 getgid -/ SERVER_USER,
    /- 48 signal -/ SERVER_SIGNAL,
    /- 49 geteuid -/ SERVER_USER,
    /- 50 getegid -/ SERVER_USER,
    /- 51 acct -/ SERVER_PROCESS,
    /- 52 phys -/ SERVER_MEMORY,
    /- 53 lock -/ SERVER_FILE,
    /- 54 ioctl -/ SERVER_FILE,
    /- 55 fcntl -/ SERVER_FILE,
    /- 56 mpx -/ SERVER_PROCESS,
    /- 57 setpgid -/ SERVER_PROCESS,
    /- 58 ulimit -/ SERVER_PROCESS,
    /- 59 uname -/ SERVER_SYSTEM,
    /- 60 umask -/ SERVER_PROCESS,
    /- 61 chroot -/ SERVER_FILE,
    /- 62 ustat -/ SERVER_FILE,
    /- 63 dup2 -/ SERVER_IPC,
    /- 64 getppid -/ SERVER_PROCESS,
    /- 65 getpgrp -/ SERVER_PROCESS,
    /- 66 setsid -/ SERVER_PROCESS,
    /- 67 sigaction -/ SERVER_SIGNAL,
    /- 68 sgetmask -/ SERVER_SIGNAL,
    /- 69 ssetmask -/ SERVER_SIGNAL,
    /- 70 setreuid -/ SERVER_USER,
    /- 71 setregid -/ SERVER_USER,
    /- 72 iam -/ SERVER_USER,
    /- 73 whoami -/ SERVER_USER ]

/-- The C expression `syscall_to_server[nr]`.  The array has `__NR_syscalls`
entries and the code indexes it without a range check, so for
`nr ≥ __NR_syscalls` the value is the word that happens to lie behind the
array. -/
def syscall_to_server_at (t : Target) (nr : Nat) : Nat :=
  match syscall_to_server.get? nr with
  | some v => v
  | none => t.beyond_table nr

/-- The first `switch` of `do_syscall`: the endpoint of a server id, `none`
for the `default` branch. -/
def server_port (ks : mk_kernel_state) (server : Nat) : Option Nat :=
  if server = SERVER_PROCESS then some ks.process_server
  else if server = SERVER_FILE then some ks.file_server
  else if server = SERVER_FS then some ks.fs_server
  else if server = SERVER_SIGNAL then some ks.signal_server
  else if server = SERVER_TIME then some ks.time_server
  else if server = SERVER_USER then some ks.user_server
  else if server = SERVER_TERMINAL then some ks.terminal_server
  else if server = SERVER_IPC then some ks.ipc_server
  else if server = SERVER_MEMORY then some ks.memory_server
  else if server = SERVER_SYSTEM then some ks.system_server
  else none

/-- The second `switch` of `do_syscall`: build the message for `arg_count`
and send it; `none` for the `default` branch. -/
def do_syscall_send {σ : Type} (c : Ctx σ) (port : Nat) (nr a1 a2 a3 : Nat)
    (arg_count : Int) (s : State σ) : Option (Int × State σ) :=
  let header : mk_syscall_header :=
    { syscall_nr := nr,
      sender_task := c.kernel_state.current_task,
      reply_port := c.kernel_state.kernel_port,
      server_id := syscall_to_server_at c.target nr }
  if arg_count = 0 then
    some (mk_msg_send c port (Msg.syscall0 { header := header })
      (c.target.sizeof CStruct.msg_syscall_0) s)
  else if arg_count = 1 then
    some (mk_msg_send c port (Msg.syscall1 { header := header, arg1 := a1 })
      (c.target.sizeof CStruct.msg_syscall_1) s)
  else if arg_count = 2 then
    some (mk_msg_send c port
      (Msg.syscall2 { header := header, arg1 := a1, arg2 := a2 })
      (c.target.sizeof CStruct.msg_syscall_2) s)
  else if arg_count = 3 then
    some (mk_msg_send c port
      (Msg.syscall3 { header := header, arg1 := a1, arg2 := a2, arg3 := a3 })
      (c.target.sizeof CStruct.msg_syscall_3) s)
  else none

/-- The function `do_syscall(nr, a1, a2, a3, arg_count)`. -/
def do_syscall {σ : Type} (c : Ctx σ) (nr a1 a2 a3 : Nat) (arg_count : Int)
    (s : State σ) : Int × State σ :=
  match server_port c.kernel_state (syscall_to_server_at c.target nr) with
  | none => (-1, s)
  | some port =>
    match do_syscall_send c port nr a1 a2 a3 arg_count s with
    | none => (-1, s)
    | some (result, s1) =>
      if result < 0 then (result, s1)
      else
        let r := mk_msg_receive c c.kernel_state.kernel_port
          (c.target.sizeof CStruct.msg_syscall_reply) s1
        if r.1 < 0 then (r.1, r.2.2)
        else (r.2.1.syscall.result, r.2.2)

/-- The wrapper `ptrace(request, pid, addr, data)` of `unistd.h`; the casts to
`unsigned long` are taken modulo `2 ^ 32`. -/
def ptrace {σ : Type} (c : Ctx σ) (request pid addr data : Int)
    (s : State σ) : Int × State σ :=
  do_syscall c __NR_ptrace (request % 2 ^ 32).toNat (pid % 2 ^ 32).toNat
    (addr % 2 ^ 32).toNat 4 s

/-- The header of a dispatcher message, `none` for any other message. -/
def syscall_header? : Msg → Option mk_syscall_header
  | Msg.syscall0 m => some m.header
  | Msg.syscall1 m => some m.header
  | Msg.syscall2 m => some m.header
  | Msg.syscall3 m => some m.header
  | _ => none

/-- The argument slots a dispatcher message carries, in order. -/
def syscall_args : Msg → List Nat
  | Msg.syscall1 m => [m.arg1]
  | Msg.syscall2 m => [m.arg1, m.arg2]
  | Msg.syscall3 m => [m.arg1, m.arg2, m.arg3]
  | _ => []

/-! ## Capability escalation -/

/-- The request built by `request_memory_capability` (`asm/memory.h`): a
`struct msg_mem_copy` in which only the header, `caps` and `task_id` are
assigned. -/
def request_memory_capability_msg {σ : Type} (c : Ctx σ) (s : State σ) :
    msg_mem_copy :=
  { header :=
      { msg_id := c.target.MSG_MEM_REQUEST_CAP,
        sender_port := c.kernel_state.kernel_port,
        reply_port := c.kernel_state.kernel_port,
        size := c.target.sizeof CStruct.msg_mem_copy },
    dest := none, src := none, n := none,
    caps := s.current_capability,
    task_id := c.kernel_state.current_task,
    dest_space := none, src_space := none }

/-- The function `request_memory_capability()` of `asm/memory.h`. -/
def request_memory_capability {σ : Type} (c : Ctx σ) (s : State σ) :
    Int × State σ :=
  let r1 := mk_msg_send c c.kernel_state.memory_server
    (Msg.mem_copy (request_memory_capability_msg c s))
    (c.target.sizeof CStruct.msg_mem_copy) s
  if r1.1 = 0 then
    let r2 := mk_msg_receive c c.kernel_state.kernel_port
      (c.target.sizeof CStruct.msg_mem_reply) r1.2
    if r2.1 = 0 then
      if r2.2.1.mem.result = 0 then
        (0, { r2.2.2 with
                current_capability := r2.2.2.current_capability ||| CAP_MEMORY })
      else (-1, r2.2.2)
    else (-1, r2.2.2)
  else (-1, r1.2)

/-- The request built by `request_io_capability` (`asm/io.h`). -/
def request_io_capability_msg {σ : Type} (c : Ctx σ) (s : State σ) :
    msg_io_outb :=
  { header :=
      { msg_id := MSG_IO_REQUEST_CAP,
        sender_port := c.kernel_state.kernel_port,
        reply_port := c.kernel_state.kernel_port,
        size := c.target.sizeof CStruct.msg_io_outb },
    caps := s.current_capability,
    task_id := c.kernel_state.current_task,
    port := 0,
    value := 0 }

/-- The function `request_io_capability()` of `asm/io.h`; `DEVICE_SERVER_PORT`
is `kernel_state->device_server` there. -/
def request_io_capability {σ : Type} (c : Ctx σ) (s : State σ) :
    Int × State σ :=
  let r1 := mk_msg_send c c.kernel_state.device_server
    (Msg.io_outb (request_io_capability_msg c s))
    (c.target.sizeof CStruct.msg_io_outb) s
  if r1.1 = 0 then
    let r2 := mk_msg_receive c c.kernel_state.kernel_port
      (c.target.sizeof CStruct.msg_io_reply) r1.2
    if r2.1 = 0 then
      if r2.2.1.io.result = 0 then
        (0, { r2.2.2 with
                current_capability := r2.2.2.current_capability ||| CAP_IO })
      else (-1, r2.2.2)
    else (-1, r2.2.2)
  else (-1, r1.2)

/-- The request built by `request_process_capability` (`sys/wait.h`). -/
def request_process_capability_msg {σ : Type} (c : Ctx σ) : msg_cap_request :=
  { header :=
      { msg_id := c.target.MSG_CAP_REQUEST_PROCESS,
        sender_port := c.kernel_state.kernel_port,
        reply_port := c.kernel_state.kernel_port,
        size := c.target.sizeof CStruct.msg_cap_request },
    task_id := c.kernel_state.current_task,
    requested_cap := CAP_PROCESS }

/-- The function `request_process_capability()` of `sys/wait.h`. -/
def request_process_capability {σ : Type} (c : Ctx σ) (s : State σ) :
    Int × State σ :=
  let r1 := mk_msg_send c c.kernel_state.process_server
    (Msg.cap_request (request_process_capability_msg c))
    (c.target.sizeof CStruct.msg_cap_request) s
  if r1.1 = 0 then
    let r2 := mk_msg_receive c c.kernel_state.kernel_port
      (c.target.sizeof CStruct.msg_cap_reply) r1.2
    if r2.1 = 0 then
      if r2.2.1.cap.result = 0 then
        (0, { r2.2.2 with
                current_capability := r2.2.2.current_capability ||| CAP_PROCESS })
      else (-1, r2.2.2)
    else (-1, r2.2.2)
  else (-1, r1.2)

/-- The request built by `request_file_capability` (`sys/stat.h`). -/
def request_file_capability_msg {σ : Type} (c : Ctx σ) : msg_cap_request :=
  { header :=
      { msg_id := c.target.MSG_CAP_REQUEST_FILE,
        sender_port := c.kernel_state.kernel_port,
        reply_port := c.kernel_state.kernel_port,
        size := c.target.sizeof CStruct.msg_cap_request },
    task_id := c.kernel_state.current_task,
    requested_cap := c.target.CAP_FILE }

/-- The function `request_file_capability()` of `sys/stat.h`. -/
def request_file_capability {σ : Type} (c : Ctx σ) (s : State σ) :
    Int × State σ :=
  let r1 := mk_msg_send c c.kernel_state.file_server
    (Msg.cap_request (request_file_capability_msg c))
    (c.target.sizeof CStruct.msg_cap_request) s
  if r1.1 = 0 then
    let r2 := mk_msg_receive c c.kernel_state.kernel_port
      (c.target.sizeof CStruct.msg_cap_reply) r1.2
    if r2.1 = 0 then
      if r2.2.1.cap.result = 0 then
        (0, { r2.2.2 with
                current_capability :=
                  r2.2.2.current_capability ||| c.target.CAP_FILE })
      else (-1, r2.2.2)
    else (-1, r2.2.2)
  else (-1, r1.2)

/-! ## Gated operations -/

/-- The request built by `get_fs_byte` (`asm/segment.h`). -/
def get_fs_byte_msg {σ : Type} (c : Ctx σ) (addr : Nat) (s : State σ) :
    msg_seg_get :=
  { header :=
      { msg_id := MSG_SEG_GET_BYTE,
        sender_port := c.kernel_state.kernel_port,
        reply_port := c.kernel_state.kernel_port,
        size := c.target.sizeof CStruct.msg_seg_get },
    addr := addr,
    space_id := s.current_fs_space,
    caps := s.current_capability,
    task_id := c.kernel_state.current_task }

/-- The part of `get_fs_byte` after the capability check: send the request
and decode the reply. -/
def get_fs_byte_request {σ : Type} (c : Ctx σ) (addr : Nat) (s : State σ) :
    Nat × State σ :=
  let r1 := mk_msg_send c c.kernel_state.memory_server
    (Msg.seg_get (get_fs_byte_msg c addr s))
    (c.target.sizeof CStruct.msg_seg_get) s
  if r1.1 = 0 then
    let r2 := mk_msg_receive c c.kernel_state.kernel_port
      (c.target.sizeof CStruct.msg_seg_reply) r1.2
    if r2.1 = 0 then
      if r2.2.1.seg.result = 0 then (r2.2.1.seg.data_byte, r2.2.2)
      else (0, r2.2.2)
    else (0, r2.2.2)
  else (0, r1.2)

/-- The function `get_fs_byte(addr)` of `asm/segment.h`. -/
def get_fs_byte {σ : Type} (c : Ctx σ) (addr : Nat) (s : State σ) :
    Nat × State σ :=
  if s.current_capability &&& CAP_MEMORY = 0 then
    let e := request_memory_capability c s
    if e.1 < 0 then (0, e.2)
    else get_fs_byte_request c addr e.2
  else get_fs_byte_request c addr s

/-- The request built by `__do_wait` (`sys/wait.h`). -/
def __do_wait_msg {σ : Type} (c : Ctx σ) (pid : Int) (options : Int)
    (s : State σ) : msg_wait :=
  { header :=
      { msg_id := if pid = -1 ∨ pid = 0 then MSG_WAIT else MSG_WAITPID,
        sender_port := c.kernel_state.kernel_port,
        reply_port := c.kernel_state.kernel_port,
        size := c.target.sizeof CStruct.msg_wait },
    pid := pid,
    options := options,
    task_id := c.kernel_state.current_task,
    caps := s.current_capability }

/-- The part of `__do_wait` after the capability check.  The result is the
returned pid, the value stored through `stat_loc` (if any) and the state. -/
def __do_wait_request {σ : Type} (c : Ctx σ) (pid : Int) (stat_loc : Nat)
    (options : Int) (s : State σ) : Int × Option Int × State σ :=
  let r1 := mk_msg_send c c.kernel_state.process_server
    (Msg.wait (__do_wait_msg c pid options s))
    (c.target.sizeof CStruct.msg_wait) s
  if r1.1 < 0 then (-1, none, r1.2)
  else
    let r2 := mk_msg_receive c c.kernel_state.kernel_port
      (c.target.sizeof CStruct.msg_wait_reply) r1.2
    if r2.1 < 0 then (-1, none, r2.2.2)
    else
      let reply := r2.2.1.wait
      let result_pid := reply.pid
      let stored : Option Int :=
        if stat_loc ≠ 0 ∧ reply.result = 0 then some reply.status else none
      let s3 : State σ :=
        if reply.remaining_caps ≠ 0 then
          { r2.2.2 with
              current_capability :=
                r2.2.2.current_capability ||| reply.remaining_caps }
        else r2.2.2
      (if reply.result < 0 then reply.result else result_pid, stored, s3)

/-- The function `__do_wait(pid, stat_loc, options)` of `sys/wait.h`. -/
def __do_wait {σ : Type} (c : Ctx σ) (pid : Int) (stat_loc : Nat)
    (options : Int) (s : State σ) : Int × Option Int × State σ :=
  if s.current_capability &&& CAP_PROCESS = 0 then
    let e := request_process_capability c s
    if e.1 < 0 then (-1, none, e.2)
    else __do_wait_request c pid stat_loc options e.2
  else __do_wait_request c pid stat_loc options s

/-- The request built by `__do_stat` (`sys/stat.h`): a `struct msg_fstat`
when `is_fstat` is non-zero, a `struct msg_stat` otherwise, with the size
passed to the transport. -/
def __do_stat_msg {σ : Type} (c : Ctx σ) (path stat_buf : Nat) (is_fstat : Int)
    (fd : Int) (s : State σ) : Msg × Nat :=
  if is_fstat ≠ 0 then
    (Msg.fstat
      { header :=
          { msg_id := MSG_FSTAT,
            sender_port := c.kernel_state.kernel_port,
            reply_port := c.kernel_state.kernel_port,
            size := c.target.sizeof CStruct.msg_fstat },
        fd := fd,
        stat_buf := stat_buf,
        task_id := c.kernel_state.current_task,
        caps := s.current_capability },
      c.target.sizeof CStruct.msg_fstat)
  else
    (Msg.stat
      { header :=
          { msg_id := MSG_STAT,
            sender_port := c.kernel_state.kernel_port,
            reply_port := c.kernel_state.kernel_port,
            size := c.target.sizeof CStruct.msg_stat },
        path := path,
        stat_buf := stat_buf,
        task_id := c.kernel_state.current_task,
        caps := s.current_capability,
        flags := 0 },
      c.target.sizeof CStruct.msg_stat)

/-- The part of `__do_stat` after the argument and capability checks.  The
result is the returned code, the record copied to `*stat_buf` (if any) and the
state. -/
def __do_stat_request {σ : Type} (c : Ctx σ) (path stat_buf : Nat)
    (is_fstat : Int) (fd : Int) (s : State σ) : Int × Option stat × State σ :=
  let m := __do_stat_msg c path stat_buf is_fstat fd s
  let r1 := mk_msg_send c c.kernel_state.file_server m.1 m.2 s
  if r1.1 < 0 then (-1, none, r1.2)
  else
    let r2 := mk_msg_receive c c.kernel_state.kernel_port
      (c.target.sizeof CStruct.msg_stat_reply) r1.2
    if r2.1 < 0 then (-1, none, r2.2.2)
    else
      let reply := r2.2.1.stat
      if reply.result = 0 then
        let s3 : State σ :=
          if reply.file_caps ≠ 0 then
            { r2.2.2 with
                current_capability :=
                  r2.2.2.current_capability ||| reply.file_caps }
          else r2.2.2
        (reply.result, some reply.st, s3)
      else (reply.result, none, r2.2.2)

/-- The function `__do_stat(path, stat_buf, is_fstat, fd)` of `sys/stat.h`.
The `memcpy` into `*stat_buf` is the plain copy of the record (`sys/stat.h`
does not include `asm/memory.h`). -/
def __do_stat {σ : Type} (c : Ctx σ) (path stat_buf : Nat) (is_fstat : Int)
    (fd : Int) (s : State σ) : Int × Option stat × State σ :=
  if stat_buf = 0 then (-1, none, s)
  else if s.current_capability &&& c.target.CAP_FILE = 0 then
    let e := request_file_capability c s
    if e.1 < 0 then (-1, none, e.2)
    else __do_stat_request c path stat_buf is_fstat fd e.2
  else __do_stat_request c path stat_buf is_fstat fd s

/-! ## Wait status words (`sys/wait.h`) -/

/-- Wrap an integer into the range of a 32-bit `int` (two's complement). -/
def int32 (x : Int) : Int := (x + 2 ^ 31) % 2 ^ 32 - 2 ^ 31

/-- The C expression `x << k` on `int`. -/
def shl (x : Int) (k : Nat) : Int := int32 (x * 2 ^ k)

/-- The function `make_exit_status(exit_code, caps_released)`. -/
def make_exit_status (exit_code caps_released : Int) : Int :=
  Int.lor (Int.lor (shl exit_code 8) (shl caps_released 16)) 0x00

/-- The macro `WIFEXITED(s)`: `!((s)&0xFF)`. -/
def WIFEXITED (s : Int) : Bool := decide (Int.land s 0xFF = 0)

/-- The macro `WEXITSTATUS(s)`: `(((s)>>8)&0xFF)`. -/
def WEXITSTATUS (s : Int) : Int := Int.land (s >>> 8) 0xFF

/-- The macro `WCAPRELEASED(s)`: `(((s) >> 16) & 0xFF)`. -/
def WCAPRELEASED (s : Int) : Int := Int.land (s >>> 16) 0xFF

/-- The function `make_stop_status(signal, caps_held)`. -/
def make_stop_status (signal caps_held : Int) : Int :=
  Int.lor (Int.lor 0x7F (shl signal 8)) (shl caps_held 16)

/-- The macro `WIFSTOPPED(s)`: `(((s)&0xFF)==0x7F)`. -/
def WIFSTOPPED (s : Int) : Bool := decide (Int.land s 0xFF = 0x7F)

/-- The macro `WSTOPSIG(s)`: `(((s)>>8)&0xFF)`. -/
def WSTOPSIG (s : Int) : Int := Int.land (s >>> 8) 0xFF

/-- The conversion `(unsigned int)(s)` of an `int`. -/
def to_unsigned (s : Int) : Nat := (s % 2 ^ 32).toNat

/-- The macro `WIFSIGNALED(s)`: `(((unsigned int)(s)-1 & 0xFFFF) < 0xFF)`.
The subtraction binds tighter than `&` and is taken modulo `2 ^ 32`. -/
def WIFSIGNALED (s : Int) : Bool :=
  decide (((to_unsigned s + 2 ^ 32 - 1) % 2 ^ 32) &&& 0xFFFF < 0xFF)

/-! ## Signal sets (`signal.h`)

A `sigset_t *` argument is `none` for a null pointer and `some m` for a
pointer to a set holding `m`; the second component of a result is what the
pointer refers to afterwards. -/

/-- The function `sigemptyset(mask)`. -/
def sigemptyset (mask : Option Nat) : Int × Option Nat :=
  match mask with
  | none => (-1, none)
  | some _ => (0, some 0)

/-- The function `sigfillset(mask)`; `~0U` is `0xFFFFFFFF`. -/
def sigfillset (mask : Option Nat) : Int × Option Nat :=
  match mask with
  | none => (-1, none)
  | some _ => (0, some 0xFFFFFFFF)

/-- The function `sigaddset(mask, signo)`. -/
def sigaddset (mask : Option Nat) (signo : Int) : Int × Option Nat :=
  match mask with
  | none => (-1, none)
  | some m =>
    if signo < 1 ∨ signo ≥ _NSIG then (-1, some m)
    else (0, some (m ||| (1 <<< (signo - 1).toNat)))

/-- The function `sigdelset(mask, signo)`; the complement of the `int`
`1 << (signo - 1)`, converted to `unsigned int`, is `0xFFFFFFFF` minus it. -/
def sigdelset (mask : Option Nat) (signo : Int) : Int × Option Nat :=
  match mask with
  | none => (-1, none)
  | some m =>
    if signo < 1 ∨ signo ≥ _NSIG then (-1, some m)
    else (0, some (m &&& (0xFFFFFFFF - (1 <<< (signo - 1).toNat))))

/-- The function `sigismember(mask, signo)`. -/
def sigismember (mask : Option Nat) (signo : Int) : Int :=
  match mask with
  | none => -1
  | some m =>
    if signo < 1 ∨ signo ≥ _NSIG then -1
    else if m &&& (1 <<< (signo - 1).toNat) ≠ 0 then 1 else 0

/-! ## Memory requests of `linux/kernel.h` and `linux/mm.h` -/

/-- The request built by `verify_area`. -/
def verify_area_msg {σ : Type} (c : Ctx σ) (addr : Nat) (count : Int)
    (s : State σ) : msg_memory_verify :=
  { header :=
      { msg_id := MSG_MEM_VERIFY,
        sender_port := c.kernel_state.kernel_port,
        reply_port := 0,
        size := c.target.sizeof CStruct.msg_memory_verify },
    addr := addr,
    count := count,
    caps := s.current_capability }

/-- The function `verify_area(addr, count)` of `linux/kernel.h`. -/
def verify_area {σ : Type} (c : Ctx σ) (addr : Nat) (count : Int)
    (s : State σ) : State σ :=
  (mk_msg_send c c.kernel_state.memory_server
    (Msg.memory_verify (verify_area_msg c addr count s))
    (c.target.sizeof CStruct.msg_memory_verify) s).2

/-- The request built by `malloc`. -/
def malloc_msg {σ : Type} (c : Ctx σ) (size : Nat) (s : State σ) :
    msg_memory_alloc :=
  { header :=
      { msg_id := MSG_MEM_ALLOC,
        sender_port := c.kernel_state.kernel_port,
        reply_port := c.kernel_state.kernel_port,
        size := c.target.sizeof CStruct.msg_memory_alloc },
    size := size,
    caps := s.current_capability }

/-- The function `malloc(size)` of `linux/kernel.h`.  On a send status of `0`
the code returns `(void *)msg`, the request structure itself converted to a
pointer; that value is the argument `msg_as_pointer`.  Otherwise it returns
`NULL`. -/
def malloc {σ : Type} (c : Ctx σ) (size : Nat) (msg_as_pointer : Nat)
    (s : State σ) : Nat × State σ :=
  let r1 := mk_msg_send c c.kernel_state.memory_server
    (Msg.memory_alloc (malloc_msg c size s))
    (c.target.sizeof CStruct.msg_memory_alloc) s
  if r1.1 = 0 then (msg_as_pointer, r1.2)
  else (0, r1.2)

/-- The request built by `free_s`. -/
def free_s_msg {σ : Type} (c : Ctx σ) (obj : Nat) (size : Int) (s : State σ) :
    msg_memory_free :=
  { header :=
      { msg_id := MSG_MEM_FREE,
        sender_port := c.kernel_state.kernel_port,
        reply_port := 0,
        size := c.target.sizeof CStruct.msg_memory_free },
    obj := obj,
    size := size,
    caps := s.current_capability }

/-- The function `free_s(obj, size)` of `linux/kernel.h`. -/
def free_s {σ : Type} (c : Ctx σ) (obj : Nat) (size : Int) (s : State σ) :
    State σ :=
  (mk_msg_send c c.kernel_state.memory_server
    (Msg.memory_free (free_s_msg c obj size s))
    (c.target.sizeof CStruct.msg_memory_free) s).2

/-- The request built by `get_free_page`. -/
def get_free_page_msg {σ : Type} (c : Ctx σ) : msg_get_free_page :=
  { header :=
      { msg_id := MSG_MEM_GET_FREE_PAGE,
        sender_port := c.kernel_state.kernel_port,
        reply_port := c.kernel_state.kernel_port,
        size := c.target.sizeof CStruct.msg_get_free_page },
    task_id := c.kernel_state.current_task,
    flags := MEM_FLAG_ZERO }

/-- The function `get_free_page()` of `linux/mm.h`. -/
def get_free_page {σ : Type} (c : Ctx σ) (s : State σ) : Nat × State σ :=
  let r1 := mk_msg_send c c.kernel_state.memory_server
    (Msg.get_free_page (get_free_page_msg c))
    (c.target.sizeof CStruct.msg_get_free_page) s
  if r1.1 < 0 then (0, r1.2)
  else
    let r2 := mk_msg_receive c c.kernel_state.kernel_port
      (c.target.sizeof CStruct.msg_memory_reply) r1.2
    if r2.1 < 0 ∨ r2.2.1.memory.result < 0 then (0, r2.2.2)
    else (r2.2.1.memory.value, r2.2.2)

/-- The request built by `put_page`. -/
def put_page_msg {σ : Type} (c : Ctx σ) (page address : Nat) : msg_put_page :=
  { header :=
      { msg_id := MSG_MEM_PUT_PAGE,
        sender_port := c.kernel_state.kernel_port,
        reply_port := c.kernel_state.kernel_port,
        size := c.target.sizeof CStruct.msg_put_page },
    page := page,
    address := address,
    task_id := c.kernel_state.current_task,
    protection := VM_PROT_DEFAULT }

/-- The function `put_page(page, address)` of `linux/mm.h`. -/
def put_page {σ : Type} (c : Ctx σ) (page address : Nat) (s : State σ) :
    Nat × State σ :=
  let r1 := mk_msg_send c c.kernel_state.memory_server
    (Msg.put_page (put_page_msg c page address))
    (c.target.sizeof CStruct.msg_put_page) s
  if r1.1 < 0 then (0, r1.2)
  else
    let r2 := mk_msg_receive c c.kernel_state.kernel_port
      (c.target.sizeof CStruct.msg_memory_reply) r1.2
    if r2.1 < 0 ∨ r2.2.1.memory.result < 0 then (0, r2.2.2)
    else (r2.2.1.memory.value, r2.2.2)

/-- The request built by `free_page`. -/
def free_page_msg {σ : Type} (c : Ctx σ) (addr : Nat) : msg_free_page :=
  { header :=
      { msg_id := MSG_MEM_FREE_PAGE,
        sender_port := c.kernel_state.kernel_port,
        reply_port := 0,
        size := c.target.sizeof CStruct.msg_free_page },
    addr := addr,
    task_id := c.kernel_state.current_task }

/-- The function `free_page(addr)` of `linux/mm.h`. -/
def free_page {σ : Type} (c : Ctx σ) (addr : Nat) (s : State σ) : State σ :=
  (mk_msg_send c c.kernel_state.memory_server
    (Msg.free_page (free_page_msg c addr))
    (c.target.sizeof CStruct.msg_free_page) s).2

/-- The request built by `put_fs_byte`; the value is
`(unsigned long)(unsigned char)val`. -/
def put_fs_byte_msg {σ : Type} (c : Ctx σ) (val : Int) (addr : Nat)
    (s : State σ) : msg_seg_put :=
  { header :=
      { msg_id := MSG_SEG_PUT_BYTE,
        sender_port := c.kernel_state.kernel_port,
        reply_port := 0,
        size := c.target.sizeof CStruct.msg_seg_put },
    addr := addr,
    value := (val % 256).toNat,
    space_id := s.current_fs_space,
    caps := s.current_capability,
    task_id := c.kernel_state.current_task }

/-- The function `put_fs_byte(val, addr)` of `asm/segment.h`. -/
def put_fs_byte {σ : Type} (c : Ctx σ) (val : Int) (addr : Nat)
    (s : State σ) : State σ :=
  if s.current_capability &&& CAP_MEMORY = 0 then s
  else
    (mk_msg_send c c.kernel_state.memory_server
      (Msg.seg_put (put_fs_byte_msg c val addr s))
      (c.target.sizeof CStruct.msg_seg_put) s).2

/-- The envelope of a domain message, `none` for a dispatcher message. -/
def msg_header? : Msg → Option mk_msg_header
  | Msg.mem_copy m => some m.header
  | Msg.io_outb m => some m.header
  | Msg.cap_request m => some m.header
  | Msg.seg_get m => some m.header
  | Msg.wait m => some m.header
  | Msg.stat m => some m.header
  | Msg.fstat m => some m.header
  | Msg.memory_verify m => some m.header
  | Msg.memory_alloc m => some m.header
  | Msg.memory_free m => some m.header
  | Msg.get_free_page m => some m.header
  | Msg.put_page m => some m.header
  | Msg.free_page m => some m.header
  | Msg.seg_put m => some m.header
  | Msg.utime m => some m.header
  | Msg.signal_action m => some m.header
  | Msg.signal_kill m => some m.header
  | Msg.signal_procmask m => some m.header
  | Msg.sys_move_user m => some m.header
  | Msg.sys_cli_sti m => some m.header
  | Msg.sys_iret m => some m.header
  | Msg.sys_set_gate m => some m.header
  | Msg.sys_set_tss_ldt m => some m.header
  | Msg.uname m => some m.header
  | _ => none

/-! ## File timestamps (`utime.h`) -/

/-- The request built by `__do_utime`. -/
def __do_utime_msg {σ : Type} (c : Ctx σ) (filename times flags : Nat)
    (s : State σ) : msg_utime :=
  { header :=
      { msg_id := MSG_UTIME,
        sender_port := c.kernel_state.kernel_port,
        reply_port := c.kernel_state.kernel_port,
        size := c.target.sizeof CStruct.msg_utime },
    filename := filename,
    times := times,
    task_id := c.kernel_state.current_task,
    caps := s.current_capability,
    flags := flags }

/-- The part of `__do_utime` after the argument and capability checks. -/
def __do_utime_request {σ : Type} (c : Ctx σ) (filename times flags : Nat)
    (s : State σ) : Int × State σ :=
  let r1 := mk_msg_send c c.kernel_state.file_server
    (Msg.utime (__do_utime_msg c filename times flags s))
    (c.target.sizeof CStruct.msg_utime) s
  if r1.1 < 0 then (-1, r1.2)
  else
    let r2 := mk_msg_receive c c.kernel_state.kernel_port
      (c.target.sizeof CStruct.msg_utime_reply) r1.2
    if r2.1 < 0 then (-1, r2.2.2)
    else
      let reply := r2.2.1.utime
      let s3 : State σ :=
        if reply.granted_caps ≠ 0 then
          { r2.2.2 with
              current_capability :=
                r2.2.2.current_capability ||| reply.granted_caps }
        else r2.2.2
      (reply.result, s3)

/-- The function `__do_utime(filename, times, flags)` of `utime.h`.  The
`request_file_capability` it calls is the one of `utime.h`, whose text is that
of `sys/stat.h`. -/
def __do_utime {σ : Type} (c : Ctx σ) (filename times flags : Nat)
    (s : State σ) : Int × State σ :=
  if filename = 0 then (-1, s)
  else if s.current_capability &&& c.target.CAP_FILE = 0 then
    let e := request_file_capability c s
    if e.1 < 0 then
      if e.2.current_capability &&& CAP_SYSTEM = 0 then (-1, e.2)
      else __do_utime_request c filename times flags e.2
    else __do_utime_request c filename times flags e.2
  else __do_utime_request c filename times flags s

/-! ## Signal operations (`signal.h`) -/

/-- The request built by `request_signal_capability(caps)`. -/
def request_signal_capability_msg {σ : Type} (c : Ctx σ) (caps : Nat) :
    msg_cap_request :=
  { header :=
      { msg_id := c.target.MSG_CAP_REQUEST_SIGNAL,
        sender_port := c.kernel_state.kernel_port,
        reply_port := c.kernel_state.kernel_port,
        size := c.target.sizeof CStruct.msg_cap_request },
    task_id := c.kernel_state.current_task,
    requested_cap := caps }

/-- The function `request_signal_capability(caps)` of `signal.h`. -/
def request_signal_capability {σ : Type} (c : Ctx σ) (caps : Nat)
    (s : State σ) : Int × State σ :=
  let r1 := mk_msg_send c c.kernel_state.signal_server
    (Msg.cap_request (request_signal_capability_msg c caps))
    (c.target.sizeof CStruct.msg_cap_request) s
  if r1.1 = 0 then
    let r2 := mk_msg_receive c c.kernel_state.kernel_port
      (c.target.sizeof CStruct.msg_cap_reply) r1.2
    if r2.1 = 0 then
      if r2.2.1.cap.result = 0 then
        (0, { r2.2.2 with
                current_capability := r2.2.2.current_capability ||| caps })
      else (-1, r2.2.2)
    else (-1, r2.2.2)
  else (-1, r1.2)

/-- The request built by `__do_signal_action`; `act` is `none` for a null
pointer. -/
def __do_signal_action_msg {σ : Type} (c : Ctx σ) (sig : Int)
    (act : Option sigaction) (s : State σ) : msg_signal_action :=
  { header :=
      { msg_id := MSG_SIGNAL_ACTION,
        sender_port := c.kernel_state.kernel_port,
        reply_port := c.kernel_state.kernel_port,
        size := c.target.sizeof CStruct.msg_signal_action },
    sig := sig,
    handler_port := match act with
      | some a => a.sa_handler_port
      | none => 0,
    mask := match act with
      | some a => a.sa_mask
      | none => 0,
    flags := match act with
      | some a => a.sa_flags
      | none => 0,
    task_id := c.kernel_state.current_task,
    caps := s.current_capability }

/-- The function `__do_signal_action(sig, act, oldact)` of `signal.h`.  The
result is the returned code, the record stored through `oldact` (if any) and
the state. -/
def __do_signal_action {σ : Type} (c : Ctx σ) (sig : Int)
    (act : Option sigaction) (oldact : Nat) (s : State σ) :
    Int × Option sigaction × State σ :=
  if s.current_capability &&& CAP_SIGNAL_ACTION = 0 then (-1, none, s)
  else
    let r1 := mk_msg_send c c.kernel_state.signal_server
      (Msg.signal_action (__do_signal_action_msg c sig act s))
      (c.target.sizeof CStruct.msg_signal_action) s
    if r1.1 < 0 then (-1, none, r1.2)
    else
      let r2 := mk_msg_receive c c.kernel_state.kernel_port
        (c.target.sizeof CStruct.msg_signal_reply) r1.2
      if r2.1 < 0 then (-1, none, r2.2.2)
      else
        let reply := r2.2.1.signal
        let stored : Option sigaction :=
          if oldact ≠ 0 ∧ reply.result = 0 then
            some { sa_handler_port := reply.data_action_old_handler,
                   sa_mask := reply.data_action_old_mask,
                   sa_flags := reply.data_action_old_flags,
                   sa_restorer := 0 }
          else none
        (reply.result, stored, r2.2.2)

/-- The request built by `kill`. -/
def kill_msg {σ : Type} (c : Ctx σ) (pid sig : Int) (s : State σ) :
    msg_signal_kill :=
  { header :=
      { msg_id := MSG_SIGNAL_KILL,
        sender_port := c.kernel_state.kernel_port,
        reply_port := c.kernel_state.kernel_port,
        size := c.target.sizeof CStruct.msg_signal_kill },
    pid := pid,
    sig := sig,
    sender_task := c.kernel_state.current_task,
    caps := s.current_capability }

/-- The function `kill(pid, sig)` of `signal.h`. -/
def kill {σ : Type} (c : Ctx σ) (pid sig : Int) (s : State σ) :
    Int × State σ :=
  if s.current_capability &&& CAP_SIGNAL_KILL = 0
      ∧ s.current_capability &&& CAP_PROCESS = 0
      ∧ s.current_capability &&& CAP_SYSTEM = 0 then (-1, s)
  else if sig = 0 then (0, s)
  else
    let r1 := mk_msg_send c c.kernel_state.signal_server
      (Msg.signal_kill (kill_msg c pid sig s))
      (c.target.sizeof CStruct.msg_signal_kill) s
    if r1.1 < 0 then (-1, r1.2)
    else
      let r2 := mk_msg_receive c c.kernel_state.kernel_port
        (c.target.sizeof CStruct.msg_signal_reply) r1.2
      if r2.1 < 0 then (-1, r2.2.2)
      else (r2.2.1.signal.result, r2.2.2)

/-- The request built by `sigprocmask`. -/
def sigprocmask_msg {σ : Type} (c : Ctx σ) (how : Int) (set : Nat)
    (s : State σ) : msg_signal_procmask :=
  { header :=
      { msg_id := MSG_SIGNAL_PROCMASK,
        sender_port := c.kernel_state.kernel_port,
        reply_port := c.kernel_state.kernel_port,
        size := c.target.sizeof CStruct.msg_signal_procmask },
    how := how,
    set := set,
    oldset := none,
    task_id := c.kernel_state.current_task,
    caps := s.current_capability }

/-- The function `sigprocmask(how, set, oldset)` of `signal.h`.  The result is
the returned code, the mask stored through `oldset` (if any) and the state. -/
def sigprocmask {σ : Type} (c : Ctx σ) (how : Int) (set oldset : Nat)
    (s : State σ) : Int × Option Nat × State σ :=
  if s.current_capability &&& CAP_SIGNAL_MASK = 0 then (-1, none, s)
  else
    let r1 := mk_msg_send c c.kernel_state.signal_server
      (Msg.signal_procmask (sigprocmask_msg c how set s))
      (c.target.sizeof CStruct.msg_signal_procmask) s
    if r1.1 < 0 then (-1, none, r1.2)
    else
      let r2 := mk_msg_receive c c.kernel_state.kernel_port
        (c.target.sizeof CStruct.msg_signal_reply) r1.2
      if r2.1 < 0 then (-1, none, r2.2.2)
      else
        let reply := r2.2.1.signal
        let stored : Option Nat :=
          if oldset ≠ 0 ∧ reply.result = 0 then some reply.data_mask else none
        (reply.result, stored, r2.2.2)

/-- The destination endpoint and the `msg_id` of every message sent in a
trace, in order (`none` for a dispatcher message, which has no `msg_id`). -/
def sent_ids (es : List Event) : List (Nat × Option Nat) :=
  (sent es).map (fun x => (x.1, (msg_header? x.2).map (fun h => h.msg_id)))

/-- The relation "every bit set in `a` is set in `b`" on capability sets. -/
def caps_le (a b : Nat) : Prop := ∀ i : Nat, a.testBit i = true → b.testBit i = true

/-! ## `waitpid` and the signal status word (`sys/wait.h`) -/

def WNOHANG : Int := 1
def WUNTRACED : Int := 2

/-- The function `waitpid(pid, stat_loc, options)`; `~` on `int` is the
two's-complement complement. -/
def waitpid {σ : Type} (c : Ctx σ) (pid : Int) (stat_loc : Nat)
    (options : Int) (s : State σ) : Int × Option Int × State σ :=
  if Int.land options (Int.not (Int.lor WNOHANG WUNTRACED)) ≠ 0 then (-1, none, s)
  else __do_wait c pid stat_loc options s

/-- The function `make_signal_status(signal, caps_released)`. -/
def make_signal_status (signal caps_released : Int) : Int :=
  Int.lor (Int.lor signal (shl caps_released 16)) 0x80

/-- The macro `WTERMSIG(s)`: `((s)&0x7F)`. -/
def WTERMSIG (s : Int) : Int := Int.land s 0x7F

/-! ## Mode bits and file capability flags (`sys/stat.h`) -/

def S_IFMT : Nat := 0o170000
def S_IFREG : Nat := 0o100000
def S_IFBLK : Nat := 0o060000
def S_IFDIR : Nat := 0o040000
def S_IFCHR : Nat := 0o020000
def S_IFIFO : Nat := 0o010000

def S_IRWXU : Nat := 0o700
def S_IRUSR : Nat := 0o400
def S_IWUSR : Nat := 0o200
def S_IXUSR : Nat := 0o100

def S_IFCAP : Nat := 0x0000F000
def S_ICAP_READ : Nat := 0x00001000
def S_ICAP_WRITE : Nat := 0x00002000
def S_ICAP_EXEC : Nat := 0x00004000
def S_ICAP_SHARE : Nat := 0x00008000
def S_ICAP_COW : Nat := 0x00010000

/-- The macros `S_ISREG(m)` .. `S_ISFIFO(m)`: `(((m) & S_IFMT) == S_IFxxx)`. -/
def S_ISREG (m : Nat) : Bool := decide (m &&& S_IFMT = S_IFREG)
def S_ISDIR (m : Nat) : Bool := decide (m &&& S_IFMT = S_IFDIR)
def S_ISCHR (m : Nat) : Bool := decide (m &&& S_IFMT = S_IFCHR)
def S_ISBLK (m : Nat) : Bool := decide (m &&& S_IFMT = S_IFBLK)
def S_ISFIFO (m : Nat) : Bool := decide (m &&& S_IFMT = S_IFIFO)

/-- The macro `MODE_TO_FCAPS(mode)`. -/
def MODE_TO_FCAPS (mode : Nat) : Nat :=
  ((if mode &&& S_IRUSR ≠ 0 then S_ICAP_READ else 0)
    ||| (if mode &&& S_IWUSR ≠ 0 then S_ICAP_WRITE else 0))
    ||| (if mode &&& S_IXUSR ≠ 0 then S_ICAP_EXEC else 0)

/-- The macro `FCAPS_TO_MODE(caps)`. -/
def FCAPS_TO_MODE (caps : Nat) : Nat :=
  ((if caps &&& S_ICAP_READ ≠ 0 then S_IRUSR else 0)
    ||| (if caps &&& S_ICAP_WRITE ≠ 0 then S_IWUSR else 0))
    ||| (if caps &&& S_ICAP_EXEC ≠ 0 then S_IXUSR else 0)

/-! ## Operations without a request (`sys/stat.h`, `linux/mm.h`, `signal.h`,
`utime.h`) -/

/-- The function `chown(path, owner, group)` of `sys/stat.h`: the first
`return -1` is commented `EPERM`, the second `ENOSYS`. -/
def chown {σ : Type} (path owner group : Nat) (s : State σ) : Int :=
  if s.current_capability &&& CAP_SYSTEM = 0 then -1
  else -1

/-- The function `mknod(path, mode, dev)` of `sys/stat.h` (`ENOSYS`). -/
def mknod (path mode dev : Nat) : Int := -1

/-- The functions `vm_allocate`, `vm_deallocate`, `vm_protect`, `vm_inherit`
of `linux/mm.h` (each `return -1; /* Placeholder */`). -/
def vm_allocate (address size flags : Nat) : Int := -1
def vm_deallocate (address size : Nat) : Int := -1
def vm_protect (address size prot : Nat) : Int := -1
def vm_inherit (address size inherit : Nat) : Int := -1

/-- The functions `sigwaitinfo(set, info)` and `sigqueue(pid, sig, value)` of
`signal.h` (`ENOSYS`). -/
def sigwaitinfo (set info : Nat) : Int := -1
def sigqueue (pid sig : Int) (value : Nat) : Int := -1

/-- The function `futime(fd, times)` of `utime.h` (`ENOSYS`). -/
def futime (fd : Int) (times : Nat) : Int := -1

/-! ## Page arithmetic (`linux/mm.h`) -/

def PAGE_SIZE : Nat := 4096

/-- The bits of the C expression `~x` in a 32-bit `unsigned long`. -/
def not32 (x : Nat) : Nat := 2 ^ 32 - 1 - x % 2 ^ 32

/-- The macro `PAGE_ALIGN(addr)`: `(((addr) + PAGE_SIZE - 1) & ~(PAGE_SIZE - 1))`
on a 32-bit `unsigned long`; the sum is taken modulo `2 ^ 32`. -/
def PAGE_ALIGN (addr : Nat) : Nat :=
  ((addr + PAGE_SIZE - 1) % 2 ^ 32) &&& not32 (PAGE_SIZE - 1)

/-- The macro `PAGE_COUNT(size)`: `(((size) + PAGE_SIZE - 1) / PAGE_SIZE)` on
a 32-bit `unsigned long`. -/
def PAGE_COUNT (size : Nat) : Nat := ((size + PAGE_SIZE - 1) % 2 ^ 32) / PAGE_SIZE

/-! ## System identification (`sys/utsname.h`) -/

/-- The request built by `__uname`. -/
def __uname_msg {σ : Type} (c : Ctx σ) (flags : Nat) (s : State σ) : msg_uname :=
  { header :=
      { msg_id := MSG_UNAME,
        sender_port := c.kernel_state.kernel_port,
        reply_port := c.kernel_state.kernel_port,
        size := c.target.sizeof CStruct.msg_uname },
    task_id := c.kernel_state.current_task,
    caps := s.current_capability,
    flags := flags }

/-- The assignment `a[8] = 0` on a `char[9]`. -/
def set_nul (a : char9) : char9 :=
  { bytes := a.bytes.set 8 0, size_eq := by rw [List.length_set]; exact a.size_eq }

/-- The function `__uname(utsbuf, flags)`.  Each `memcpy(dst, src, 9)` is the
plain copy of the nine bytes of a reply field (`sys/utsname.h` does not
include `asm/memory.h`); the result is the returned code, the record stored
through `utsbuf` (if any) and the state. -/
def __uname {σ : Type} (c : Ctx σ) (utsbuf : Nat) (flags : Nat) (s : State σ) :
    Int × Option utsname × State σ :=
  if utsbuf = 0 then (-1, none, s)
  else
    let r1 := mk_msg_send c c.kernel_state.system_server
      (Msg.uname (__uname_msg c flags s)) (c.target.sizeof CStruct.msg_uname) s
    if r1.1 < 0 then (-1, none, r1.2)
    else
      let r2 := mk_msg_receive c c.kernel_state.kernel_port
        (c.target.sizeof CStruct.msg_uname_reply) r1.2
      if r2.1 < 0 then (-1, none, r2.2.2)
      else
        let reply := r2.2.1.uname
        if reply.result < 0 then (reply.result, none, r2.2.2)
        else
          (0,
            some
              { sysname := set_nul reply.sysname,
                nodename := set_nul reply.nodename,
                release := set_nul reply.release,
                version := set_nul reply.version,
                machine := set_nul reply.machine },
            r2.2.2)

/-- The reply that `__uname` reads in state `s`: the buffer filled by the
receive that follows its send. -/
def __uname_reply {σ : Type} (c : Ctx σ) (flags : Nat) (s : State σ) :
    msg_uname_reply :=
  (c.transport.receive
      (c.transport.send s.world c.kernel_state.system_server
        (Msg.uname (__uname_msg c flags s)) (c.target.sizeof CStruct.msg_uname)).2
      c.kernel_state.kernel_port (c.target.sizeof CStruct.msg_uname_reply)).2.1.uname

/-! ## System operations (`asm/system.h`) -/

/-- The globals `current_cpu` and `interrupts_enabled` of `asm/system.h`. -/
structure cpu_globals where
  current_cpu : Nat
  interrupts_enabled : Nat
  deriving DecidableEq

/-- The request built by `move_to_user_mode`; `esp` and `eip` are the register
values its `asm` statement reads. -/
def move_to_user_mode_msg {σ : Type} (c : Ctx σ) (esp eip : Nat) (s : State σ) :
    msg_sys_move_user :=
  { header :=
      { msg_id := MSG_SYS_MOVE_TO_USER,
        sender_port := c.kernel_state.kernel_port,
        reply_port := c.kernel_state.kernel_port,
        size := c.target.sizeof CStruct.msg_sys_move_user },
    task_id := c.kernel_state.current_task,
    esp := esp,
    eip := eip,
    caps := s.current_capability,
    user_space := SPACE_USER }

/-- The macro `move_to_user_mode()`. -/
def move_to_user_mode {σ : Type} (c : Ctx σ) (esp eip : Nat) (s : State σ) :
    State σ :=
  if s.current_capability &&& CAP_SYSTEM = 0 then s
  else
    let r1 := mk_msg_send c c.kernel_state.system_server
      (Msg.sys_move_user (move_to_user_mode_msg c esp eip s))
      (c.target.sizeof CStruct.msg_sys_move_user) s
    if r1.1 = 0 then
      (mk_msg_receive c c.kernel_state.kernel_port
        (c.target.sizeof CStruct.msg_sys_reply) r1.2).2.2
    else r1.2

/-- The request built by `sti()` and `cli()`, for the given `msg_id`. -/
def cli_sti_msg {σ : Type} (c : Ctx σ) (msg_id : Nat) (g : cpu_globals)
    (s : State σ) : msg_sys_cli_sti :=
  { header :=
      { msg_id := msg_id,
        sender_port := c.kernel_state.kernel_port,
        reply_port := 0,
        size := c.target.sizeof CStruct.msg_sys_cli_sti },
    task_id := c.kernel_state.current_task,
    caps := s.current_capability,
    cpu_id := g.current_cpu }

/-- The macro `sti()`. -/
def sti {σ : Type} (c : Ctx σ) (g : cpu_globals) (s : State σ) :
    cpu_globals × State σ :=
  if s.current_capability &&& CAP_SYSTEM ≠ 0 then
    ({ g with interrupts_enabled := 1 },
      (mk_msg_send c c.kernel_state.system_server
        (Msg.sys_cli_sti (cli_sti_msg c MSG_SYS_STI g s))
        (c.target.sizeof CStruct.msg_sys_cli_sti) s).2)
  else (g, s)

/-- The macro `cli()`. -/
def cli {σ : Type} (c : Ctx σ) (g : cpu_globals) (s : State σ) :
    cpu_globals × State σ :=
  if s.current_capability &&& CAP_SYSTEM ≠ 0 then
    ({ g with interrupts_enabled := 0 },
      (mk_msg_send c c.kernel_state.system_server
        (Msg.sys_cli_sti (cli_sti_msg c MSG_SYS_CLI g s))
        (c.target.sizeof CStruct.msg_sys_cli_sti) s).2)
  else (g, s)

/-- The message built by `iret()`. -/
def iret_msg {σ : Type} (c : Ctx σ) (s : State σ) : msg_sys_iret :=
  { header :=
      { msg_id := MSG_SYS_IRET,
        sender_port := c.kernel_state.kernel_port,
        reply_port := 0,
        size := c.target.sizeof CStruct.msg_sys_iret },
    task_id := c.kernel_state.current_task,
    caps := s.current_capability }

/-- The macro `iret()` up to its closing `for(;;);`: the macro builds the
message and sends it without testing `current_capability`, then spins for
ever; the result is the state in which it spins. -/
def iret {σ : Type} (c : Ctx σ) (s : State σ) : State σ :=
  (mk_msg_send c c.kernel_state.system_server (Msg.sys_iret (iret_msg c s))
    (c.target.sizeof CStruct.msg_sys_iret) s).2

/-- The request built by `_set_gate`. -/
def _set_gate_msg {σ : Type} (c : Ctx σ) (gate_idx type dpl handler_port : Nat)
    (s : State σ) : msg_sys_set_gate :=
  { header :=
      { msg_id := MSG_SYS_SET_GATE,
        sender_port := c.kernel_state.kernel_port,
        reply_port := 0,
        size := c.target.sizeof CStruct.msg_sys_set_gate },
    gate_idx := gate_idx,
    gate_type := type,
    dpl := dpl,
    handler_port := handler_port,
    task_id := c.kernel_state.current_task,
    caps := s.current_capability }

/-- The function `_set_gate(gate_idx, type, dpl, handler_port)`. -/
def _set_gate {σ : Type} (c : Ctx σ) (gate_idx type dpl handler_port : Nat)
    (s : State σ) : State σ :=
  if s.current_capability &&& CAP_SYSTEM = 0 then s
  else
    (mk_msg_send c c.kernel_state.system_server
      (Msg.sys_set_gate (_set_gate_msg c gate_idx type dpl handler_port s))
      (c.target.sizeof CStruct.msg_sys_set_gate) s).2

/-- The request built by `_set_tss_ldt_desc`; the `msg_id` is
`MSG_SYS_SET_TSS` for either descriptor type. -/
def _set_tss_ldt_desc_msg {σ : Type} (c : Ctx σ) (n addr type : Nat)
    (s : State σ) : msg_sys_set_tss_ldt :=
  { header :=
      { msg_id := MSG_SYS_SET_TSS,
        sender_port := c.kernel_state.kernel_port,
        reply_port := 0,
        size := c.target.sizeof CStruct.msg_sys_set_tss_ldt },
    idx := n,
    addr := addr,
    type := type,
    task_id := c.kernel_state.current_task,
    caps := s.current_capability }

/-- The function `_set_tss_ldt_desc(n, addr, type)`. -/
def _set_tss_ldt_desc {σ : Type} (c : Ctx σ) (n addr type : Nat)
    (s : State σ) : State σ :=
  if s.current_capability &&& CAP_SYSTEM = 0 then s
  else
    (mk_msg_send c c.kernel_state.system_server
      (Msg.sys_set_tss_ldt (_set_tss_ldt_desc_msg c n addr type s))
      (c.target.sizeof CStruct.msg_sys_set_tss_ldt) s).2

/-! ## The stubs and `sys_call_table` of `linux/sys.h` -/

/-- Call numbers of `linux/sys.h` (`__NR_ptrace` and `__NR_syscalls` are
declared above). -/
def __NR_setup : Nat := 0
def __NR_exit : Nat := 1
def __NR_fork : Nat := 2
def __NR_read : Nat := 3
def __NR_write : Nat := 4
def __NR_open : Nat := 5
def __NR_close : Nat := 6
def __NR_waitpid : Nat := 7
def __NR_creat : Nat := 8
def __NR_link : Nat := 9
def __NR_unlink : Nat := 10
def __NR_execve : Nat := 11
def __NR_chdir : Nat := 12
def __NR_time : Nat := 13
def __NR_mknod : Nat := 14
def __NR_chmod : Nat := 15
def __NR_chown : Nat := 16
def __NR_break : Nat := 17
def __NR_stat : Nat := 18
def __NR_lseek : Nat := 19
def __NR_getpid : Nat := 20
def __NR_mount : Nat := 21
def __NR_umount : Nat := 22
def __NR_setuid : Nat := 23
def __NR_getuid : Nat := 24
def __NR_stime : Nat := 25
def __NR_alarm : Nat := 27
def __NR_fstat : Nat := 28
def __NR_pause : Nat := 29
def __NR_utime : Nat := 30
def __NR_stty : Nat := 31
def __NR_gtty : Nat := 32
def __NR_access : Nat := 33
def __NR_nice : Nat := 34
def __NR_ftime : Nat := 35
def __NR_sync : Nat := 36
def __NR_kill : Nat := 37
def __NR_rename : Nat := 38
def __NR_mkdir : Nat := 39
def __NR_rmdir : Nat := 40
def __NR_dup : Nat := 41
def __NR_pipe : Nat := 42
def __NR_times : Nat := 43
def __NR_prof : Nat := 44
def __NR_brk : Nat := 45
def __NR_setgid : Nat := 46
def __NR_getgid : Nat := 47
def __NR_signal : Nat := 48
def __NR_geteuid : Nat := 49
def __NR_getegid : Nat := 50
def __NR_acct : Nat := 51
def __NR_phys : Nat := 52
def __NR_lock : Nat := 53
def __NR_ioctl : Nat := 54
def __NR_fcntl : Nat := 55
def __NR_mpx : Nat := 56
def __NR_setpgid : Nat := 57
def __NR_ulimit : Nat := 58
def __NR_uname : Nat := 59
def __NR_umask : Nat := 60
def __NR_chroot : Nat := 61
def __NR_ustat : Nat := 62
def __NR_dup2 : Nat := 63
def __NR_getppid : Nat := 64
def __NR_getpgrp : Nat := 65
def __NR_setsid : Nat := 66
def __NR_sigaction : Nat := 67
def __NR_sgetmask : Nat := 68
def __NR_ssetmask : Nat := 69
def __NR_setreuid : Nat := 70
def __NR_setregid : Nat := 71
def __NR_iam : Nat := 72
def __NR_whoami : Nat := 73

/-- The stubs: each is `int stub_X(void) { return do_syscall(__NR_X, 0, 0, 0, k); }`. -/
def stub_setup {σ : Type} (c : Ctx σ) (s : State σ) : Int × State σ :=
  do_syscall c __NR_setup 0 0 0 0 s

def stub_exit {σ : Type} (c : Ctx σ) (s : State σ) : Int × State σ :=
  do_syscall c __NR_exit 0 0 0 0 s

def stub_fork {σ : Type} (c : Ctx σ) (s : State σ) : Int × State σ :=
  do_syscall c __NR_fork 0 0 0 0 s

def stub_read {σ : Type} (c : Ctx σ) (s : State σ) : Int × State σ :=
  do_syscall c __NR_read 0 0 0 3 s

def stub_write {σ : Type} (c : Ctx σ) (s : State σ) : Int × State σ :=
  do_syscall c __NR_write 0 0 0 3 s

def stub_open {σ : Type} (c : Ctx σ) (s : State σ) : Int × State σ :=
  do_syscall c __NR_open 0 0 0 3 s

def stub_close {σ : Type} (c : Ctx σ) (s : State σ) : Int × State σ :=
  do_syscall c __NR_close 0 0 0 1 s

def stub_waitpid {σ : Type} (c : Ctx σ) (s : State σ) : Int × State σ :=
  do_syscall c __NR_waitpid 0 0 0 3 s

def stub_creat {σ : Type} (c : Ctx σ) (s : State σ) : Int × State σ :=
  do_syscall c __NR_creat 0 0 0 2 s

def stub_link {σ : Type} (c : Ctx σ) (s : State σ) : Int × State σ :=
  do_syscall c __NR_link 0 0 0 2 s

def stub_unlink {σ : Type} (c : Ctx σ) (s : State σ) : Int × State σ :=
  do_syscall c __NR_unlink 0 0 0 1 s

def stub_execve {σ : Type} (c : Ctx σ) (s : State σ) : Int × State σ :=
  do_syscall c __NR_execve 0 0 0 3 s

def stub_chdir {σ : Type} (c : Ctx σ) (s : State σ) : Int × State σ :=
  do_syscall c __NR_chdir 0 0 0 1 s

def stub_time {σ : Type} (c : Ctx σ) (s : State σ) : Int × State σ :=
  do_syscall c __NR_time 0 0 0 1 s

def stub_mknod {σ : Type} (c : Ctx σ) (s : State σ) : Int × State σ :=
  do_syscall c __NR_mknod 0 0 0 3 s

def stub_chmod {σ : Type} (c : Ctx σ) (s : State σ) : Int × State σ :=
  do_syscall c __NR_chmod 0 0 0 2 s

def stub_chown {σ : Type} (c : Ctx σ) (s : State σ) : Int × State σ :=
  do_syscall c __NR_chown 0 0 0 3 s

def stub_break {σ : Type} (c : Ctx σ) (s : State σ) : Int × State σ :=
  do_syscall c __NR_break 0 0 0 1 s

def stub_stat {σ : Type} (c : Ctx σ) (s : State σ) : Int × State σ :=
  do_syscall c __NR_stat 0 0 0 2 s

def stub_lseek {σ : Type} (c : Ctx σ) (s : State σ) : Int × State σ :=
  do_syscall c __NR_lseek 0 0 0 3 s

def stub_getpid {σ : Type} (c : Ctx σ) (s : State σ) : Int × State σ :=
  do_syscall c __NR_getpid 0 0 0 0 s

def stub_mount {σ : Type} (c : Ctx σ) (s : State σ) : Int × State σ :=
  do_syscall c __NR_mount 0 0 0 3 s

def stub_umount {σ : Type} (c : Ctx σ) (s : State σ) : Int × State σ :=
  do_syscall c __NR_umount 0 0 0 1 s

def stub_setuid {σ : Type} (c : Ctx σ) (s : State σ) : Int × State σ :=
  do_syscall c __NR_setuid 0 0 0 1 s

def stub_getuid {σ : Type} (c : Ctx σ) (s : State σ) : Int × State σ :=
  do_syscall c __NR_getuid 0 0 0 0 s

def stub_stime {σ : Type} (c : Ctx σ) (s : State σ) : Int × State σ :=
  do_syscall c __NR_stime 0 0 0 1 s

def stub_ptrace {σ : Type} (c : Ctx σ) (s : State σ) : Int × State σ :=
  do_syscall c __NR_ptrace 0 0 0 3 s

def stub_alarm {σ : Type} (c : Ctx σ) (s : State σ) : Int × State σ :=
  do_syscall c __NR_alarm 0 0 0 1 s

def stub_fstat {σ : Type} (c : Ctx σ) (s : State σ) : Int × State σ :=
  do_syscall c __NR_fstat 0 0 0 2 s

def stub_pause {σ : Type} (c : Ctx σ) (s : State σ) : Int × State σ :=
  do_syscall c __NR_pause 0 0 0 0 s

def stub_utime {σ : Type} (c : Ctx σ) (s : State σ) : Int × State σ :=
  do_syscall c __NR_utime 0 0 0 2 s

def stub_stty {σ : Type} (c : Ctx σ) (s : State σ) : Int × State σ :=
  do_syscall c __NR_stty 0 0 0 2 s

def stub_gtty {σ : Type} (c : Ctx σ) (s : State σ) : Int × State σ :=
  do_syscall c __NR_gtty 0 0 0 2 s

def stub_access {σ : Type} (c : Ctx σ) (s : State σ) : Int × State σ :=
  do_syscall c __NR_access 0 0 0 2 s

def stub_nice {σ : Type} (c : Ctx σ) (s : State σ) : Int × State σ :=
  do_syscall c __NR_nice 0 0 0 1 s

def stub_ftime {σ : Type} (c : Ctx σ) (s : State σ) : Int × State σ :=
  do_syscall c __NR_ftime 0 0 0 1 s

def stub_sync {σ : Type} (c : Ctx σ) (s : State σ) : Int × State σ :=
  do_syscall c __NR_sync 0 0 0 0 s

def stub_kill {σ : Type} (c : Ctx σ) (s : State σ) : Int × State σ :=
  do_syscall c __NR_kill 0 0 0 2 s

def stub_rename {σ : Type} (c : Ctx σ) (s : State σ) : Int × State σ :=
  do_syscall c __NR_rename 0 0 0 2 s

def stub_mkdir {σ : Type} (c : Ctx σ) (s : State σ) : Int × State σ :=
  do_syscall c __NR_mkdir 0 0 0 2 s

def stub_rmdir {σ : Type} (c : Ctx σ) (s : State σ) : Int × State σ :=
  do_syscall c __NR_rmdir 0 0 0 1 s

def stub_dup {σ : Type} (c : Ctx σ) (s : State σ) : Int × State σ :=
  do_syscall c __NR_dup 0 0 0 1 s

def stub_pipe {σ : Type} (c : Ctx σ) (s : State σ) : Int × State σ :=
  do_syscall c __NR_pipe 0 0 0 1 s

def stub_times {σ : Type} (c : Ctx σ) (s : State σ) : Int × State σ :=
  do_syscall c __NR_times 0 0 0 1 s

def stub_prof {σ : Type} (c : Ctx σ) (s : State σ) : Int × State σ :=
  do_syscall c __NR_prof 0 0 0 1 s

def stub_brk {σ : Type} (c : Ctx σ) (s : State σ) : Int × State σ :=
  do_syscall c __NR_brk 0 0 0 1 s

def stub_setgid {σ : Type} (c : Ctx σ) (s : State σ) : Int × State σ :=
  do_syscall c __NR_setgid 0 0 0 1 s

def stub_getgid {σ : Type} (c : Ctx σ) (s : State σ) : Int × State σ :=
  do_syscall c __NR_getgid 0 0 0 0 s

def stub_signal {σ : Type} (c : Ctx σ) (s : State σ) : Int × State σ :=
  do_syscall c __NR_signal 0 0 0 2 s

def stub_geteuid {σ : Type} (c : Ctx σ) (s : State σ) : Int × State σ :=
  do_syscall c __NR_geteuid 0 0 0 0 s

def stub_getegid {σ : Type} (c : Ctx σ) (s : State σ) : Int × State σ :=
  do_syscall c __NR_getegid 0 0 0 0 s

def stub_acct {σ : Type} (c : Ctx σ) (s : State σ) : Int × State σ :=
  do_syscall c __NR_acct 0 0 0 1 s

def stub_phys {σ : Type} (c : Ctx σ) (s : State σ) : Int × State σ :=
  do_syscall c __NR_phys 0 0 0 1 s

def stub_lock {σ : Type} (c : Ctx σ) (s : State σ) : Int × State σ :=
  do_syscall c __NR_lock 0 0 0 1 s

def stub_ioctl {σ : Type} (c : Ctx σ) (s : State σ) : Int × State σ :=
  do_syscall c __NR_ioctl 0 0 0 3 s

def stub_fcntl {σ : Type} (c : Ctx σ) (s : State σ) : Int × State σ :=
  do_syscall c __NR_fcntl 0 0 0 3 s

def stub_mpx {σ : Type} (c : Ctx σ) (s : State σ) : Int × State σ :=
  do_syscall c __NR_mpx 0 0 0 3 s

def stub_setpgid {σ : Type} (c : Ctx σ) (s : State σ) : Int × State σ :=
  do_syscall c __NR_setpgid 0 0 0 2 s

def stub_ulimit {σ : Type} (c : Ctx σ) (s : State σ) : Int × State σ :=
  do_syscall c __NR_ulimit 0 0 0 2 s

def stub_uname {σ : Type} (c : Ctx σ) (s : State σ) : Int × State σ :=
  do_syscall c __NR_uname 0 0 0 1 s

def stub_umask {σ : Type} (c : Ctx σ) (s : State σ) : Int × State σ :=
  do_syscall c __NR_umask 0 0 0 1 s

def stub_chroot {σ : Type} (c : Ctx σ) (s : State σ) : Int × State σ :=
  do_syscall c __NR_chroot 0 0 0 1 s

def stub_ustat {σ : Type} (c : Ctx σ) (s : State σ) : Int × State σ :=
  do_syscall c __NR_ustat 0 0 0 2 s

def stub_dup2 {σ : Type} (c : Ctx σ) (s : State σ) : Int × State σ :=
  do_syscall c __NR_dup2 0 0 0 2 s

def stub_getppid {σ : Type} (c : Ctx σ) (s : State σ) : Int × State σ :=
  do_syscall c __NR_getppid 0 0 0 0 s

def stub_getpgrp {σ : Type} (c : Ctx σ) (s : State σ) : Int × State σ :=
  do_syscall c __NR_getpgrp 0 0 0 0 s

def stub_setsid {σ : Type} (c : Ctx σ) (s : State σ) : Int × State σ :=
  do_syscall c __NR_setsid 0 0 0 0 s

def stub_sigaction {σ : Type} (c : Ctx σ) (s : State σ) : Int × State σ :=
  do_syscall c __NR_sigaction 0 0 0 3 s

def stub_sgetmask {σ : Type} (c : Ctx σ) (s : State σ) : Int × State σ :=
  do_syscall c __NR_sgetmask 0 0 0 0 s

def stub_ssetmask {σ : Type} (c : Ctx σ) (s : State σ) : Int × State σ :=
  do_syscall c __NR_ssetmask 0 0 0 1 s

def stub_setreuid {σ : Type} (c : Ctx σ) (s : State σ) : Int × State σ :=
  do_syscall c __NR_setreuid 0 0 0 2 s

def stub_setregid {σ : Type} (c : Ctx σ) (s : State σ) : Int × State σ :=
  do_syscall c __NR_setregid 0 0 0 2 s

def stub_iam {σ : Type} (c : Ctx σ) (s : State σ) : Int × State σ :=
  do_syscall c __NR_iam 0 0 0 1 s

def stub_whoami {σ : Type} (c : Ctx σ) (s : State σ) : Int × State σ :=
  do_syscall c __NR_whoami 0 0 0 2 s

/-- The array `sys_call_table[__NR_syscalls]` of stub pointers, in the order of
its initialiser. -/
def sys_call_table {σ : Type} (c : Ctx σ) : List (State σ → Int × State σ) :=
  [
    stub_setup c, stub_exit c, stub_fork c, stub_read c,
    stub_write c, stub_open c, stub_close c, stub_waitpid c,
    stub_creat c, stub_link c, stub_unlink c, stub_execve c,
    stub_chdir c, stub_time c, stub_mknod c, stub_chmod c,
    stub_chown c, stub_break c, stub_stat c, stub_lseek c,
    stub_getpid c, stub_mount c, stub_umount c, stub_setuid c,
    stub_getuid c, stub_stime c, stub_ptrace c, stub_alarm c,
    stub_fstat c, stub_pause c, stub_utime c, stub_stty c,
    stub_gtty c, stub_access c, stub_nice c, stub_ftime c,
    stub_sync c, stub_kill c, stub_rename c, stub_mkdir c,
    stub_rmdir c, stub_dup c, stub_pipe c, stub_times c,
    stub_prof c, stub_brk c, stub_setgid c, stub_getgid c,
    stub_signal c, stub_geteuid c, stub_getegid c, stub_acct c,
    stub_phys c, stub_lock c, stub_ioctl c, stub_fcntl c,
    stub_mpx c, stub_setpgid c, stub_ulimit c, stub_uname c,
    stub_umask c, stub_chroot c, stub_ustat c, stub_dup2 c,
    stub_getppid c, stub_getpgrp c, stub_setsid c, stub_sigaction c,
    stub_sgetmask c, stub_ssetmask c, stub_setreuid c, stub_setregid c,
    stub_iam c, stub_whoami c ]


/-! ## Outcome of an escalation round trip -/

/-- The round trip "send `msg` to `port`, then receive on the caller's own
endpoint" succeeds in state `s`: the send returns `0`, the receive that
follows it returns `0`, and the result code read from the reply is `0`. -/
def round_trip_ok {σ : Type} (c : Ctx σ) (s : State σ) (port : Nat) (msg : Msg)
    (size capacity : Nat) (result : ReplyBuf → Int) : Prop :=
  (c.transport.send s.world port msg size).1 = 0
  ∧ (c.transport.receive (c.transport.send s.world port msg size).2
        c.kernel_state.kernel_port capacity).1 = 0
  ∧ result (c.transport.receive (c.transport.send s.world port msg size).2
        c.kernel_state.kernel_port capacity).2.1 = 0

/-- The memory server grants the request of `request_memory_capability`. -/
def memory_escalation_ok {σ : Type} (c : Ctx σ) (s : State σ) : Prop :=
  round_trip_ok c s c.kernel_state.memory_server
    (Msg.mem_copy (request_memory_capability_msg c s))
    (c.target.sizeof CStruct.msg_mem_copy) (c.target.sizeof CStruct.msg_mem_reply)
    (fun r => r.mem.result)

/-- The device server grants the request of `request_io_capability`. -/
def io_escalation_ok {σ : Type} (c : Ctx σ) (s : State σ) : Prop :=
  round_trip_ok c s c.kernel_state.device_server
    (Msg.io_outb (request_io_capability_msg c s))
    (c.target.sizeof CStruct.msg_io_outb) (c.target.sizeof CStruct.msg_io_reply)
    (fun r => r.io.result)

/-- The process server grants the request of `request_process_capability`. -/
def process_escalation_ok {σ : Type} (c : Ctx σ) (s : State σ) : Prop :=
  round_trip_ok c s c.kernel_state.process_server
    (Msg.cap_request (request_process_capability_msg c))
    (c.target.sizeof CStruct.msg_cap_request) (c.target.sizeof CStruct.msg_cap_reply)
    (fun r => r.cap.result)

/-- The file server grants the request of `request_file_capability`. -/
def file_escalation_ok {σ : Type} (c : Ctx σ) (s : State σ) : Prop :=
  round_trip_ok c s c.kernel_state.file_server
    (Msg.cap_request (request_file_capability_msg c))
    (c.target.sizeof CStruct.msg_cap_request) (c.target.sizeof CStruct.msg_cap_reply)
    (fun r => r.cap.result)

instance round_trip_ok_decidable {σ : Type} (c : Ctx σ) (s : State σ)
    (port : Nat) (msg : Msg) (size capacity : Nat) (result : ReplyBuf → Int) :
    Decidable (round_trip_ok c s port msg size capacity result) := by
  unfold round_trip_ok
  infer_instance

instance memory_escalation_ok_decidable {σ : Type} (c : Ctx σ) (s : State σ) :
    Decidable (memory_escalation_ok c s) := by
  unfold memory_escalation_ok
  infer_instance

instance io_escalation_ok_decidable {σ : Type} (c : Ctx σ) (s : State σ) :
    Decidable (io_escalation_ok c s) := by
  unfold io_escalation_ok
  infer_instance

instance process_escalation_ok_decidable {σ : Type} (c : Ctx σ) (s : State σ) :
    Decidable (process_escalation_ok c s) := by
  unfold process_escalation_ok
  infer_instance

instance file_escalation_ok_decidable {σ : Type} (c : Ctx σ) (s : State σ) :
    Decidable (file_escalation_ok c s) := by
  unfold file_escalation_ok
  infer_instance

/-! ## Sample context used to instantiate the theorems -/

/-- An ILP32 layout for the structures whose size is passed around. -/
def sample_sizeof : CStruct → Nat
  | CStruct.msg_syscall_0 => 16
  | CStruct.msg_syscall_1 => 20
  | CStruct.msg_syscall_2 => 24
  | CStruct.msg_syscall_3 => 28
  | CStruct.msg_syscall_reply => 16
  | CStruct.msg_mem_copy => 44
  | CStruct.msg_mem_reply => 28
  | CStruct.msg_io_outb => 28
  | CStruct.msg_io_reply => 28
  | CStruct.msg_cap_request => 24
  | CStruct.msg_cap_reply => 20
  | CStruct.msg_seg_get => 32
  | CStruct.msg_seg_reply => 24
  | CStruct.msg_wait => 32
  | CStruct.msg_wait_reply => 32
  | CStruct.msg_stat => 36
  | CStruct.msg_fstat => 32
  | CStruct.msg_stat_reply => 56
  | CStruct.msg_memory_verify => 28
  | CStruct.msg_memory_alloc => 24
  | CStruct.msg_memory_free => 28
  | CStruct.msg_get_free_page => 24
  | CStruct.msg_put_page => 32
  | CStruct.msg_free_page => 24
  | CStruct.msg_memory_reply => 24
  | CStruct.msg_seg_put => 36
  | CStruct.msg_utime => 36
  | CStruct.msg_utime_reply => 32
  | CStruct.msg_signal_action => 40
  | CStruct.msg_signal_kill => 32
  | CStruct.msg_signal_procmask => 36
  | CStruct.msg_signal_reply => 32
  | CStruct.msg_sys_move_user => 36
  | CStruct.msg_sys_cli_sti => 28
  | CStruct.msg_sys_iret => 24
  | CStruct.msg_sys_set_gate => 40
  | CStruct.msg_sys_set_tss_ldt => 36
  | CStruct.msg_sys_reply => 24
  | CStruct.msg_uname => 28
  | CStruct.msg_uname_reply => 72

/-- A target in which the word behind the routing table is `SERVER_PROCESS`. -/
def sample_target : Target :=
  { sizeof := sample_sizeof,
    MSG_MEM_REQUEST_CAP := 0x0605,
    MSG_CAP_REQUEST_PROCESS := 0x0903,
    MSG_CAP_REQUEST_FILE := 0x0B07,
    MSG_CAP_REQUEST_SIGNAL := 0x0C09,
    CAP_FILE := 0x0040,
    beyond_table := fun _ => SERVER_PROCESS }

/-- Endpoints as `mk_kernel_init` wires them, the remaining servers numbered
on from there. -/
def sample_kernel_state : mk_kernel_state :=
  { kernel_port := 2,
    memory_server := 3,
    process_server := 7,
    file_server := 9,
    fs_server := 10,
    signal_server := 11,
    time_server := 12,
    user_server := 13,
    terminal_server := 14,
    ipc_server := 15,
    system_server := 8,
    device_server := 16,
    current_task := 1 }

/-- A world that is a script of outcomes: each transport call consumes the
next entry (its status, and for a receive its reply); an exhausted script
answers `-1`. -/
def scripted : Transport (List (Int × ReplyBuf)) :=
  { send := fun w _ _ _ =>
      match w with
      | [] => (-1, [])
      | o :: rest => (o.1, rest),
    receive := fun w _ _ =>
      match w with
      | [] => (-1, default, [])
      | o :: rest => (o.1, o.2, rest) }

/-- The sample context over scripted worlds. -/
def sample_ctx : Ctx (List (Int × ReplyBuf)) :=
  { transport := scripted,
    kernel_state := sample_kernel_state,
    target := sample_target }

/-- A task state with the given capability set, FS space 1, the given script
and an empty trace. -/
def sample_state (caps : Nat) (script : List (Int × ReplyBuf)) :
    State (List (Int × ReplyBuf)) :=
  { current_capability := caps,
    current_fs_space := 1,
    world := script,
    trace := [] }

/-- A reply buffer whose every view carries result code `0` and whose byte is
`b`. -/
def ok_reply (b : Nat) : ReplyBuf :=
  { (default : ReplyBuf) with
    seg := { (default : msg_seg_reply) with data_byte := b } }

/-- A reply buffer whose every view carries the result code `r`. -/
def result_reply (r : Int) : ReplyBuf :=
  { syscall := { (default : msg_syscall_reply) with result := r },
    mem := { (default : msg_mem_reply) with result := r },
    io := { (default : msg_io_reply) with result := r },
    cap := { result := r },
    seg := { (default : msg_seg_reply) with result := r },
    wait := { (default : msg_wait_reply) with result := r },
    stat := { (default : msg_stat_reply) with result := r },
    memory := { (default : msg_memory_reply) with result := r },
    utime := { (default : msg_utime_reply) with result := r },
    signal := { (default : msg_signal_reply) with result := r },
    uname := { (default : msg_uname_reply) with result := r } }

/-- A reply buffer whose `uname` view carries result code `0` and, in each of
its five name fields, the nine bytes of "MicroKern" without a terminator. -/
def unterminated_uname_reply : ReplyBuf :=
  { (default : ReplyBuf) with
    uname :=
      { (default : msg_uname_reply) with
        sysname := { bytes := [77, 105, 99, 114, 111, 75, 101, 114, 110], size_eq := rfl },
        nodename := { bytes := [77, 105, 99, 114, 111, 75, 101, 114, 110], size_eq := rfl },
        release := { bytes := [77, 105, 99, 114, 111, 75, 101, 114, 110], size_eq := rfl },
        version := { bytes := [77, 105, 99, 114, 111, 75, 101, 114, 110], size_eq := rfl },
        machine := { bytes := [77, 105, 99, 114, 111, 75, 101, 114, 110], size_eq := rfl } } }

/-! ## Auxiliary facts -/

@[simp] theorem mk_msg_send_fst {σ : Type} (c : Ctx σ) (p : Nat) (m : Msg)
    (sz : Nat) (s : State σ) :
    (mk_msg_send c p m sz s).1 = (c.transport.send s.world p m sz).1 := rfl

@[simp] theorem mk_msg_send_world {σ : Type} (c : Ctx σ) (p : Nat) (m : Msg)
    (sz : Nat) (s : State σ) :
    (mk_msg_send c p m sz s).2.world = (c.transport.send s.world p m sz).2 := rfl

@[simp] theorem mk_msg_send_trace {σ : Type} (c : Ctx σ) (p : Nat) (m : Msg)
    (sz : Nat) (s : State σ) :
    (mk_msg_send c p m sz s).2.trace
      = s.trace ++ [Event.send p m sz (c.transport.send s.world p m sz).1] := rfl

@[simp] theorem mk_msg_send_caps {σ : Type} (c : Ctx σ) (p : Nat) (m : Msg)
    (sz : Nat) (s : State σ) :
    (mk_msg_send c p m sz s).2.current_capability = s.current_capability := rfl

@[simp] theorem mk_msg_send_fs {σ : Type} (c : Ctx σ) (p : Nat) (m : Msg)
    (sz : Nat) (s : State σ) :
    (mk_msg_send c p m sz s).2.current_fs_space = s.current_fs_space := rfl

@[simp] theorem mk_msg_receive_fst {σ : Type} (c : Ctx σ) (p cap : Nat)
    (s : State σ) :
    (mk_msg_receive c p cap s).1 = (c.transport.receive s.world p cap).1 := rfl

@[simp] theorem mk_msg_receive_reply {σ : Type} (c : Ctx σ) (p cap : Nat)
    (s : State σ) :
    (mk_msg_receive c p cap s).2.1 = (c.transport.receive s.world p cap).2.1 := rfl

@[simp] theorem mk_msg_receive_world {σ : Type} (c : Ctx σ) (p cap : Nat)
    (s : State σ) :
    (mk_msg_receive c p cap s).2.2.world
      = (c.transport.receive s.world p cap).2.2 := rfl

@[simp] theorem mk_msg_receive_trace {σ : Type} (c : Ctx σ) (p cap : Nat)
    (s : State σ) :
    (mk_msg_receive c p cap s).2.2.trace
      = s.trace ++ [Event.receive p cap (c.transport.receive s.world p cap).1
          (c.transport.receive s.world p cap).2.1] := rfl

@[simp] theorem mk_msg_receive_caps {σ : Type} (c : Ctx σ) (p cap : Nat)
    (s : State σ) :
    (mk_msg_receive c p cap s).2.2.current_capability = s.current_capability := rfl

@[simp] theorem mk_msg_receive_fs {σ : Type} (c : Ctx σ) (p cap : Nat)
    (s : State σ) :
    (mk_msg_receive c p cap s).2.2.current_fs_space = s.current_fs_space := rfl

theorem sent_append (xs ys : List Event) : sent (xs ++ ys) = sent xs ++ sent ys := by
  induction xs with
  | nil => rfl
  | cons e es ih => cases e <;> simp [sent, ih]

theorem received_append (xs ys : List Event) :
    received (xs ++ ys) = received xs ++ received ys := by
  induction xs with
  | nil => rfl
  | cons e es ih => cases e <;> simp [received, ih]

/-- Every in-range entry of the routing table is a server id between
`SERVER_PROCESS` and `SERVER_SYSTEM`. -/
theorem syscall_to_server_get (n : Nat) (h : n < 74) :
    ∃ v, syscall_to_server.get? n = some v ∧ 1 ≤ v ∧ v ≤ 10 := by
  interval_cases n <;> exact ⟨_, rfl, by decide, by decide⟩

theorem syscall_to_server_at_bounds (t : Target) (n : Nat) (h : n < 74) :
    1 ≤ syscall_to_server_at t n ∧ syscall_to_server_at t n ≤ 10 := by
  obtain ⟨v, hv, h1, h2⟩ := syscall_to_server_get n h
  simp only [syscall_to_server_at, hv]
  exact ⟨h1, h2⟩

theorem server_port_isSome (ks : mk_kernel_state) (v : Nat) (h1 : 1 ≤ v)
    (h2 : v ≤ 10) : (server_port ks v).isSome = true := by
  interval_cases v <;> rfl

/-! ## Bit facts about capability sets -/

theorem lor_eq_self_of_and_ne_zero (a : Nat) (k : Nat) (h : a &&& 2 ^ k ≠ 0) :
    a ||| 2 ^ k = a := by
  obtain ⟨i, hi⟩ := Nat.ne_zero_implies_bit_true h
  rw [Nat.testBit_and, Bool.and_eq_true, Nat.testBit_two_pow] at hi
  obtain ⟨ha, hk⟩ := hi
  have hk' : k = i := by simpa using hk
  subst hk'
  apply Nat.eq_of_testBit_eq
  intro j
  rw [Nat.testBit_or, Nat.testBit_two_pow]
  by_cases hj : k = j
  · subst hj; simp [ha]
  · simp [hj]

theorem and_lor_self_ne_zero (a : Nat) (k : Nat) : (a ||| 2 ^ k) &&& 2 ^ k ≠ 0 := by
  intro h
  have : ((a ||| 2 ^ k) &&& 2 ^ k).testBit k = true := by
    simp [Nat.testBit_and, Nat.testBit_or, Nat.testBit_two_pow]
  rw [h] at this
  simp at this

/-! ## The two switches of `do_syscall` -/

theorem do_syscall_send_spec {σ : Type} (c : Ctx σ) (port nr a1 a2 a3 : Nat)
    (k : Int) (s : State σ) (h0 : 0 ≤ k) (h3 : k ≤ 3) :
    ∃ m size,
      do_syscall_send c port nr a1 a2 a3 k s = some (mk_msg_send c port m size s)
      ∧ syscall_header? m = some
          { syscall_nr := nr,
            sender_task := c.kernel_state.current_task,
            reply_port := c.kernel_state.kernel_port,
            server_id := syscall_to_server_at c.target nr }
      ∧ syscall_args m = [a1, a2, a3].take k.toNat := by
  have hk : k = 0 ∨ k = 1 ∨ k = 2 ∨ k = 3 := by omega
  rcases hk with rfl | rfl | rfl | rfl
  · exact ⟨_, _, rfl, rfl, rfl⟩
  · exact ⟨_, _, rfl, rfl, rfl⟩
  · exact ⟨_, _, rfl, rfl, rfl⟩
  · exact ⟨_, _, rfl, rfl, rfl⟩

theorem do_syscall_send_none {σ : Type} (c : Ctx σ) (port nr a1 a2 a3 : Nat)
    (k : Int) (s : State σ) (h : k < 0 ∨ 3 < k) :
    do_syscall_send c port nr a1 a2 a3 k s = none := by
  have h0 : k ≠ 0 := by omega
  have h1 : k ≠ 1 := by omega
  have h2 : k ≠ 2 := by omega
  have h3 : k ≠ 3 := by omega
  simp [do_syscall_send, h0, h1, h2, h3]

/-! ## Escalation routines: messages sent and outcome -/

theorem request_memory_capability_sent {σ : Type} (c : Ctx σ) (s : State σ) :
    sent (request_memory_capability c s).2.trace
      = sent s.trace ++ [(c.kernel_state.memory_server,
          Msg.mem_copy (request_memory_capability_msg c s))] := by
  simp only [request_memory_capability]
  split_ifs <;> simp [sent_append, sent]

theorem request_memory_capability_ok {σ : Type} (c : Ctx σ) (s : State σ)
    (h : memory_escalation_ok c s) :
    (request_memory_capability c s).1 = 0
      ∧ (request_memory_capability c s).2.current_capability
          = s.current_capability ||| CAP_MEMORY := by
  obtain ⟨h1, h2, h3⟩ := h
  simp [request_memory_capability, h1, h2, h3]

theorem request_memory_capability_fail {σ : Type} (c : Ctx σ) (s : State σ)
    (h : ¬ memory_escalation_ok c s) :
    (request_memory_capability c s).1 = -1
      ∧ (request_memory_capability c s).2.current_capability
          = s.current_capability := by
  simp only [memory_escalation_ok, round_trip_ok] at h
  simp only [request_memory_capability]
  split_ifs with h1 h2 h3
  · exact absurd ⟨by simpa using h1, by simpa using h2, by simpa using h3⟩ h
  · simp
  · simp
  · simp

theorem request_io_capability_sent {σ : Type} (c : Ctx σ) (s : State σ) :
    sent (request_io_capability c s).2.trace
      = sent s.trace ++ [(c.kernel_state.device_server,
          Msg.io_outb (request_io_capability_msg c s))] := by
  simp only [request_io_capability]
  split_ifs <;> simp [sent_append, sent]

theorem request_io_capability_ok {σ : Type} (c : Ctx σ) (s : State σ)
    (h : io_escalation_ok c s) :
    (request_io_capability c s).1 = 0
      ∧ (request_io_capability c s).2.current_capability
          = s.current_capability ||| CAP_IO := by
  obtain ⟨h1, h2, h3⟩ := h
  simp [request_io_capability, h1, h2, h3]

theorem request_io_capability_fail {σ : Type} (c : Ctx σ) (s : State σ)
    (h : ¬ io_escalation_ok c s) :
    (request_io_capability c s).1 = -1
      ∧ (request_io_capability c s).2.current_capability
          = s.current_capability := by
  simp only [io_escalation_ok, round_trip_ok] at h
  simp only [request_io_capability]
  split_ifs with h1 h2 h3
  · exact absurd ⟨by simpa using h1, by simpa using h2, by simpa using h3⟩ h
  · simp
  · simp
  · simp

theorem request_process_capability_sent {σ : Type} (c : Ctx σ) (s : State σ) :
    sent (request_process_capability c s).2.trace
      = sent s.trace ++ [(c.kernel_state.process_server,
          Msg.cap_request (request_process_capability_msg c))] := by
  simp only [request_process_capability]
  split_ifs <;> simp [sent_append, sent]

theorem request_process_capability_ok {σ : Type} (c : Ctx σ) (s : State σ)
    (h : process_escalation_ok c s) :
    (request_process_capability c s).1 = 0
      ∧ (request_process_capability c s).2.current_capability
          = s.current_capability ||| CAP_PROCESS := by
  obtain ⟨h1, h2, h3⟩ := h
  simp [request_process_capability, h1, h2, h3]

theorem request_process_capability_fail {σ : Type} (c : Ctx σ) (s : State σ)
    (h : ¬ process_escalation_ok c s) :
    (request_process_capability c s).1 = -1
      ∧ (request_process_capability c s).2.current_capability
          = s.current_capability := by
  simp only [process_escalation_ok, round_trip_ok] at h
  simp only [request_process_capability]
  split_ifs with h1 h2 h3
  · exact absurd ⟨by simpa using h1, by simpa using h2, by simpa using h3⟩ h
  · simp
  · simp
  · simp

theorem request_file_capability_sent {σ : Type} (c : Ctx σ) (s : State σ) :
    sent (request_file_capability c s).2.trace
      = sent s.trace ++ [(c.kernel_state.file_server,
          Msg.cap_request (request_file_capability_msg c))] := by
  simp only [request_file_capability]
  split_ifs <;> simp [sent_append, sent]

theorem request_file_capability_ok {σ : Type} (c : Ctx σ) (s : State σ)
    (h : file_escalation_ok c s) :
    (request_file_capability c s).1 = 0
      ∧ (request_file_capability c s).2.current_capability
          = s.current_capability ||| c.target.CAP_FILE := by
  obtain ⟨h1, h2, h3⟩ := h
  simp [request_file_capability, h1, h2, h3]

theorem request_file_capability_fail {σ : Type} (c : Ctx σ) (s : State σ)
    (h : ¬ file_escalation_ok c s) :
    (request_file_capability c s).1 = -1
      ∧ (request_file_capability c s).2.current_capability
          = s.current_capability := by
  simp only [file_escalation_ok, round_trip_ok] at h
  simp only [request_file_capability]
  split_ifs with h1 h2 h3
  · exact absurd ⟨by simpa using h1, by simpa using h2, by simpa using h3⟩ h
  · simp
  · simp
  · simp

/-! ## `get_fs_byte` after the capability check -/

theorem get_fs_byte_request_sent {σ : Type} (c : Ctx σ) (addr : Nat) (s : State σ) :
    sent (get_fs_byte_request c addr s).2.trace
      = sent s.trace ++ [(c.kernel_state.memory_server,
          Msg.seg_get (get_fs_byte_msg c addr s))] := by
  simp only [get_fs_byte_request]
  split_ifs <;> simp [sent_append, sent]

theorem get_fs_byte_request_caps {σ : Type} (c : Ctx σ) (addr : Nat) (s : State σ) :
    (get_fs_byte_request c addr s).2.current_capability = s.current_capability := by
  simp only [get_fs_byte_request]
  split_ifs <;> simp

theorem get_fs_byte_of_cap {σ : Type} (c : Ctx σ) (addr : Nat) (s : State σ)
    (h : s.current_capability &&& CAP_MEMORY ≠ 0) :
    get_fs_byte c addr s = get_fs_byte_request c addr s := by
  simp [get_fs_byte, h]

/-! ## Status words over the naturals -/

theorem shl_natCast (a k : Nat) (h : a * 2 ^ k < 2 ^ 31) :
    shl (a : Int) k = ((a * 2 ^ k : Nat) : Int) := by
  unfold shl int32
  have h' : ((a * 2 ^ k : Nat) : Int) = (a : Int) * 2 ^ k := by push_cast; rfl
  rw [← h']
  omega

/-- The three packed fields of an exit status, computed over the naturals. -/
theorem exit_status_fields (e r : Nat) (he : e < 256) (hr : r < 256) :
    (e * 2 ^ 8 ||| r * 2 ^ 16 ||| 0) &&& 0xFF = 0
    ∧ ((e * 2 ^ 8 ||| r * 2 ^ 16 ||| 0) >>> 8) &&& 0xFF = e
    ∧ ((e * 2 ^ 8 ||| r * 2 ^ 16 ||| 0) >>> 16) &&& 0xFF = r := by
  have hor : e * 2 ^ 8 ||| r * 2 ^ 16 = 2 ^ 16 * r + e * 2 ^ 8 := by
    rw [Nat.lor_comm, Nat.mul_comm r, Nat.mul_add_lt_is_or (by omega) r]
  have hmask : (0xFF : Nat) = 2 ^ 8 - 1 := by norm_num
  rw [Nat.or_zero, hor, hmask]
  simp only [Nat.and_pow_two_sub_one_eq_mod, Nat.shiftRight_eq_div_pow]
  refine ⟨by omega, by omega, by omega⟩

/-! ## The dispatcher -/

/-- Claim C1.  For every call number `n` below 74 the routing table entry is
one of the ten server ids `SERVER_PROCESS` .. `SERVER_SYSTEM`, it is not the
unmapped value `0`, and the server switch of `do_syscall` does not fall into
its `default` branch. -/
theorem C1_dispatch_table_total (t : Target) (ks : mk_kernel_state) (n : Nat)
    (h : n < __NR_syscalls) :
    syscall_to_server_at t n ∈
        [SERVER_PROCESS, SERVER_FILE, SERVER_FS, SERVER_SIGNAL, SERVER_TIME,
          SERVER_USER, SERVER_TERMINAL, SERVER_IPC, SERVER_MEMORY, SERVER_SYSTEM]
      ∧ syscall_to_server_at t n ≠ 0
      ∧ server_port ks (syscall_to_server_at t n) ≠ none := by
  obtain ⟨h1, h2⟩ := syscall_to_server_at_bounds t n h
  refine ⟨?_, by omega, ?_⟩
  · generalize syscall_to_server_at t n = v at h1 h2
    interval_cases v <;> decide
  · have hs := server_port_isSome ks _ h1 h2
    intro hn
    rw [hn] at hs
    exact absurd hs (by decide)

/-- Instance of C1 at the call number of `ptrace`. -/
theorem C1_dispatch_table_total_witness :
    (26 : Nat) < __NR_syscalls
    ∧ syscall_to_server_at sample_target 26 ∈
        [SERVER_PROCESS, SERVER_FILE, SERVER_FS, SERVER_SIGNAL, SERVER_TIME,
          SERVER_USER, SERVER_TERMINAL, SERVER_IPC, SERVER_MEMORY, SERVER_SYSTEM]
    ∧ syscall_to_server_at sample_target 26 ≠ 0
    ∧ server_port sample_kernel_state (syscall_to_server_at sample_target 26) ≠ none :=
  ⟨by decide, C1_dispatch_table_total sample_target sample_kernel_state 26 (by decide)⟩

/-- Claim C3.  For every call number below 74 and `arg_count` from 0 to 3,
either the send status is negative, it is the returned value and no receive
follows; or the send status is not negative, one receive on the caller's own
endpoint follows, and the returned value is the receive status when that is
negative and otherwise the `result` field of the reply, unchanged. -/
theorem C3_do_syscall_result {σ : Type} (c : Ctx σ) (s : State σ)
    (nr a1 a2 a3 : Nat) (arg_count : Int) (hnr : nr < __NR_syscalls)
    (h0 : 0 ≤ arg_count) (h3 : arg_count ≤ 3) :
    (∃ port m size st, st < 0
        ∧ (do_syscall c nr a1 a2 a3 arg_count s).2.trace
            = s.trace ++ [Event.send port m size st]
        ∧ (do_syscall c nr a1 a2 a3 arg_count s).1 = st)
    ∨ (∃ port m size st capacity r reply, ¬ st < 0
        ∧ (do_syscall c nr a1 a2 a3 arg_count s).2.trace
            = s.trace ++ [Event.send port m size st,
                Event.receive c.kernel_state.kernel_port capacity r reply]
        ∧ (do_syscall c nr a1 a2 a3 arg_count s).1
            = if r < 0 then r else reply.syscall.result) := by
  obtain ⟨h1, h2⟩ := syscall_to_server_at_bounds c.target nr hnr
  have hs := server_port_isSome c.kernel_state _ h1 h2
  obtain ⟨port, hport⟩ := Option.isSome_iff_exists.mp hs
  obtain ⟨m, size, hsend, -, -⟩ :=
    do_syscall_send_spec c port nr a1 a2 a3 arg_count s h0 h3
  simp only [do_syscall, hport, hsend]
  by_cases hr : (c.transport.send s.world port m size).1 < 0
  · left
    exact ⟨port, m, size, (c.transport.send s.world port m size).1, hr,
      by simp [hr], by simp [hr]⟩
  · right
    refine ⟨port, m, size, (c.transport.send s.world port m size).1,
      c.target.sizeof CStruct.msg_syscall_reply,
      (c.transport.receive (c.transport.send s.world port m size).2
        c.kernel_state.kernel_port (c.target.sizeof CStruct.msg_syscall_reply)).1,
      (c.transport.receive (c.transport.send s.world port m size).2
        c.kernel_state.kernel_port (c.target.sizeof CStruct.msg_syscall_reply)).2.1,
      hr, ?_, ?_⟩
    · simp only [mk_msg_send_fst, hr, if_false]
      split_ifs <;> simp
    · simp only [mk_msg_send_fst, mk_msg_send_world, mk_msg_receive_fst,
        mk_msg_receive_reply, hr, if_false]
      split_ifs with h <;> rfl

/-- Instance of C3: a reply carrying result 5 is returned as 5, a send status
of -3 is returned as -3. -/
theorem C3_do_syscall_result_witness :
    (26 : Nat) < __NR_syscalls ∧ (0 : Int) ≤ 2 ∧ (2 : Int) ≤ 3
    ∧ (do_syscall sample_ctx 26 11 12 13 2
          (sample_state 0 [(0, default), (0, result_reply 5)])).1 = 5
    ∧ (do_syscall sample_ctx 26 11 12 13 2 (sample_state 0 [(-3, default)])).1 = -3
    ∧ ((∃ port m size st, st < 0
          ∧ (do_syscall sample_ctx 26 11 12 13 2
                (sample_state 0 [(0, default), (0, result_reply 5)])).2.trace
              = (sample_state 0 [(0, default), (0, result_reply 5)]).trace
                  ++ [Event.send port m size st]
          ∧ (do_syscall sample_ctx 26 11 12 13 2
                (sample_state 0 [(0, default), (0, result_reply 5)])).1 = st)
        ∨ (∃ port m size st capacity r reply, ¬ st < 0
          ∧ (do_syscall sample_ctx 26 11 12 13 2
                (sample_state 0 [(0, default), (0, result_reply 5)])).2.trace
              = (sample_state 0 [(0, default), (0, result_reply 5)]).trace
                  ++ [Event.send port m size st,
                      Event.receive sample_ctx.kernel_state.kernel_port capacity r reply]
          ∧ (do_syscall sample_ctx 26 11 12 13 2
                (sample_state 0 [(0, default), (0, result_reply 5)])).1
              = if r < 0 then r else reply.syscall.result)) :=
  ⟨by decide, by decide, by decide, by rfl, by rfl,
    C3_do_syscall_result sample_ctx
      (sample_state 0 [(0, default), (0, result_reply 5)]) 26 11 12 13 2
      (by decide) (by decide) (by decide)⟩

/-- Claim C4 (the code departs from it).  The routing table has 74 entries and
`do_syscall` indexes it without a range check.  With call number 74, in a
context where the word behind the table reads `SERVER_PROCESS`, the call is
dispatched: one message goes to the process server and the server's result 5
is returned, instead of an invalid-call failure without any message. -/
theorem C4_out_of_range_call_is_dispatched :
    syscall_to_server.length = 74
    ∧ (do_syscall sample_ctx 74 0 0 0 0
          (sample_state 0 [(0, default), (0, result_reply 5)])).1 = 5
    ∧ sent (do_syscall sample_ctx 74 0 0 0 0
          (sample_state 0 [(0, default), (0, result_reply 5)])).2.trace
        = [(7, Msg.syscall0
            { header := { syscall_nr := 74, sender_task := 1, reply_port := 2,
                          server_id := 1 } })] :=
  ⟨rfl, rfl, rfl⟩

/-- Claim C5.  For every call number below 74 and every `arg_count` outside
0..3, `do_syscall` returns -1 and leaves the state, trace included, as it was:
nothing is sent and nothing is received.  Hence `ptrace`, which passes
`arg_count` 4, returns -1 for all arguments without any transport call. -/
theorem C5_bad_arg_count_rejected {σ : Type} (c : Ctx σ) (s : State σ) :
    (∀ (nr a1 a2 a3 : Nat) (arg_count : Int), nr < __NR_syscalls →
        (arg_count < 0 ∨ 3 < arg_count) →
        do_syscall c nr a1 a2 a3 arg_count s = (-1, s))
    ∧ (∀ (request pid addr data : Int),
        ptrace c request pid addr data s = (-1, s)) := by
  have key : ∀ (nr a1 a2 a3 : Nat) (arg_count : Int), nr < __NR_syscalls →
        (arg_count < 0 ∨ 3 < arg_count) →
        do_syscall c nr a1 a2 a3 arg_count s = (-1, s) := by
    intro nr a1 a2 a3 k hnr hk
    simp only [do_syscall]
    split
    · rfl
    · rw [do_syscall_send_none c _ nr a1 a2 a3 k s hk]
  refine ⟨key, ?_⟩
  intro request pid addr data
  exact key __NR_ptrace _ _ _ 4 (by decide) (by omega)

/-- Instance of C5: `arg_count` 4 on call number 26, and `ptrace(1, 2, 3, 4)`. -/
theorem C5_bad_arg_count_rejected_witness :
    (26 : Nat) < __NR_syscalls ∧ ((4 : Int) < 0 ∨ (3 : Int) < 4)
    ∧ do_syscall sample_ctx 26 11 12 13 4 (sample_state 0 [(0, default)])
        = (-1, sample_state 0 [(0, default)])
    ∧ ptrace sample_ctx 1 2 3 4 (sample_state 0 [(0, default)])
        = (-1, sample_state 0 [(0, default)]) :=
  ⟨by decide, by decide,
    (C5_bad_arg_count_rejected sample_ctx (sample_state 0 [(0, default)])).1
      26 11 12 13 4 (by decide) (by decide),
    (C5_bad_arg_count_rejected sample_ctx (sample_state 0 [(0, default)])).2 1 2 3 4⟩

/-! ## Capability gating and escalation -/

/-- Claim C6.  For `get_fs_byte` (memory right), `__do_wait` (process right)
and `__do_stat` (file right): when the right is absent and the escalation
round trip does not succeed, the operation returns its failure value (0, -1,
-1) and the messages it sends are the capability request alone; the privileged
request is not among them.  (`__do_stat` called with a null `stat_buf` returns
-1 before the capability check and sends nothing at all.) -/
theorem C6_no_privileged_send_after_failed_escalation {σ : Type} (c : Ctx σ)
    (s : State σ) :
    (∀ addr : Nat, s.current_capability &&& CAP_MEMORY = 0 →
        ¬ memory_escalation_ok c s →
        (get_fs_byte c addr s).1 = 0
        ∧ sent (get_fs_byte c addr s).2.trace
            = sent s.trace ++ [(c.kernel_state.memory_server,
                Msg.mem_copy (request_memory_capability_msg c s))])
    ∧ (∀ (pid : Int) (stat_loc : Nat) (options : Int),
        s.current_capability &&& CAP_PROCESS = 0 →
        ¬ process_escalation_ok c s →
        (__do_wait c pid stat_loc options s).1 = -1
        ∧ sent (__do_wait c pid stat_loc options s).2.2.trace
            = sent s.trace ++ [(c.kernel_state.process_server,
                Msg.cap_request (request_process_capability_msg c))])
    ∧ (∀ (path stat_buf : Nat) (is_fstat fd : Int),
        s.current_capability &&& c.target.CAP_FILE = 0 →
        ¬ file_escalation_ok c s →
        (__do_stat c path stat_buf is_fstat fd s).1 = -1
        ∧ sent (__do_stat c path stat_buf is_fstat fd s).2.2.trace
            = sent s.trace ++
                (if stat_buf = 0 then []
                 else [(c.kernel_state.file_server,
                    Msg.cap_request (request_file_capability_msg c))])) := by
  refine ⟨?_, ?_, ?_⟩
  · intro addr hcap hfail
    have h := request_memory_capability_fail c s hfail
    have ht := request_memory_capability_sent c s
    simp only [get_fs_byte, hcap, if_true, h.1]
    exact ⟨rfl, ht⟩
  · intro pid stat_loc options hcap hfail
    have h := request_process_capability_fail c s hfail
    have ht := request_process_capability_sent c s
    simp only [__do_wait, hcap, if_true, h.1]
    exact ⟨rfl, ht⟩
  · intro path stat_buf is_fstat fd hcap hfail
    have h := request_file_capability_fail c s hfail
    have ht := request_file_capability_sent c s
    by_cases hb : stat_buf = 0
    · simp [__do_stat, hb]
    · simp only [__do_stat, hb, hcap, if_true, if_false, h.1]
      exact ⟨rfl, by simpa using ht⟩

/-- Instance of C6: a failing send for `get_fs_byte`, a denying reply for
`__do_wait`, a failing receive for `__do_stat`. -/
theorem C6_no_privileged_send_after_failed_escalation_witness :
    (sample_state 0 []).current_capability &&& CAP_MEMORY = 0
    ∧ ¬ memory_escalation_ok sample_ctx (sample_state 0 [])
    ∧ (get_fs_byte sample_ctx 100 (sample_state 0 [])).1 = 0
    ∧ (sample_state 0 [(0, default), (0, result_reply (-1))]).current_capability
        &&& CAP_PROCESS = 0
    ∧ ¬ process_escalation_ok sample_ctx
        (sample_state 0 [(0, default), (0, result_reply (-1))])
    ∧ (__do_wait sample_ctx 5 200 0
        (sample_state 0 [(0, default), (0, result_reply (-1))])).1 = -1
    ∧ (sample_state 0 [(0, default), (-1, default)]).current_capability
        &&& sample_ctx.target.CAP_FILE = 0
    ∧ ¬ file_escalation_ok sample_ctx (sample_state 0 [(0, default), (-1, default)])
    ∧ (__do_stat sample_ctx 300 400 0 0
        (sample_state 0 [(0, default), (-1, default)])).1 = -1 :=
  ⟨by decide, by decide,
    ((C6_no_privileged_send_after_failed_escalation sample_ctx
      (sample_state 0 [])).1 100 (by decide) (by decide)).1,
    by decide, by decide,
    ((C6_no_privileged_send_after_failed_escalation sample_ctx
      (sample_state 0 [(0, default), (0, result_reply (-1))])).2.1
      5 200 0 (by decide) (by decide)).1,
    by decide, by decide,
    ((C6_no_privileged_send_after_failed_escalation sample_ctx
      (sample_state 0 [(0, default), (-1, default)])).2.2
      300 400 0 0 (by decide) (by decide)).1⟩

/-- Claim C7.  For `request_memory_capability`, `request_io_capability` and
`request_process_capability` with right `CAP_MEMORY`, `CAP_IO`, `CAP_PROCESS`:
the routine returns 0 exactly when the send returned 0, the receive returned 0
and the reply's result is 0, and then the new capability set is the old one
or-ed with the right; in every other case it returns -1 and the capability set
is unchanged. -/
theorem C7_escalation_outcome {σ : Type} (c : Ctx σ) (s : State σ) :
    ((memory_escalation_ok c s →
        (request_memory_capability c s).1 = 0
        ∧ (request_memory_capability c s).2.current_capability
            = s.current_capability ||| CAP_MEMORY)
      ∧ (¬ memory_escalation_ok c s →
        (request_memory_capability c s).1 = -1
        ∧ (request_memory_capability c s).2.current_capability
            = s.current_capability)
      ∧ ((request_memory_capability c s).1 = 0 ↔ memory_escalation_ok c s))
    ∧ ((io_escalation_ok c s →
        (request_io_capability c s).1 = 0
        ∧ (request_io_capability c s).2.current_capability
            = s.current_capability ||| CAP_IO)
      ∧ (¬ io_escalation_ok c s →
        (request_io_capability c s).1 = -1
        ∧ (request_io_capability c s).2.current_capability
            = s.current_capability)
      ∧ ((request_io_capability c s).1 = 0 ↔ io_escalation_ok c s))
    ∧ ((process_escalation_ok c s →
        (request_process_capability c s).1 = 0
        ∧ (request_process_capability c s).2.current_capability
            = s.current_capability ||| CAP_PROCESS)
      ∧ (¬ process_escalation_ok c s →
        (request_process_capability c s).1 = -1
        ∧ (request_process_capability c s).2.current_capability
            = s.current_capability)
      ∧ ((request_process_capability c s).1 = 0 ↔ process_escalation_ok c s)) := by
  refine ⟨⟨request_memory_capability_ok c s, request_memory_capability_fail c s, ?_⟩,
    ⟨request_io_capability_ok c s, request_io_capability_fail c s, ?_⟩,
    ⟨request_process_capability_ok c s, request_process_capability_fail c s, ?_⟩⟩
  · constructor
    · intro h0
      by_contra hn
      have := (request_memory_capability_fail c s hn).1
      omega
    · intro h; exact (request_memory_capability_ok c s h).1
  · constructor
    · intro h0
      by_contra hn
      have := (request_io_capability_fail c s hn).1
      omega
    · intro h; exact (request_io_capability_ok c s h).1
  · constructor
    · intro h0
      by_contra hn
      have := (request_process_capability_fail c s hn).1
      omega
    · intro h; exact (request_process_capability_ok c s h).1

/-- Instance of C7: a granted memory request from the empty set, a denied I/O
request from the set `CAP_ROOT`, a granted process request from `CAP_MEMORY`. -/
theorem C7_escalation_outcome_witness :
    memory_escalation_ok sample_ctx (sample_state 0 [(0, default), (0, ok_reply 0)])
    ∧ (request_memory_capability sample_ctx
        (sample_state 0 [(0, default), (0, ok_reply 0)])).2.current_capability
        = 0 ||| CAP_MEMORY
    ∧ ¬ io_escalation_ok sample_ctx
        (sample_state 1 [(0, default), (0, result_reply (-1))])
    ∧ (request_io_capability sample_ctx
        (sample_state 1 [(0, default), (0, result_reply (-1))])).2.current_capability
        = 1
    ∧ process_escalation_ok sample_ctx
        (sample_state 2 [(0, default), (0, ok_reply 0)])
    ∧ (request_process_capability sample_ctx
        (sample_state 2 [(0, default), (0, ok_reply 0)])).2.current_capability
        = 2 ||| CAP_PROCESS :=
  ⟨by decide,
    ((C7_escalation_outcome sample_ctx
      (sample_state 0 [(0, default), (0, ok_reply 0)])).1.1 (by decide)).2,
    by decide,
    ((C7_escalation_outcome sample_ctx
      (sample_state 1 [(0, default), (0, result_reply (-1))])).2.1.2.1 (by decide)).2,
    by decide,
    ((C7_escalation_outcome sample_ctx
      (sample_state 2 [(0, default), (0, ok_reply 0)])).2.2.1 (by decide)).2⟩

/-- Claim C8.  Start with `CAP_MEMORY` clear.  If the capability request's
round trip succeeds (send 0, receive 0, result 0) and the round trip of the
read that follows it succeeds with byte `b`, then `get_fs_byte` returns `b`;
the messages sent are the capability request followed by one
`MSG_SEG_GET_BYTE` request whose capability snapshot contains `CAP_MEMORY`;
`CAP_MEMORY` is set afterwards; and a second `get_fs_byte` in the resulting
state, whatever the transport does, sends exactly one message, a
`MSG_SEG_GET_BYTE` request, and no capability request. -/
theorem C8_byte_read_end_to_end {σ : Type} (c : Ctx σ) (s : State σ)
    (addr addr2 b : Nat)
    (hcap : s.current_capability &&& CAP_MEMORY = 0)
    (hesc : memory_escalation_ok c s)
    (hread : round_trip_ok c (request_memory_capability c s).2
        c.kernel_state.memory_server
        (Msg.seg_get (get_fs_byte_msg c addr (request_memory_capability c s).2))
        (c.target.sizeof CStruct.msg_seg_get) (c.target.sizeof CStruct.msg_seg_reply)
        (fun r => r.seg.result))
    (hbyte : (c.transport.receive
        (c.transport.send (request_memory_capability c s).2.world
          c.kernel_state.memory_server
          (Msg.seg_get (get_fs_byte_msg c addr (request_memory_capability c s).2))
          (c.target.sizeof CStruct.msg_seg_get)).2
        c.kernel_state.kernel_port
        (c.target.sizeof CStruct.msg_seg_reply)).2.1.seg.data_byte = b) :
    (get_fs_byte c addr s).1 = b
    ∧ (∃ m : msg_seg_get,
        sent (get_fs_byte c addr s).2.trace
          = sent s.trace ++
              [(c.kernel_state.memory_server,
                  Msg.mem_copy (request_memory_capability_msg c s)),
               (c.kernel_state.memory_server, Msg.seg_get m)]
        ∧ m.header.msg_id = MSG_SEG_GET_BYTE
        ∧ m.caps &&& CAP_MEMORY ≠ 0)
    ∧ (get_fs_byte c addr s).2.current_capability &&& CAP_MEMORY ≠ 0
    ∧ (∃ m2 : msg_seg_get,
        sent (get_fs_byte c addr2 (get_fs_byte c addr s).2).2.trace
          = sent (get_fs_byte c addr s).2.trace
              ++ [(c.kernel_state.memory_server, Msg.seg_get m2)]
        ∧ m2.header.msg_id = MSG_SEG_GET_BYTE) := by
  obtain ⟨hret, hc⟩ := request_memory_capability_ok c s hesc
  have hsent := request_memory_capability_sent c s
  have hfirst : get_fs_byte c addr s
      = get_fs_byte_request c addr (request_memory_capability c s).2 := by
    simp [get_fs_byte, hcap, hret]
  have hcaps : (get_fs_byte c addr s).2.current_capability
      = s.current_capability ||| CAP_MEMORY := by
    rw [hfirst, get_fs_byte_request_caps, hc]
  have hbit : (get_fs_byte c addr s).2.current_capability &&& CAP_MEMORY ≠ 0 := by
    rw [hcaps]
    exact and_lor_self_ne_zero s.current_capability 1
  refine ⟨?_, ⟨get_fs_byte_msg c addr (request_memory_capability c s).2, ?_, rfl, ?_⟩,
    hbit, ⟨get_fs_byte_msg c addr2 (get_fs_byte c addr s).2, ?_, rfl⟩⟩
  · rw [hfirst]
    obtain ⟨h1, h2, h3⟩ := hread
    simp only [get_fs_byte_request, mk_msg_send_fst, mk_msg_send_world,
      mk_msg_receive_fst, mk_msg_receive_reply, h1, h2, h3, if_true]
    exact hbyte
  · rw [hfirst, get_fs_byte_request_sent, hsent]
    simp
  · show (request_memory_capability c s).2.current_capability &&& CAP_MEMORY ≠ 0
    rw [hc]
    exact and_lor_self_ne_zero s.current_capability 1
  · rw [get_fs_byte_of_cap c addr2 _ hbit, get_fs_byte_request_sent]

/-- Instance of C8: the memory server grants the request and answers the read
at address 100 with the byte 65. -/
theorem C8_byte_read_end_to_end_witness :
    (sample_state 0 [(0, default), (0, ok_reply 0), (0, default),
        (0, ok_reply 65)]).current_capability &&& CAP_MEMORY = 0
    ∧ memory_escalation_ok sample_ctx
        (sample_state 0 [(0, default), (0, ok_reply 0), (0, default), (0, ok_reply 65)])
    ∧ (get_fs_byte sample_ctx 100
        (sample_state 0 [(0, default), (0, ok_reply 0), (0, default),
          (0, ok_reply 65)])).1 = 65
    ∧ (get_fs_byte sample_ctx 100
        (sample_state 0 [(0, default), (0, ok_reply 0), (0, default),
          (0, ok_reply 65)])).2.current_capability &&& CAP_MEMORY ≠ 0 :=
  have h := C8_byte_read_end_to_end sample_ctx
    (sample_state 0 [(0, default), (0, ok_reply 0), (0, default), (0, ok_reply 65)])
    100 101 65 (by decide) (by decide) (by decide) (by rfl)
  ⟨by decide, by decide, h.1, h.2.2.1⟩

/-- Claim C9 as stated fails.  With `CAP_MEMORY` already set,
`request_memory_capability` still sends its request to the memory server
(endpoint 3) when the server grants it, and it returns -1 rather than success
when the transport refuses the send. -/
theorem C9_reescalation_contacts_server :
    (sample_state CAP_MEMORY [(0, ok_reply 0), (0, ok_reply 0)]).current_capability
        &&& CAP_MEMORY ≠ 0
    ∧ sent (request_memory_capability sample_ctx
          (sample_state CAP_MEMORY [(0, ok_reply 0), (0, ok_reply 0)])).2.trace
        = [(3, Msg.mem_copy
            { header :=
                { msg_id := 0x0605, sender_port := 2, reply_port := 2, size := 44 },
              dest := none, src := none, n := none, caps := 2, task_id := 1,
              dest_space := none, src_space := none })]
    ∧ (request_memory_capability sample_ctx (sample_state CAP_MEMORY [])).1 = -1 :=
  ⟨by decide, rfl, rfl⟩

/-- Claim C9, amended.  In every state in which `CAP_MEMORY` is already set,
`request_memory_capability` leaves the capability set unchanged whatever the
outcome, sends exactly one capability request to the memory server, returns 0
exactly when that round trip succeeds, and returns -1 otherwise. -/
theorem C9_escalation_when_granted {σ : Type} (c : Ctx σ) (s : State σ)
    (h : s.current_capability &&& CAP_MEMORY ≠ 0) :
    (request_memory_capability c s).2.current_capability = s.current_capability
    ∧ sent (request_memory_capability c s).2.trace
        = sent s.trace ++ [(c.kernel_state.memory_server,
            Msg.mem_copy (request_memory_capability_msg c s))]
    ∧ ((request_memory_capability c s).1 = 0 ↔ memory_escalation_ok c s)
    ∧ (¬ memory_escalation_ok c s → (request_memory_capability c s).1 = -1) := by
  refine ⟨?_, request_memory_capability_sent c s, ?_, ?_⟩
  · by_cases hok : memory_escalation_ok c s
    · rw [(request_memory_capability_ok c s hok).2]
      exact lor_eq_self_of_and_ne_zero _ 1 h
    · exact (request_memory_capability_fail c s hok).2
  · constructor
    · intro h0
      by_contra hn
      have := (request_memory_capability_fail c s hn).1
      omega
    · intro hok; exact (request_memory_capability_ok c s hok).1
  · intro hn; exact (request_memory_capability_fail c s hn).1

/-- Instance of the amended C9 in a state holding exactly `CAP_MEMORY`. -/
theorem C9_escalation_when_granted_witness :
    (sample_state CAP_MEMORY [(0, default), (0, ok_reply 0)]).current_capability
        &&& CAP_MEMORY ≠ 0
    ∧ (request_memory_capability sample_ctx
        (sample_state CAP_MEMORY [(0, default), (0, ok_reply 0)])).2.current_capability
        = CAP_MEMORY
    ∧ sent (request_memory_capability sample_ctx
        (sample_state CAP_MEMORY [(0, default), (0, ok_reply 0)])).2.trace
        = sent (sample_state CAP_MEMORY [(0, default), (0, ok_reply 0)]).trace
            ++ [(sample_ctx.kernel_state.memory_server,
                Msg.mem_copy (request_memory_capability_msg sample_ctx
                  (sample_state CAP_MEMORY [(0, default), (0, ok_reply 0)])))] :=
  have h := C9_escalation_when_granted sample_ctx
    (sample_state CAP_MEMORY [(0, default), (0, ok_reply 0)]) (by decide)
  ⟨by decide, h.1, h.2.1⟩

/-! ## Wait status encoding -/

/-- Claim C10.  For every `exit_code` and `caps_released` in 0..255 the status
word `make_exit_status(exit_code, caps_released)` satisfies `WIFEXITED`, its
`WEXITSTATUS` is `exit_code` and its `WCAPRELEASED` is `caps_released`. -/
theorem C10_exit_status_round_trip (exit_code caps_released : Int)
    (h1 : 0 ≤ exit_code) (h2 : exit_code ≤ 255)
    (h3 : 0 ≤ caps_released) (h4 : caps_released ≤ 255) :
    WIFEXITED (make_exit_status exit_code caps_released) = true
    ∧ WEXITSTATUS (make_exit_status exit_code caps_released) = exit_code
    ∧ WCAPRELEASED (make_exit_status exit_code caps_released) = caps_released := by
  lift exit_code to Nat using h1
  lift caps_released to Nat using h3
  have he : exit_code < 256 := by omega
  have hr : caps_released < 256 := by omega
  obtain ⟨f1, f2, f3⟩ := exit_status_fields exit_code caps_released he hr
  have hs : make_exit_status (exit_code : Int) (caps_released : Int)
      = ((exit_code * 2 ^ 8 ||| caps_released * 2 ^ 16 ||| 0 : Nat) : Int) := by
    unfold make_exit_status
    rw [shl_natCast _ _ (by omega), shl_natCast _ _ (by omega)]
    rfl
  rw [hs]
  refine ⟨?_, ?_, ?_⟩
  · unfold WIFEXITED
    have hl : Int.land
          ((exit_code * 2 ^ 8 ||| caps_released * 2 ^ 16 ||| 0 : Nat) : Int) 0xFF
        = (((exit_code * 2 ^ 8 ||| caps_released * 2 ^ 16 ||| 0) &&& 0xFF : Nat)
            : Int) := rfl
    rw [hl, f1]
    rfl
  · unfold WEXITSTATUS
    have hl : Int.land
          ((((exit_code * 2 ^ 8 ||| caps_released * 2 ^ 16 ||| 0 : Nat) : Int)) >>> 8)
          0xFF
        = ((((exit_code * 2 ^ 8 ||| caps_released * 2 ^ 16 ||| 0) >>> 8) &&& 0xFF
            : Nat) : Int) := rfl
    rw [hl, f2]
  · unfold WCAPRELEASED
    have hl : Int.land
          ((((exit_code * 2 ^ 8 ||| caps_released * 2 ^ 16 ||| 0 : Nat) : Int)) >>> 16)
          0xFF
        = ((((exit_code * 2 ^ 8 ||| caps_released * 2 ^ 16 ||| 0) >>> 16) &&& 0xFF
            : Nat) : Int) := rfl
    rw [hl, f3]

/-- Instance of C10: exit code 42 with 3 released capabilities is the status
word `0x32A00`. -/
theorem C10_exit_status_round_trip_witness :
    (0 : Int) ≤ 42 ∧ (42 : Int) ≤ 255 ∧ (0 : Int) ≤ 3 ∧ (3 : Int) ≤ 255
    ∧ make_exit_status 42 3 = 0x32A00
    ∧ WIFEXITED (make_exit_status 42 3) = true
    ∧ WEXITSTATUS (make_exit_status 42 3) = 42
    ∧ WCAPRELEASED (make_exit_status 42 3) = 3 :=
  ⟨by decide, by decide, by decide, by decide, by decide,
    C10_exit_status_round_trip 42 3 (by decide) (by decide) (by decide) (by decide)⟩

/-! ## Stop status and status decoding over the integers -/

/-- The three packed fields of a stop status, computed over the naturals. -/
theorem stop_status_fields (g h : Nat) (hg : g < 256) :
    (0x7F ||| g * 2 ^ 8 ||| h * 2 ^ 16) &&& 0xFF = 0x7F
    ∧ ((0x7F ||| g * 2 ^ 8 ||| h * 2 ^ 16) >>> 8) &&& 0xFF = g := by
  have h1 : 0x7F ||| g * 2 ^ 8 = 2 ^ 8 * g + 0x7F := by
    rw [Nat.lor_comm, Nat.mul_comm g, Nat.mul_add_lt_is_or (by norm_num) g]
  have h2 : 2 ^ 8 * g + 0x7F ||| h * 2 ^ 16 = 2 ^ 16 * h + (2 ^ 8 * g + 0x7F) := by
    rw [Nat.lor_comm, Nat.mul_comm h, Nat.mul_add_lt_is_or (by omega) h]
  have hmask : (0xFF : Nat) = 2 ^ 8 - 1 := by norm_num
  rw [h1, h2, hmask]
  simp only [Nat.and_pow_two_sub_one_eq_mod, Nat.shiftRight_eq_div_pow]
  refine ⟨by omega, by omega⟩

theorem nat_ldiff_mask (k n : Nat) :
    Nat.ldiff (2 ^ k - 1) n = 2 ^ k - (n % 2 ^ k + 1) := by
  apply Nat.eq_of_testBit_eq
  intro i
  have hlt : n % 2 ^ k < 2 ^ k := Nat.mod_lt _ (by positivity)
  rw [Nat.testBit_ldiff, Nat.testBit_two_pow_sub_one,
    Nat.testBit_two_pow_sub_succ hlt, Nat.testBit_mod_two_pow]
  by_cases h : i < k <;> simp [h]

theorem int_land_mask (s : Int) (k : Nat) :
    Int.land s ((2 ^ k - 1 : Nat) : Int) = s % 2 ^ k := by
  cases s with
  | ofNat n =>
    show ((n &&& (2 ^ k - 1) : Nat) : Int) = (n : Int) % 2 ^ k
    rw [Nat.and_pow_two_sub_one_eq_mod]
    push_cast
    rfl
  | negSucc n =>
    show ((Nat.ldiff (2 ^ k - 1) n : Nat) : Int) = Int.negSucc n % 2 ^ k
    rw [nat_ldiff_mask]
    have hlt : n % 2 ^ k < 2 ^ k := Nat.mod_lt _ (by positivity)
    have hpos : (0 : Int) < 2 ^ k := by positivity
    rw [Int.negSucc_emod n hpos]
    push_cast [Nat.cast_sub (by omega : n % 2 ^ k + 1 ≤ 2 ^ k)]
    ring

theorem int_land_low_byte (s : Int) : Int.land s 0xFF = s % 256 := by
  have h := int_land_mask s 8
  simpa using h

theorem int_land_low_half (s : Int) : Int.land s 0xFFFF = s % 65536 := by
  have h := int_land_mask s 16
  simpa using h

theorem WIFSIGNALED_iff (s : Int) :
    WIFSIGNALED s = true ↔ 1 ≤ s % 65536 ∧ s % 65536 ≤ 255 := by
  unfold WIFSIGNALED to_unsigned
  have hmask : (0xFFFF : Nat) = 2 ^ 16 - 1 := by norm_num
  rw [decide_eq_true_iff, hmask, Nat.and_pow_two_sub_one_eq_mod]
  have h0 : 0 ≤ s % 2 ^ 32 := Int.emod_nonneg _ (by norm_num)
  have h1 : s % 2 ^ 32 < 2 ^ 32 := Int.emod_lt_of_pos _ (by norm_num)
  generalize hu : (s % 2 ^ 32).toNat = u
  have hu' : (u : Int) = s % 2 ^ 32 := by rw [← hu]; exact Int.toNat_of_nonneg h0
  omega

/-! ## Signal sets -/

theorem and_two_pow_ne_zero_iff (m b : Nat) :
    m &&& 2 ^ b ≠ 0 ↔ m.testBit b = true := by
  rw [Nat.and_two_pow]
  have hp : 0 < 2 ^ b := by positivity
  cases h : m.testBit b
  · simp
  · simp

theorem sigismember_eq (m : Nat) (k : Int) (h1 : 1 ≤ k) (h2 : k < 32) :
    sigismember (some m) k = if m.testBit (k - 1).toNat = true then 1 else 0 := by
  have hn : ¬ (k < 1 ∨ k ≥ _NSIG) := by
    simp only [_NSIG]; omega
  simp only [sigismember, hn, if_false, Nat.one_shiftLeft]
  by_cases hb : m.testBit (k - 1).toNat = true
  · rw [if_pos ((and_two_pow_ne_zero_iff m _).mpr hb), if_pos hb]
  · rw [if_neg (fun h => hb ((and_two_pow_ne_zero_iff m _).mp h)), if_neg hb]

theorem sigaddset_eq (m : Nat) (s : Int) (h1 : 1 ≤ s) (h2 : s < 32) :
    sigaddset (some m) s = (0, some (m ||| 2 ^ (s - 1).toNat)) := by
  have hn : ¬ (s < 1 ∨ s ≥ _NSIG) := by
    simp only [_NSIG]; omega
  simp only [sigaddset, hn, if_false, Nat.one_shiftLeft]

theorem sigdelset_eq (m : Nat) (s : Int) (h1 : 1 ≤ s) (h2 : s < 32) :
    sigdelset (some m) s = (0, some (m &&& (0xFFFFFFFF - 2 ^ (s - 1).toNat))) := by
  have hn : ¬ (s < 1 ∨ s ≥ _NSIG) := by
    simp only [_NSIG]; omega
  simp only [sigdelset, hn, if_false, Nat.one_shiftLeft]

theorem testBit_mask_sub_two_pow (j i : Nat) (hj : j < 32) :
    (0xFFFFFFFF - 2 ^ j).testBit i = (decide (i < 32) && !decide (j = i)) := by
  have hlt : 2 ^ j < 2 ^ 32 := Nat.pow_lt_pow_right (by norm_num) hj
  have he : 0xFFFFFFFF - 2 ^ j = 2 ^ 32 - (2 ^ j + 1) := by omega
  rw [he, Nat.testBit_two_pow_sub_succ hlt, Nat.testBit_two_pow]

/-! ## Monotonicity of the capability set -/

theorem caps_le_refl (a : Nat) : caps_le a a := fun _ h => h

theorem caps_le_lor (a x : Nat) : caps_le a (a ||| x) := by
  intro i h
  rw [Nat.testBit_or, h]
  rfl

theorem caps_le_trans {a b d : Nat} (h1 : caps_le a b) (h2 : caps_le b d) :
    caps_le a d := fun i h => h2 i (h1 i h)

theorem request_memory_capability_caps_le {σ : Type} (c : Ctx σ) (s : State σ) :
    caps_le s.current_capability (request_memory_capability c s).2.current_capability := by
  by_cases h : memory_escalation_ok c s
  · rw [(request_memory_capability_ok c s h).2]; exact caps_le_lor _ _
  · rw [(request_memory_capability_fail c s h).2]; exact caps_le_refl _

theorem request_io_capability_caps_le {σ : Type} (c : Ctx σ) (s : State σ) :
    caps_le s.current_capability (request_io_capability c s).2.current_capability := by
  by_cases h : io_escalation_ok c s
  · rw [(request_io_capability_ok c s h).2]; exact caps_le_lor _ _
  · rw [(request_io_capability_fail c s h).2]; exact caps_le_refl _

theorem request_process_capability_caps_le {σ : Type} (c : Ctx σ) (s : State σ) :
    caps_le s.current_capability
      (request_process_capability c s).2.current_capability := by
  by_cases h : process_escalation_ok c s
  · rw [(request_process_capability_ok c s h).2]; exact caps_le_lor _ _
  · rw [(request_process_capability_fail c s h).2]; exact caps_le_refl _

theorem request_file_capability_caps_le {σ : Type} (c : Ctx σ) (s : State σ) :
    caps_le s.current_capability (request_file_capability c s).2.current_capability := by
  by_cases h : file_escalation_ok c s
  · rw [(request_file_capability_ok c s h).2]; exact caps_le_lor _ _
  · rw [(request_file_capability_fail c s h).2]; exact caps_le_refl _

theorem request_signal_capability_caps_le {σ : Type} (c : Ctx σ) (caps : Nat)
    (s : State σ) :
    caps_le s.current_capability
      (request_signal_capability c caps s).2.current_capability := by
  simp only [request_signal_capability]
  split_ifs <;> simp [caps_le_refl, caps_le_lor]

theorem get_fs_byte_caps_le {σ : Type} (c : Ctx σ) (addr : Nat) (s : State σ) :
    caps_le s.current_capability (get_fs_byte c addr s).2.current_capability := by
  simp only [get_fs_byte]
  split_ifs
  · exact request_memory_capability_caps_le c s
  · rw [get_fs_byte_request_caps]; exact request_memory_capability_caps_le c s
  · rw [get_fs_byte_request_caps]; exact caps_le_refl _

theorem __do_wait_request_caps_le {σ : Type} (c : Ctx σ) (pid : Int)
    (stat_loc : Nat) (options : Int) (s : State σ) :
    caps_le s.current_capability
      (__do_wait_request c pid stat_loc options s).2.2.current_capability := by
  simp only [__do_wait_request]
  split_ifs <;> simp [caps_le_refl, caps_le_lor]

theorem __do_wait_caps_le {σ : Type} (c : Ctx σ) (pid : Int)
    (stat_loc : Nat) (options : Int) (s : State σ) :
    caps_le s.current_capability
      (__do_wait c pid stat_loc options s).2.2.current_capability := by
  simp only [__do_wait]
  split_ifs
  · exact request_process_capability_caps_le c s
  · exact caps_le_trans (request_process_capability_caps_le c s)
      (__do_wait_request_caps_le c pid stat_loc options _)
  · exact __do_wait_request_caps_le c pid stat_loc options s

theorem __do_stat_request_caps_le {σ : Type} (c : Ctx σ) (path stat_buf : Nat)
    (is_fstat fd : Int) (s : State σ) :
    caps_le s.current_capability
      (__do_stat_request c path stat_buf is_fstat fd s).2.2.current_capability := by
  simp only [__do_stat_request]
  split_ifs <;> simp [caps_le_refl, caps_le_lor]

theorem __do_stat_caps_le {σ : Type} (c : Ctx σ) (path stat_buf : Nat)
    (is_fstat fd : Int) (s : State σ) :
    caps_le s.current_capability
      (__do_stat c path stat_buf is_fstat fd s).2.2.current_capability := by
  simp only [__do_stat]
  split_ifs
  · exact caps_le_refl _
  · exact request_file_capability_caps_le c s
  · exact caps_le_trans (request_file_capability_caps_le c s)
      (__do_stat_request_caps_le c path stat_buf is_fstat fd _)
  · exact __do_stat_request_caps_le c path stat_buf is_fstat fd s

theorem __do_utime_request_caps_le {σ : Type} (c : Ctx σ)
    (filename times flags : Nat) (s : State σ) :
    caps_le s.current_capability
      (__do_utime_request c filename times flags s).2.current_capability := by
  simp only [__do_utime_request]
  split_ifs <;> simp [caps_le_refl, caps_le_lor]

theorem __do_utime_caps_le {σ : Type} (c : Ctx σ)
    (filename times flags : Nat) (s : State σ) :
    caps_le s.current_capability
      (__do_utime c filename times flags s).2.current_capability := by
  simp only [__do_utime]
  split_ifs
  · exact caps_le_refl _
  · exact request_file_capability_caps_le c s
  · exact caps_le_trans (request_file_capability_caps_le c s)
      (__do_utime_request_caps_le c filename times flags _)
  · exact caps_le_trans (request_file_capability_caps_le c s)
      (__do_utime_request_caps_le c filename times flags _)
  · exact __do_utime_request_caps_le c filename times flags s

/-! ## Reply-endpoint discipline -/

theorem send_receive_trace {σ : Type} (c : Ctx σ) (p : Nat) (m : Msg)
    (sz q cap : Nat) (s : State σ) :
    (mk_msg_receive c q cap (mk_msg_send c p m sz s).2).2.2.trace
      = s.trace ++ [Event.send p m sz (c.transport.send s.world p m sz).1,
          Event.receive q cap
            (c.transport.receive (c.transport.send s.world p m sz).2 q cap).1
            (c.transport.receive (c.transport.send s.world p m sz).2 q cap).2.1] := by
  simp

/-- The seven siblings of `malloc` keep the reply-endpoint discipline. -/
theorem reply_discipline_siblings {σ : Type} (c : Ctx σ) (s : State σ) :
    (∀ (addr : Nat) (count : Int),
        (verify_area_msg c addr count s).header.reply_port = 0
        ∧ ∃ st, (verify_area c addr count s).trace
            = s.trace ++ [Event.send c.kernel_state.memory_server
                (Msg.memory_verify (verify_area_msg c addr count s))
                (c.target.sizeof CStruct.msg_memory_verify) st])
    ∧ (∀ (obj : Nat) (size : Int),
        (free_s_msg c obj size s).header.reply_port = 0
        ∧ ∃ st, (free_s c obj size s).trace
            = s.trace ++ [Event.send c.kernel_state.memory_server
                (Msg.memory_free (free_s_msg c obj size s))
                (c.target.sizeof CStruct.msg_memory_free) st])
    ∧ (∀ addr : Nat,
        (free_page_msg c addr).header.reply_port = 0
        ∧ ∃ st, (free_page c addr s).trace
            = s.trace ++ [Event.send c.kernel_state.memory_server
                (Msg.free_page (free_page_msg c addr))
                (c.target.sizeof CStruct.msg_free_page) st])
    ∧ (∀ (val : Int) (addr : Nat),
        (put_fs_byte_msg c val addr s).header.reply_port = 0
        ∧ ((put_fs_byte c val addr s).trace = s.trace
          ∨ ∃ st, (put_fs_byte c val addr s).trace
            = s.trace ++ [Event.send c.kernel_state.memory_server
                (Msg.seg_put (put_fs_byte_msg c val addr s))
                (c.target.sizeof CStruct.msg_seg_put) st]))
    ∧ ((get_free_page_msg c).header.reply_port = c.kernel_state.kernel_port
        ∧ ∃ st, ((st < 0 ∧ (get_free_page c s).2.trace
              = s.trace ++ [Event.send c.kernel_state.memory_server
                  (Msg.get_free_page (get_free_page_msg c))
                  (c.target.sizeof CStruct.msg_get_free_page) st])
          ∨ (¬ st < 0 ∧ ∃ capacity r reply, (get_free_page c s).2.trace
              = s.trace ++ [Event.send c.kernel_state.memory_server
                  (Msg.get_free_page (get_free_page_msg c))
                  (c.target.sizeof CStruct.msg_get_free_page) st,
                Event.receive c.kernel_state.kernel_port capacity r reply])))
    ∧ (∀ page address : Nat,
        (put_page_msg c page address).header.reply_port = c.kernel_state.kernel_port
        ∧ ∃ st, ((st < 0 ∧ (put_page c page address s).2.trace
              = s.trace ++ [Event.send c.kernel_state.memory_server
                  (Msg.put_page (put_page_msg c page address))
                  (c.target.sizeof CStruct.msg_put_page) st])
          ∨ (¬ st < 0 ∧ ∃ capacity r reply, (put_page c page address s).2.trace
              = s.trace ++ [Event.send c.kernel_state.memory_server
                  (Msg.put_page (put_page_msg c page address))
                  (c.target.sizeof CStruct.msg_put_page) st,
                Event.receive c.kernel_state.kernel_port capacity r reply])))
    ∧ (∀ addr : Nat,
        (get_fs_byte_msg c addr s).header.reply_port = c.kernel_state.kernel_port
        ∧ ∃ st, ((st ≠ 0 ∧ (get_fs_byte_request c addr s).2.trace
              = s.trace ++ [Event.send c.kernel_state.memory_server
                  (Msg.seg_get (get_fs_byte_msg c addr s))
                  (c.target.sizeof CStruct.msg_seg_get) st])
          ∨ (st = 0 ∧ ∃ capacity r reply, (get_fs_byte_request c addr s).2.trace
              = s.trace ++ [Event.send c.kernel_state.memory_server
                  (Msg.seg_get (get_fs_byte_msg c addr s))
                  (c.target.sizeof CStruct.msg_seg_get) st,
                Event.receive c.kernel_state.kernel_port capacity r reply]))) := by
  refine ⟨fun addr count => ⟨rfl, _, rfl⟩, fun obj size => ⟨rfl, _, rfl⟩,
    fun addr => ⟨rfl, _, rfl⟩, ?_, ⟨rfl, ?_⟩, fun page address => ⟨rfl, ?_⟩,
    fun addr => ⟨rfl, ?_⟩⟩
  · intro val addr
    refine ⟨rfl, ?_⟩
    simp only [put_fs_byte]
    split_ifs
    · exact Or.inl rfl
    · exact Or.inr ⟨_, rfl⟩
  · refine ⟨(c.transport.send s.world c.kernel_state.memory_server
      (Msg.get_free_page (get_free_page_msg c))
      (c.target.sizeof CStruct.msg_get_free_page)).1, ?_⟩
    simp only [get_free_page, mk_msg_send_fst]
    split_ifs with h1 h2
    · exact Or.inl ⟨h1, rfl⟩
    · exact Or.inr ⟨h1, _, _, _, send_receive_trace _ _ _ _ _ _ _⟩
    · exact Or.inr ⟨h1, _, _, _, send_receive_trace _ _ _ _ _ _ _⟩
  · refine ⟨(c.transport.send s.world c.kernel_state.memory_server
      (Msg.put_page (put_page_msg c page address))
      (c.target.sizeof CStruct.msg_put_page)).1, ?_⟩
    simp only [put_page, mk_msg_send_fst]
    split_ifs with h1 h2
    · exact Or.inl ⟨h1, rfl⟩
    · exact Or.inr ⟨h1, _, _, _, send_receive_trace _ _ _ _ _ _ _⟩
    · exact Or.inr ⟨h1, _, _, _, send_receive_trace _ _ _ _ _ _ _⟩
  · refine ⟨(c.transport.send s.world c.kernel_state.memory_server
      (Msg.seg_get (get_fs_byte_msg c addr s))
      (c.target.sizeof CStruct.msg_seg_get)).1, ?_⟩
    simp only [get_fs_byte_request, mk_msg_send_fst]
    split_ifs with h1 h2 h3
    · exact Or.inr ⟨h1, _, _, _, send_receive_trace _ _ _ _ _ _ _⟩
    · exact Or.inr ⟨h1, _, _, _, send_receive_trace _ _ _ _ _ _ _⟩
    · exact Or.inr ⟨h1, _, _, _, send_receive_trace _ _ _ _ _ _ _⟩
    · exact Or.inl ⟨h1, rfl⟩

/-- The function `malloc` never calls `mk_msg_receive`, whatever the transport
does. -/
theorem malloc_trace {σ : Type} (c : Ctx σ) (size msg_as_pointer : Nat)
    (s : State σ) :
    (malloc_msg c size s).header.reply_port = c.kernel_state.kernel_port
    ∧ ∃ st, (malloc c size msg_as_pointer s).2.trace
        = s.trace ++ [Event.send c.kernel_state.memory_server
            (Msg.memory_alloc (malloc_msg c size s))
            (c.target.sizeof CStruct.msg_memory_alloc) st] := by
  refine ⟨rfl, (c.transport.send s.world c.kernel_state.memory_server
      (Msg.memory_alloc (malloc_msg c size s))
      (c.target.sizeof CStruct.msg_memory_alloc)).1, ?_⟩
  simp only [malloc]
  split_ifs <;> rfl


/-! ## Stop status and status decoding: claims -/

/-- Claim C11.  For every stop signal `sig` and `caps_held` in 0..255 the
status word `make_stop_status(sig, caps_held)` satisfies `WIFSTOPPED`, its
`WSTOPSIG` is `sig`, and `WIFEXITED` is false for it. -/
theorem C11_stop_status_round_trip (sig caps_held : Int)
    (h1 : 0 ≤ sig) (h2 : sig ≤ 255) (h3 : 0 ≤ caps_held) (h4 : caps_held ≤ 255) :
    WIFSTOPPED (make_stop_status sig caps_held) = true
    ∧ WSTOPSIG (make_stop_status sig caps_held) = sig
    ∧ WIFEXITED (make_stop_status sig caps_held) = false := by
  lift sig to Nat using h1
  lift caps_held to Nat using h3
  have hg : sig < 256 := by omega
  have hh : caps_held < 256 := by omega
  obtain ⟨f1, f2⟩ := stop_status_fields sig caps_held hg
  have hs : make_stop_status (sig : Int) (caps_held : Int)
      = ((0x7F ||| sig * 2 ^ 8 ||| caps_held * 2 ^ 16 : Nat) : Int) := by
    unfold make_stop_status
    rw [shl_natCast _ _ (by omega), shl_natCast _ _ (by omega)]
    rfl
  have hl : Int.land ((0x7F ||| sig * 2 ^ 8 ||| caps_held * 2 ^ 16 : Nat) : Int) 0xFF
      = (((0x7F ||| sig * 2 ^ 8 ||| caps_held * 2 ^ 16) &&& 0xFF : Nat) : Int) := rfl
  rw [hs]
  refine ⟨?_, ?_, ?_⟩
  · unfold WIFSTOPPED
    rw [hl, f1]
    rfl
  · unfold WSTOPSIG
    have hr : Int.land
          ((((0x7F ||| sig * 2 ^ 8 ||| caps_held * 2 ^ 16 : Nat) : Int)) >>> 8) 0xFF
        = ((((0x7F ||| sig * 2 ^ 8 ||| caps_held * 2 ^ 16) >>> 8) &&& 0xFF : Nat)
            : Int) := rfl
    rw [hr, f2]
  · unfold WIFEXITED
    rw [hl, f1]
    rfl

/-- Instance of C11: stop signal 19 gives the status word `0x137F`. -/
theorem C11_stop_status_round_trip_witness :
    (0 : Int) ≤ 19 ∧ (19 : Int) ≤ 255 ∧ (0 : Int) ≤ 0 ∧ (0 : Int) ≤ 255
    ∧ make_stop_status 19 0 = 0x137F
    ∧ WIFSTOPPED (make_stop_status 19 0) = true
    ∧ WSTOPSIG (make_stop_status 19 0) = 19
    ∧ WIFEXITED (make_stop_status 19 0) = false :=
  ⟨by decide, by decide, by decide, by decide, by decide,
    C11_stop_status_round_trip 19 0 (by decide) (by decide) (by decide) (by decide)⟩

/-- Claim C12 as stated fails.  For the status word `0x7F` both `WIFSTOPPED`
and `WIFSIGNALED` hold, and for the status word `0x180` none of `WIFEXITED`,
`WIFSTOPPED`, `WIFSIGNALED` holds. -/
theorem C12_signaled_is_not_the_complement :
    (WIFSTOPPED 0x7F = true ∧ WIFSIGNALED 0x7F = true)
    ∧ (WIFEXITED 0x180 = false ∧ WIFSTOPPED 0x180 = false
        ∧ WIFSIGNALED 0x180 = false) := by
  decide

/-- Claim C12, amended.  For every status word `s`: `WIFEXITED(s)` holds iff
`(s & 0xFF) == 0`; `WIFSTOPPED(s)` holds iff `(s & 0xFF) == 0x7F`;
`WIFSIGNALED(s)` holds iff `1 <= (s & 0xFFFF) <= 0xFF`, that is, iff the low
byte is not zero and bits 8..15 are zero.  `WIFEXITED` excludes the other two.
The equivalence "`WIFSIGNALED(s)` iff neither of the other two holds" is true
of `s`, and exactly one of the three predicates is true of `s`, exactly when
the low byte is zero, or bits 8..15 are zero and the low byte is not `0x7F`, or
bits 8..15 are not zero and the low byte is `0x7F`. -/
theorem C12_status_decoding (s : Int) :
    (WIFEXITED s = true ↔ Int.land s 0xFF = 0)
    ∧ (WIFSTOPPED s = true ↔ Int.land s 0xFF = 0x7F)
    ∧ (WIFSIGNALED s = true ↔ 1 ≤ Int.land s 0xFFFF ∧ Int.land s 0xFFFF ≤ 0xFF)
    ∧ (WIFEXITED s = true → WIFSTOPPED s = false ∧ WIFSIGNALED s = false)
    ∧ (Int.land s 0xFFFF ≤ 0xFF → Int.land s 0xFF ≠ 0x7F →
        (WIFSIGNALED s = true ↔ WIFEXITED s = false ∧ WIFSTOPPED s = false))
    ∧ ((WIFSIGNALED s = true ↔ WIFEXITED s = false ∧ WIFSTOPPED s = false)
        ↔ (Int.land s 0xFF = 0
            ∨ (Int.land s 0xFFFF ≤ 0xFF ∧ Int.land s 0xFF ≠ 0x7F)
            ∨ (0xFF < Int.land s 0xFFFF ∧ Int.land s 0xFF = 0x7F)))
    ∧ (((WIFEXITED s = true ∧ WIFSTOPPED s = false ∧ WIFSIGNALED s = false)
          ∨ (WIFEXITED s = false ∧ WIFSTOPPED s = true ∧ WIFSIGNALED s = false)
          ∨ (WIFEXITED s = false ∧ WIFSTOPPED s = false ∧ WIFSIGNALED s = true))
        ↔ (Int.land s 0xFF = 0
            ∨ (Int.land s 0xFFFF ≤ 0xFF ∧ Int.land s 0xFF ≠ 0x7F)
            ∨ (0xFF < Int.land s 0xFFFF ∧ Int.land s 0xFF = 0x7F))) := by
  have hE : WIFEXITED s = true ↔ Int.land s 0xFF = 0 := by
    unfold WIFEXITED; exact decide_eq_true_iff
  have hS : WIFSTOPPED s = true ↔ Int.land s 0xFF = 0x7F := by
    unfold WIFSTOPPED; exact decide_eq_true_iff
  have hG : WIFSIGNALED s = true ↔ 1 ≤ Int.land s 0xFFFF ∧ Int.land s 0xFFFF ≤ 0xFF := by
    rw [int_land_low_half]; exact WIFSIGNALED_iff s
  have hEf : WIFEXITED s = false ↔ ¬ Int.land s 0xFF = 0 := by
    rw [← hE]; simp
  have hSf : WIFSTOPPED s = false ↔ ¬ Int.land s 0xFF = 0x7F := by
    rw [← hS]; simp
  have hGf : WIFSIGNALED s = false
      ↔ ¬ (1 ≤ Int.land s 0xFFFF ∧ Int.land s 0xFFFF ≤ 0xFF) := by
    rw [← hG]; simp
  refine ⟨hE, hS, hG, ?_, ?_, ?_, ?_⟩
  · intro h
    rw [hE] at h
    rw [hSf, hGf]
    rw [int_land_low_byte] at h ⊢
    rw [int_land_low_half]
    omega
  · intro h1 h2
    rw [hG, hEf, hSf]
    rw [int_land_low_byte] at h2 ⊢
    rw [int_land_low_half] at h1 ⊢
    omega
  · rw [hG, hEf, hSf, int_land_low_byte, int_land_low_half]
    have hb : (s % 65536) % 256 = s % 256 := by omega
    constructor
    · intro h
      by_contra hc
      push_neg at hc
      omega
    · intro h
      omega
  · rw [hE, hS, hG, hEf, hSf, hGf, int_land_low_byte, int_land_low_half]
    omega

/-- Instance of the amended C12 at the signal status `0x8B`, the exit status
`0x2A00` and the stop status `0x137F`. -/
theorem C12_status_decoding_witness :
    Int.land 0x8B 0xFFFF ≤ 0xFF ∧ Int.land 0x8B 0xFF ≠ 0x7F
    ∧ WIFSIGNALED 0x8B = true ∧ WIFEXITED 0x8B = false ∧ WIFSTOPPED 0x8B = false
    ∧ (WIFSIGNALED 0x8B = true ↔ WIFEXITED 0x8B = false ∧ WIFSTOPPED 0x8B = false)
    ∧ WIFEXITED 0x2A00 = true
    ∧ (WIFSTOPPED 0x2A00 = false ∧ WIFSIGNALED 0x2A00 = false)
    ∧ (0xFF < Int.land 0x137F 0xFFFF ∧ Int.land 0x137F 0xFF = 0x7F)
    ∧ (WIFSIGNALED 0x137F = true
        ↔ WIFEXITED 0x137F = false ∧ WIFSTOPPED 0x137F = false)
    ∧ ((WIFEXITED 0x137F = true ∧ WIFSTOPPED 0x137F = false
          ∧ WIFSIGNALED 0x137F = false)
        ∨ (WIFEXITED 0x137F = false ∧ WIFSTOPPED 0x137F = true
          ∧ WIFSIGNALED 0x137F = false)
        ∨ (WIFEXITED 0x137F = false ∧ WIFSTOPPED 0x137F = false
          ∧ WIFSIGNALED 0x137F = true)) :=
  ⟨by decide, by decide, by decide, by decide, by decide,
    (C12_status_decoding 0x8B).2.2.2.2.1 (by decide) (by decide),
    by decide, (C12_status_decoding 0x2A00).2.2.2.1 (by decide),
    by decide,
    (C12_status_decoding 0x137F).2.2.2.2.2.1.mpr (Or.inr (Or.inr (by decide))),
    (C12_status_decoding 0x137F).2.2.2.2.2.2.mpr (Or.inr (Or.inr (by decide)))⟩

/-! ## Signal sets: claims -/

/-- Claim C13.  For every signal number `s` with `1 <= s < 32`:
`sigemptyset` followed by `sigaddset(s)` both return 0, and afterwards
`sigismember` returns 1 for `s` and 0 for every other `k` with `1 <= k < 32`. -/
theorem C13_empty_then_add (s : Int) (m0 : Nat) (h1 : 1 ≤ s) (h2 : s < 32) :
    ∃ m1 m2, sigemptyset (some m0) = (0, some m1)
      ∧ sigaddset (some m1) s = (0, some m2)
      ∧ sigismember (some m2) s = 1
      ∧ ∀ k : Int, 1 ≤ k → k < 32 → k ≠ s → sigismember (some m2) k = 0 := by
  refine ⟨0, 0 ||| 2 ^ (s - 1).toNat, rfl, sigaddset_eq 0 s h1 h2, ?_, ?_⟩
  · rw [sigismember_eq _ s h1 h2]
    simp [Nat.testBit_two_pow]
  · intro k hk1 hk2 hks
    rw [sigismember_eq _ k hk1 hk2]
    have hne : (s - 1).toNat ≠ (k - 1).toNat := by omega
    generalize (s - 1).toNat = a at hne
    generalize (k - 1).toNat = b at hne
    simp [Nat.testBit_two_pow, hne]

/-- Claim C14.  For every initial mask value `sigfillset` returns 0, and
afterwards `sigismember` returns 1 for every `k` with `1 <= k < 32`, the
signal numbers the set operations accept. -/
theorem C14_fill_contains_all (m0 : Nat) :
    ∃ m1, sigfillset (some m0) = (0, some m1)
      ∧ ∀ k : Int, 1 ≤ k → k < 32 → sigismember (some m1) k = 1 := by
  refine ⟨0xFFFFFFFF, rfl, ?_⟩
  intro k hk1 hk2
  rw [sigismember_eq _ k hk1 hk2]
  have he : (0xFFFFFFFF : Nat) = 2 ^ 32 - 1 := by norm_num
  have hlt : (k - 1).toNat < 32 := by omega
  generalize (k - 1).toNat = b at hlt
  rw [he, Nat.testBit_two_pow_sub_one]
  simp [hlt]

/-- Claim C15.  For every 32-bit mask `m` and signal number `s` with
`1 <= s < 32`: `sigaddset(s)` followed by `sigdelset(s)` both return 0, `s` is
not a member of the result, every bit other than bit `s - 1` has its value in
`m`, and from the empty set the result is the empty set again. -/
theorem C15_add_then_delete (m : Nat) (s : Int) (hm : m < 2 ^ 32) (h1 : 1 ≤ s) (h2 : s < 32) :
    ∃ m1 m2, sigaddset (some m) s = (0, some m1)
      ∧ sigdelset (some m1) s = (0, some m2)
      ∧ sigismember (some m2) s = 0
      ∧ (∀ i : Nat, i ≠ (s - 1).toNat → m2.testBit i = m.testBit i)
      ∧ (m = 0 → m2 = 0) := by
  have hj : (s - 1).toNat < 32 := by omega
  have ha := sigaddset_eq m s h1 h2
  have hd := sigdelset_eq (m ||| 2 ^ (s - 1).toNat) s h1 h2
  have hmem := sigismember_eq
    ((m ||| 2 ^ (s - 1).toNat) &&& (0xFFFFFFFF - 2 ^ (s - 1).toNat)) s h1 h2
  generalize (s - 1).toNat = j at hj ha hd hmem
  have hbits : ∀ i : Nat,
      ((m ||| 2 ^ j) &&& (0xFFFFFFFF - 2 ^ j)).testBit i
        = (m.testBit i && !decide (j = i)) := by
    intro i
    rw [Nat.testBit_and, Nat.testBit_or, Nat.testBit_two_pow,
      testBit_mask_sub_two_pow _ _ hj]
    by_cases hi : i < 32
    · by_cases he : j = i <;> simp [hi, he]
    · have hge : 2 ^ 32 ≤ 2 ^ i := Nat.pow_le_pow_right (by norm_num) (by omega)
      have hf : m.testBit i = false := Nat.testBit_lt_two_pow (by omega)
      simp [hi, hf]
  refine ⟨m ||| 2 ^ j, (m ||| 2 ^ j) &&& (0xFFFFFFFF - 2 ^ j), ha, hd, ?_, ?_, ?_⟩
  · rw [hmem, hbits]
    simp
  · intro i hi
    rw [hbits]
    have hne : j ≠ i := fun h => hi h.symm
    simp [hne]
  · intro h0
    apply Nat.eq_of_testBit_eq
    intro i
    rw [hbits, h0]
    simp

/-- Instance of C13 at signal 5, starting from the mask `0xABCD`. -/
theorem C13_empty_then_add_witness :
    (1 : Int) ≤ 5 ∧ (5 : Int) < 32
    ∧ sigaddset (sigemptyset (some 0xABCD)).2 5 = (0, some 0x10)
    ∧ sigismember (some 0x10) 5 = 1
    ∧ sigismember (some 0x10) 4 = 0
    ∧ ∃ m1 m2, sigemptyset (some 0xABCD) = (0, some m1)
      ∧ sigaddset (some m1) 5 = (0, some m2)
      ∧ sigismember (some m2) 5 = 1
      ∧ ∀ k : Int, 1 ≤ k → k < 32 → k ≠ 5 → sigismember (some m2) k = 0 :=
  ⟨by decide, by decide, by decide, by decide, by decide,
    C13_empty_then_add 5 0xABCD (by decide) (by decide)⟩

/-- Instance of C14 at signal 31, the largest accepted signal number. -/
theorem C14_fill_contains_all_witness :
    (1 : Int) ≤ 31 ∧ (31 : Int) < 32
    ∧ sigfillset (some 0) = (0, some 0xFFFFFFFF)
    ∧ sigismember (some 0xFFFFFFFF) 31 = 1 :=
  ⟨by decide, by decide, by decide,
    (C14_fill_contains_all 0).elim (fun m1 h => by
      have hm : m1 = 0xFFFFFFFF := by
        have h1 := h.1
        simp only [sigfillset, Prod.mk.injEq, Option.some.injEq, true_and] at h1
        exact h1.symm
      rw [← hm]
      exact h.2 31 (by decide) (by decide))⟩

/-- Instance of C15 at signal 5 on the mask `0x13` and on the empty set. -/
theorem C15_add_then_delete_witness :
    (0x13 : Nat) < 2 ^ 32 ∧ (1 : Int) ≤ 5 ∧ (5 : Int) < 32
    ∧ sigdelset (sigaddset (some 0x13) 5).2 5 = (0, some 0x03)
    ∧ sigdelset (sigaddset (some 0) 5).2 5 = (0, some 0)
    ∧ ∃ m1 m2, sigaddset (some 0x13) 5 = (0, some m1)
      ∧ sigdelset (some m1) 5 = (0, some m2)
      ∧ sigismember (some m2) 5 = 0
      ∧ (∀ i : Nat, i ≠ ((5 : Int) - 1).toNat → m2.testBit i = (0x13 : Nat).testBit i)
      ∧ ((0x13 : Nat) = 0 → m2 = 0) :=
  ⟨by decide, by decide, by decide, by decide, by decide,
    C15_add_then_delete 0x13 5 (by decide) (by decide) (by decide)⟩

/-! ## Capability monotonicity, reply discipline, operation ids, signal gates -/

/-- Claim C16.  Under every transport and server behaviour, each operation
that can modify `current_capability` (the five `request_*_capability`
routines, `get_fs_byte`, `__do_wait`, `__do_stat`, `__do_utime`) leaves every
bit that was set before the call set after it. -/
theorem C16_capabilities_monotone {σ : Type} (c : Ctx σ) (s : State σ) :
    caps_le s.current_capability (request_memory_capability c s).2.current_capability
    ∧ caps_le s.current_capability (request_io_capability c s).2.current_capability
    ∧ caps_le s.current_capability
        (request_process_capability c s).2.current_capability
    ∧ caps_le s.current_capability (request_file_capability c s).2.current_capability
    ∧ (∀ caps : Nat, caps_le s.current_capability
        (request_signal_capability c caps s).2.current_capability)
    ∧ (∀ addr : Nat, caps_le s.current_capability
        (get_fs_byte c addr s).2.current_capability)
    ∧ (∀ (pid : Int) (stat_loc : Nat) (options : Int),
        caps_le s.current_capability
          (__do_wait c pid stat_loc options s).2.2.current_capability)
    ∧ (∀ (path stat_buf : Nat) (is_fstat fd : Int),
        caps_le s.current_capability
          (__do_stat c path stat_buf is_fstat fd s).2.2.current_capability)
    ∧ (∀ filename times flags : Nat,
        caps_le s.current_capability
          (__do_utime c filename times flags s).2.current_capability) :=
  ⟨request_memory_capability_caps_le c s, request_io_capability_caps_le c s,
    request_process_capability_caps_le c s, request_file_capability_caps_le c s,
    fun caps => request_signal_capability_caps_le c caps s,
    fun addr => get_fs_byte_caps_le c addr s,
    fun pid stat_loc options => __do_wait_caps_le c pid stat_loc options s,
    fun path stat_buf is_fstat fd => __do_stat_caps_le c path stat_buf is_fstat fd s,
    fun filename times flags => __do_utime_caps_le c filename times flags s⟩

/-- Claim C17 (the code departs from it).  `malloc(16)` sends its request
to the memory server with `reply_port` equal to the caller's own endpoint 2,
never calls `mk_msg_receive`, and returns the request structure converted to a
pointer; its sibling `get_free_page` does call receive, once, on endpoint 2. -/
theorem C17_malloc_expects_reply_without_receive :
    sent (malloc sample_ctx 16 4096 (sample_state CAP_ALL [(0, default)])).2.trace
        = [(3, Msg.memory_alloc
            { header := { msg_id := 0x0101, sender_port := 2, reply_port := 2,
                          size := 24 },
              size := 16, caps := 0xFFFF })]
    ∧ received
        (malloc sample_ctx 16 4096 (sample_state CAP_ALL [(0, default)])).2.trace = []
    ∧ (malloc sample_ctx 16 4096 (sample_state CAP_ALL [(0, default)])).1 = 4096
    ∧ received
        (get_free_page sample_ctx
          (sample_state CAP_ALL [(0, default), (0, default)])).2.trace = [2] :=
  ⟨rfl, rfl, rfl, rfl⟩

/-- Claim C18 (the code departs from it).  `MSG_MEM_VERIFY`, `MSG_MEM_ALLOC`
and `MSG_MEM_FREE` of `linux/kernel.h` have the values of
`MSG_MEM_GET_FREE_PAGE`, `MSG_MEM_PUT_PAGE` and `MSG_MEM_FREE_PAGE` of
`linux/mm.h`; `MSG_MEM_COPY` has one value in `linux/mm.h` and another in
`asm/memory.h`; and `verify_area` and `get_free_page` both send `msg_id`
`0x0100` to the memory server (endpoint 3). -/
theorem C18_memory_msg_ids_collide :
    MSG_MEM_VERIFY = MSG_MEM_GET_FREE_PAGE
    ∧ MSG_MEM_ALLOC = MSG_MEM_PUT_PAGE
    ∧ MSG_MEM_FREE = MSG_MEM_FREE_PAGE
    ∧ MSG_MEM_COPY_mm ≠ MSG_MEM_COPY
    ∧ sent_ids (verify_area sample_ctx 100 4 (sample_state 0 [(0, default)])).trace
        = [(3, some 0x0100)]
    ∧ sent_ids (get_free_page sample_ctx (sample_state 0 [(0, default)])).2.trace
        = [(3, some 0x0100)] :=
  ⟨rfl, rfl, rfl, by decide, rfl, rfl⟩

/-- Claim C19 as stated fails for `kill`.  In a state holding only
`CAP_PROCESS`, so without `CAP_SIGNAL_KILL`, `kill(5, 9)` sends
`MSG_SIGNAL_KILL` to the signal server (endpoint 11) and returns the server's
result. -/
theorem C19_kill_passes_on_process_right :
    (sample_state CAP_PROCESS [(0, default), (0, default)]).current_capability
        &&& CAP_SIGNAL_KILL = 0
    ∧ (9 : Int) ≠ 0
    ∧ sent_ids (kill sample_ctx 5 9
          (sample_state CAP_PROCESS [(0, default), (0, default)])).2.trace
        = [(11, some MSG_SIGNAL_KILL)]
    ∧ (kill sample_ctx 5 9
          (sample_state CAP_PROCESS [(0, default), (0, default)])).1 = 0 :=
  ⟨by decide, by decide, rfl, rfl⟩

/-- Claim C19, amended.  `kill` returns -1 and sends nothing when all of
`CAP_SIGNAL_KILL`, `CAP_PROCESS` and `CAP_SYSTEM` are absent, so it sends
`MSG_SIGNAL_KILL` only if one of the three is held; `__do_signal_action`
returns -1 and sends nothing when `CAP_SIGNAL_ACTION` is absent; `sigprocmask`
returns -1 and sends nothing when `CAP_SIGNAL_MASK` is absent. -/
theorem C19_signal_gates {σ : Type} (c : Ctx σ) (s : State σ) :
    (∀ pid sig : Int,
        (s.current_capability &&& CAP_SIGNAL_KILL = 0
          ∧ s.current_capability &&& CAP_PROCESS = 0
          ∧ s.current_capability &&& CAP_SYSTEM = 0 →
            kill c pid sig s = (-1, s))
        ∧ (sent (kill c pid sig s).2.trace ≠ sent s.trace →
            s.current_capability &&& CAP_SIGNAL_KILL ≠ 0
            ∨ s.current_capability &&& CAP_PROCESS ≠ 0
            ∨ s.current_capability &&& CAP_SYSTEM ≠ 0))
    ∧ (∀ (sig : Int) (act : Option sigaction) (oldact : Nat),
        (s.current_capability &&& CAP_SIGNAL_ACTION = 0 →
            __do_signal_action c sig act oldact s = (-1, none, s))
        ∧ (sent (__do_signal_action c sig act oldact s).2.2.trace ≠ sent s.trace →
            s.current_capability &&& CAP_SIGNAL_ACTION ≠ 0))
    ∧ (∀ (how : Int) (set oldset : Nat),
        (s.current_capability &&& CAP_SIGNAL_MASK = 0 →
            sigprocmask c how set oldset s = (-1, none, s))
        ∧ (sent (sigprocmask c how set oldset s).2.2.trace ≠ sent s.trace →
            s.current_capability &&& CAP_SIGNAL_MASK ≠ 0)) := by
  have hk : ∀ pid sig : Int,
      (s.current_capability &&& CAP_SIGNAL_KILL = 0
        ∧ s.current_capability &&& CAP_PROCESS = 0
        ∧ s.current_capability &&& CAP_SYSTEM = 0) → kill c pid sig s = (-1, s) := by
    intro pid sig h
    simp only [kill, h, and_self, if_true]
  have ha : ∀ (sig : Int) (act : Option sigaction) (oldact : Nat),
      s.current_capability &&& CAP_SIGNAL_ACTION = 0 →
        __do_signal_action c sig act oldact s = (-1, none, s) := by
    intro sig act oldact h
    simp only [__do_signal_action, h, if_true]
  have hm : ∀ (how : Int) (set oldset : Nat),
      s.current_capability &&& CAP_SIGNAL_MASK = 0 →
        sigprocmask c how set oldset s = (-1, none, s) := by
    intro how set oldset h
    simp only [sigprocmask, h, if_true]
  refine ⟨fun pid sig => ⟨hk pid sig, ?_⟩, fun sig act oldact => ⟨ha sig act oldact, ?_⟩,
    fun how set oldset => ⟨hm how set oldset, ?_⟩⟩
  · intro hne
    by_contra hcon
    push_neg at hcon
    exact hne (by rw [hk pid sig hcon])
  · intro hne hcon
    exact hne (by rw [ha sig act oldact hcon])
  · intro hne hcon
    exact hne (by rw [hm how set oldset hcon])

/-- Instance of the amended C19: the three operations in a state without
rights, and `kill` in a state holding `CAP_SIGNAL_KILL`. -/
theorem C19_signal_gates_witness :
    ((sample_state 0 [(0, default)]).current_capability &&& CAP_SIGNAL_KILL = 0
      ∧ (sample_state 0 [(0, default)]).current_capability &&& CAP_PROCESS = 0
      ∧ (sample_state 0 [(0, default)]).current_capability &&& CAP_SYSTEM = 0)
    ∧ kill sample_ctx 5 9 (sample_state 0 [(0, default)])
        = (-1, sample_state 0 [(0, default)])
    ∧ (sample_state 0 [(0, default)]).current_capability &&& CAP_SIGNAL_ACTION = 0
    ∧ __do_signal_action sample_ctx 2 none 0 (sample_state 0 [(0, default)])
        = (-1, none, sample_state 0 [(0, default)])
    ∧ (sample_state 0 [(0, default)]).current_capability &&& CAP_SIGNAL_MASK = 0
    ∧ sigprocmask sample_ctx 0 500 0 (sample_state 0 [(0, default)])
        = (-1, none, sample_state 0 [(0, default)])
    ∧ sent (kill sample_ctx 5 9
          (sample_state CAP_SIGNAL_KILL [(0, default), (0, default)])).2.trace
        ≠ sent (sample_state CAP_SIGNAL_KILL [(0, default), (0, default)]).trace
    ∧ ((sample_state CAP_SIGNAL_KILL [(0, default), (0, default)]).current_capability
          &&& CAP_SIGNAL_KILL ≠ 0
        ∨ (sample_state CAP_SIGNAL_KILL [(0, default), (0, default)]).current_capability
          &&& CAP_PROCESS ≠ 0
        ∨ (sample_state CAP_SIGNAL_KILL [(0, default), (0, default)]).current_capability
          &&& CAP_SYSTEM ≠ 0) :=
  ⟨by decide,
    ((C19_signal_gates sample_ctx (sample_state 0 [(0, default)])).1 5 9).1 (by decide),
    by decide,
    ((C19_signal_gates sample_ctx (sample_state 0 [(0, default)])).2.1 2 none 0).1 (by decide),
    by decide,
    ((C19_signal_gates sample_ctx (sample_state 0 [(0, default)])).2.2 0 500 0).1 (by decide),
    by decide,
    ((C19_signal_gates sample_ctx
      (sample_state CAP_SIGNAL_KILL [(0, default), (0, default)])).1 5 9).2 (by decide)⟩

/-- Claim C20 (the code departs from it).  `CAP_SIGNAL_ACTION` and
`CAP_SIGNAL_MASK` are the bits of `CAP_MEMORY` and `CAP_IO`, tested in the same
word `current_capability`.  From the empty set, after a granted
`request_memory_capability` the set is `CAP_MEMORY` and `__do_signal_action`
sends `MSG_SIGNAL_ACTION` to the signal server (endpoint 11); after a granted
`request_io_capability` the set is `CAP_IO` and `sigprocmask` sends
`MSG_SIGNAL_PROCMASK`. -/
theorem C20_general_right_opens_signal_gate :
    CAP_SIGNAL_ACTION = CAP_MEMORY
    ∧ CAP_SIGNAL_MASK = CAP_IO
    ∧ (request_memory_capability sample_ctx
        (sample_state 0 [(0, default), (0, default), (0, default), (0, default)])).1 = 0
    ∧ (request_memory_capability sample_ctx
        (sample_state 0 [(0, default), (0, default), (0, default),
          (0, default)])).2.current_capability = CAP_MEMORY
    ∧ (__do_signal_action sample_ctx 2 none 0
        (request_memory_capability sample_ctx
          (sample_state 0 [(0, default), (0, default), (0, default),
            (0, default)])).2).1 = 0
    ∧ sent_ids (__do_signal_action sample_ctx 2 none 0
        (request_memory_capability sample_ctx
          (sample_state 0 [(0, default), (0, default), (0, default),
            (0, default)])).2).2.2.trace
        = [(3, some 0x0605), (11, some MSG_SIGNAL_ACTION)]
    ∧ (request_io_capability sample_ctx
        (sample_state 0 [(0, default), (0, default), (0, default),
          (0, default)])).2.current_capability = CAP_IO
    ∧ sent_ids (sigprocmask sample_ctx 0 500 0
        (request_io_capability sample_ctx
          (sample_state 0 [(0, default), (0, default), (0, default),
            (0, default)])).2).2.2.trace
        = [(16, some MSG_IO_REQUEST_CAP), (11, some MSG_SIGNAL_PROCMASK)] :=
  ⟨rfl, rfl, rfl, rfl, rfl, rfl, rfl, rfl⟩

/-! ## Wait options, signal status, mode bits and page arithmetic -/

/-- Clearing the two low bits of a natural number. -/
theorem nat_ldiff_three (n : Nat) : Nat.ldiff n 3 = n - n % 4 := by
  have he : n - n % 4 = (n >>> 2) <<< 2 := by
    rw [Nat.shiftLeft_eq, Nat.shiftRight_eq_div_pow]
    omega
  rw [he]
  apply Nat.eq_of_testBit_eq
  intro i
  rw [Nat.testBit_ldiff, show (3 : Nat) = 2 ^ 2 - 1 from rfl, Nat.testBit_two_pow_sub_one,
    Nat.testBit_shiftLeft, Nat.testBit_shiftRight]
  by_cases h2 : 2 ≤ i
  · have e : 2 + (i - 2) = i := by omega
    simp [h2, e]
  · simp [h2]
    omega

/-- Setting the two low bits of a natural number. -/
theorem nat_lor_three (n : Nat) : n ||| 3 = n - n % 4 + 3 := by
  have he : n - n % 4 + 3 = 2 ^ 2 * (n / 4) + 3 := by omega
  rw [he]
  apply Nat.eq_of_testBit_eq
  intro i
  rw [Nat.testBit_or, Nat.testBit_mul_pow_two_add _ (by norm_num)]
  by_cases h2 : i < 2
  · have h3 : Nat.testBit 3 i = true := by
      interval_cases i <;> decide
    rw [if_pos h2, h3, Bool.or_true]
  · have e : 2 + (i - 2) = i := by omega
    have h3 : Nat.testBit 3 i = false :=
      Nat.testBit_lt_two_pow (lt_of_lt_of_le (by norm_num : 3 < 2 ^ 2)
        (Nat.pow_le_pow_right (by norm_num) (by omega)))
    rw [if_neg h2, h3, Bool.or_false, show n / 4 = n >>> 2 from by
      rw [Nat.shiftRight_eq_div_pow], Nat.testBit_shiftRight, e]

/-- The test of `waitpid` on its option word: `options & ~(WNOHANG | WUNTRACED)`
is `options` with its two low bits cleared. -/
theorem waitpid_options_mask (o : Int) :
    Int.land o (Int.not (Int.lor WNOHANG WUNTRACED)) = o - o % 4 := by
  cases o with
  | ofNat n =>
    show ((Nat.ldiff n 3 : Nat) : Int) = (n : Int) - (n : Int) % 4
    rw [nat_ldiff_three]
    omega
  | negSucc n =>
    show Int.negSucc (n ||| 3) = Int.negSucc n - Int.negSucc n % 4
    rw [nat_lor_three, Int.negSucc_eq, Int.negSucc_eq]
    omega

/-- Claim C26.  For every `options` word with a bit outside
`WNOHANG | WUNTRACED` set, and every `pid` and `stat_loc`, `waitpid` returns
`-1`, stores nothing through `stat_loc` and leaves the state as it was: no
message is sent, no receive is made, no escalation is attempted and
`current_capability` is unchanged. -/
theorem C26_waitpid_rejects_unknown_options {σ : Type} (c : Ctx σ) (s : State σ)
    (pid : Int) (stat_loc : Nat) (options : Int)
    (h : Int.land options (Int.not (Int.lor WNOHANG WUNTRACED)) ≠ 0) :
    waitpid c pid stat_loc options s = (-1, none, s)
    ∧ (waitpid c pid stat_loc options s).2.2.trace = s.trace
    ∧ sent (waitpid c pid stat_loc options s).2.2.trace = sent s.trace
    ∧ (waitpid c pid stat_loc options s).2.2.current_capability
        = s.current_capability := by
  have hw : waitpid c pid stat_loc options s = (-1, none, s) := by
    simp only [waitpid, h, ne_eq, not_false_eq_true, if_true]
  rw [hw]
  exact ⟨rfl, rfl, rfl, rfl⟩

/-- Instance of C26: option word 4 in a task without rights, with a world
that would grant every request. -/
theorem C26_waitpid_rejects_unknown_options_witness :
    Int.land 4 (Int.not (Int.lor WNOHANG WUNTRACED)) ≠ 0
    ∧ waitpid sample_ctx 5 500 4
          (sample_state 0 [(0, default), (0, default), (0, default), (0, default)])
        = (-1, none,
            sample_state 0 [(0, default), (0, default), (0, default), (0, default)])
    ∧ (waitpid sample_ctx 5 500 4
          (sample_state 0 [(0, default), (0, default), (0, default), (0, default)])).2.2.trace
        = []
    ∧ sent (waitpid sample_ctx 5 500 4
          (sample_state 0 [(0, default), (0, default), (0, default), (0, default)])).2.2.trace
        = []
    ∧ (waitpid sample_ctx 5 500 4
          (sample_state 0
            [(0, default), (0, default), (0, default), (0, default)])).2.2.current_capability
        = 0 :=
  ⟨by rw [waitpid_options_mask]; decide,
    C26_waitpid_rejects_unknown_options sample_ctx
      (sample_state 0 [(0, default), (0, default), (0, default), (0, default)])
      5 500 4 (by rw [waitpid_options_mask]; decide)⟩


/-- The packed fields of a signal status, computed over the naturals. -/
theorem signal_status_fields (g r : Nat) (hg : g < 128) (hr : r < 256) :
    (g ||| r * 2 ^ 16 ||| 0x80) &&& 0xFF = g + 128
    ∧ (g ||| r * 2 ^ 16 ||| 0x80) &&& 0x7F = g
    ∧ ((g ||| r * 2 ^ 16 ||| 0x80) >>> 16) &&& 0xFF = r
    ∧ (g ||| r * 2 ^ 16 ||| 0x80) % 65536 = g + 128 := by
  have h1 : (0x80 : Nat) ||| g = 2 ^ 7 * 1 + g := by
    rw [Nat.mul_add_lt_is_or (by omega) 1]
  have hor : g ||| r * 2 ^ 16 ||| 0x80 = 2 ^ 16 * r + (2 ^ 7 * 1 + g) := by
    rw [Nat.lor_comm g, Nat.lor_assoc, Nat.lor_comm g, h1, Nat.mul_comm r,
      Nat.mul_add_lt_is_or (by omega) r]
  have hmask : (0xFF : Nat) = 2 ^ 8 - 1 := by norm_num
  have hmask7 : (0x7F : Nat) = 2 ^ 7 - 1 := by norm_num
  rw [hor, hmask, hmask7]
  simp only [Nat.and_pow_two_sub_one_eq_mod, Nat.shiftRight_eq_div_pow]
  refine ⟨by omega, by omega, by omega, by omega⟩

/-- Claim C27.  For every signal number from 1 to 127 and every
`caps_released` from 0 to 255, the word built by `make_signal_status` is
recognised by `WIFSIGNALED`, `WTERMSIG` gives back the signal number,
`WCAPRELEASED` gives back `caps_released`, and neither `WIFEXITED` nor
`WIFSTOPPED` holds. -/
theorem C27_signal_status_round_trip (sig caps_released : Int)
    (h1 : 1 ≤ sig) (h2 : sig ≤ 127) (h3 : 0 ≤ caps_released)
    (h4 : caps_released ≤ 255) :
    WIFSIGNALED (make_signal_status sig caps_released) = true
    ∧ WTERMSIG (make_signal_status sig caps_released) = sig
    ∧ WCAPRELEASED (make_signal_status sig caps_released) = caps_released
    ∧ WIFEXITED (make_signal_status sig caps_released) = false
    ∧ WIFSTOPPED (make_signal_status sig caps_released) = false := by
  have h0 : 0 ≤ sig := by omega
  lift sig to Nat using h0
  lift caps_released to Nat using h3
  have hg : sig < 128 := by omega
  have hr : caps_released < 256 := by omega
  obtain ⟨f1, f2, f3, f4⟩ := signal_status_fields sig caps_released hg hr
  have hs : make_signal_status (sig : Int) (caps_released : Int)
      = ((sig ||| caps_released * 2 ^ 16 ||| 0x80 : Nat) : Int) := by
    unfold make_signal_status
    rw [shl_natCast _ _ (by omega)]
    rfl
  have hl : Int.land ((sig ||| caps_released * 2 ^ 16 ||| 0x80 : Nat) : Int) 0xFF
      = (((sig ||| caps_released * 2 ^ 16 ||| 0x80) &&& 0xFF : Nat) : Int) := rfl
  rw [hs]
  refine ⟨?_, ?_, ?_, ?_, ?_⟩
  · rw [WIFSIGNALED_iff]
    have hc : ((sig ||| caps_released * 2 ^ 16 ||| 0x80 : Nat) : Int) % 65536
        = (((sig ||| caps_released * 2 ^ 16 ||| 0x80) % 65536 : Nat) : Int) := by
      push_cast
      rfl
    rw [hc, f4]
    omega
  · unfold WTERMSIG
    have hr7 : Int.land ((sig ||| caps_released * 2 ^ 16 ||| 0x80 : Nat) : Int) 0x7F
        = (((sig ||| caps_released * 2 ^ 16 ||| 0x80) &&& 0x7F : Nat) : Int) := rfl
    rw [hr7, f2]
  · unfold WCAPRELEASED
    have hr16 : Int.land
          ((((sig ||| caps_released * 2 ^ 16 ||| 0x80 : Nat) : Int)) >>> 16) 0xFF
        = ((((sig ||| caps_released * 2 ^ 16 ||| 0x80) >>> 16) &&& 0xFF : Nat)
            : Int) := rfl
    rw [hr16, f3]
  · unfold WIFEXITED
    rw [hl, f1]
    simp only [decide_eq_false_iff_not]
    omega
  · unfold WIFSTOPPED
    rw [hl, f1]
    simp only [decide_eq_false_iff_not]
    omega

/-- Instance of C27: signal 9 with released capabilities `0x21` gives the
status word `0x210089`. -/
theorem C27_signal_status_round_trip_witness :
    (1 : Int) ≤ 9 ∧ (9 : Int) ≤ 127 ∧ (0 : Int) ≤ 0x21 ∧ (0x21 : Int) ≤ 255
    ∧ make_signal_status 9 0x21 = 0x210089
    ∧ WIFSIGNALED (make_signal_status 9 0x21) = true
    ∧ WTERMSIG (make_signal_status 9 0x21) = 9
    ∧ WCAPRELEASED (make_signal_status 9 0x21) = 0x21
    ∧ WIFEXITED (make_signal_status 9 0x21) = false
    ∧ WIFSTOPPED (make_signal_status 9 0x21) = false :=
  ⟨by decide, by decide, by decide, by decide, by decide,
    C27_signal_status_round_trip 9 0x21 (by decide) (by decide) (by decide) (by decide)⟩

/-- The value of a conditional that tests one bit. -/
theorem ite_and_two_pow (m b x : Nat) :
    (if m &&& 2 ^ b ≠ 0 then x else 0) = if m.testBit b = true then x else 0 := by
  simp only [and_two_pow_ne_zero_iff]

/-- Masking with three bits is the union of the three single-bit masks. -/
theorem and_three_bits (m a b c : Nat) :
    m &&& (2 ^ a ||| 2 ^ b ||| 2 ^ c)
      = (m.testBit a).toNat * 2 ^ a ||| (m.testBit b).toNat * 2 ^ b
          ||| (m.testBit c).toNat * 2 ^ c := by
  rw [Nat.and_or_distrib_left, Nat.and_or_distrib_left, Nat.and_two_pow,
    Nat.and_two_pow, Nat.and_two_pow]

/-- Claim C28.  Converting a mode to file capability flags and back keeps
exactly the owner permission bits `0700`; converting flags to a mode and back
keeps exactly the flags `S_ICAP_READ`, `S_ICAP_WRITE`, `S_ICAP_EXEC`. -/
theorem C28_mode_fcaps_round_trip (m c : Nat) :
    FCAPS_TO_MODE (MODE_TO_FCAPS m) = m &&& 0o700
    ∧ MODE_TO_FCAPS (FCAPS_TO_MODE c)
        = c &&& (S_ICAP_READ ||| S_ICAP_WRITE ||| S_ICAP_EXEC) := by
  constructor
  · have hm : m &&& 0o700
        = (m.testBit 8).toNat * 2 ^ 8 ||| (m.testBit 7).toNat * 2 ^ 7
            ||| (m.testBit 6).toNat * 2 ^ 6 := and_three_bits m 8 7 6
    have h8 := ite_and_two_pow m 8 S_ICAP_READ
    have h7 := ite_and_two_pow m 7 S_ICAP_WRITE
    have h6 := ite_and_two_pow m 6 S_ICAP_EXEC
    rw [hm]
    unfold MODE_TO_FCAPS
    rw [show S_IRUSR = 2 ^ 8 from rfl, show S_IWUSR = 2 ^ 7 from rfl,
      show S_IXUSR = 2 ^ 6 from rfl, h8, h7, h6]
    cases m.testBit 8 <;> cases m.testBit 7 <;> cases m.testBit 6 <;> decide
  · have hc : c &&& (S_ICAP_READ ||| S_ICAP_WRITE ||| S_ICAP_EXEC)
        = (c.testBit 12).toNat * 2 ^ 12 ||| (c.testBit 13).toNat * 2 ^ 13
            ||| (c.testBit 14).toNat * 2 ^ 14 := and_three_bits c 12 13 14
    have h12 := ite_and_two_pow c 12 S_IRUSR
    have h13 := ite_and_two_pow c 13 S_IWUSR
    have h14 := ite_and_two_pow c 14 S_IXUSR
    rw [hc]
    unfold FCAPS_TO_MODE
    rw [show S_ICAP_READ = 2 ^ 12 from rfl, show S_ICAP_WRITE = 2 ^ 13 from rfl,
      show S_ICAP_EXEC = 2 ^ 14 from rfl, h12, h13, h14]
    cases c.testBit 12 <;> cases c.testBit 13 <;> cases c.testBit 14 <;> decide

/-- Clearing the low twelve bits of a 32-bit word rounds it down to a multiple
of 4096. -/
theorem page_mask (x : Nat) (h : x < 2 ^ 32) :
    x &&& not32 (PAGE_SIZE - 1) = x / 4096 * 4096 := by
  have hn : not32 (PAGE_SIZE - 1) = 2 ^ 32 - (2 ^ 12 - 1 + 1) := by decide
  have he : x / 4096 * 4096 = (x >>> 12) <<< 12 := by
    rw [Nat.shiftLeft_eq, Nat.shiftRight_eq_div_pow]
  rw [hn, he]
  apply Nat.eq_of_testBit_eq
  intro i
  rw [Nat.testBit_and, Nat.testBit_two_pow_sub_succ (by norm_num),
    Nat.testBit_two_pow_sub_one, Nat.testBit_shiftLeft, Nat.testBit_shiftRight]
  by_cases h12 : 12 ≤ i
  · have e : 12 + (i - 12) = i := by omega
    by_cases h32 : i < 32
    · simp [h12, h32, e]
    · have hx : x.testBit i = false :=
        Nat.testBit_lt_two_pow
          (lt_of_lt_of_le h (Nat.pow_le_pow_right (by norm_num) (by omega)))
      simp [h12, h32, e, hx]
  · simp [h12]
    omega

/-- Without wrap-around `PAGE_ALIGN` is "add 4095, round down". -/
theorem PAGE_ALIGN_eq (addr : Nat) (h : addr ≤ 2 ^ 32 - 4096) :
    PAGE_ALIGN addr = (addr + 4095) / 4096 * 4096 := by
  unfold PAGE_ALIGN
  have hlt : addr + PAGE_SIZE - 1 < 2 ^ 32 := by
    simp only [PAGE_SIZE]
    omega
  rw [Nat.mod_eq_of_lt hlt, page_mask _ hlt]
  rfl

/-- Claim C30.  For every 32-bit address not above `2 ^ 32 - 4096`,
`PAGE_ALIGN(addr)` is a multiple of 4096, is at least `addr`, is the least
such multiple, exceeds `addr` by less than 4096, is a fixed point of
`PAGE_ALIGN`, and equals `PAGE_COUNT(addr) * PAGE_SIZE`, a product below
`2 ^ 32`. -/
theorem C30_page_align_rounds_up (addr : Nat) (h : addr ≤ 2 ^ 32 - 4096) :
    PAGE_SIZE ∣ PAGE_ALIGN addr
    ∧ addr ≤ PAGE_ALIGN addr
    ∧ (∀ k : Nat, PAGE_SIZE ∣ k → addr ≤ k → PAGE_ALIGN addr ≤ k)
    ∧ PAGE_ALIGN addr - addr < 4096
    ∧ PAGE_ALIGN (PAGE_ALIGN addr) = PAGE_ALIGN addr
    ∧ PAGE_ALIGN addr = PAGE_COUNT addr * PAGE_SIZE
    ∧ PAGE_COUNT addr * PAGE_SIZE < 2 ^ 32 := by
  have ha := PAGE_ALIGN_eq addr h
  have hle : PAGE_ALIGN addr ≤ 2 ^ 32 - 4096 := by
    rw [ha]
    omega
  have hb := PAGE_ALIGN_eq (PAGE_ALIGN addr) hle
  have hc : PAGE_COUNT addr = (addr + 4095) / 4096 := by
    unfold PAGE_COUNT
    have hlt : addr + PAGE_SIZE - 1 < 2 ^ 32 := by
      simp only [PAGE_SIZE]
      omega
    rw [Nat.mod_eq_of_lt hlt]
    rfl
  rw [hb, hc, ha]
  simp only [PAGE_SIZE]
  refine ⟨by omega, by omega, ?_, by omega, by omega, trivial, by omega⟩
  intro k hk hak
  omega

/-- Instance of C30: address 4097 is aligned to 8192, two pages. -/
theorem C30_page_align_rounds_up_witness :
    (4097 : Nat) ≤ 2 ^ 32 - 4096
    ∧ PAGE_ALIGN 4097 = 8192
    ∧ PAGE_COUNT 4097 = 2
    ∧ PAGE_SIZE ∣ PAGE_ALIGN 4097
    ∧ 4097 ≤ PAGE_ALIGN 4097
    ∧ (∀ k : Nat, PAGE_SIZE ∣ k → 4097 ≤ k → PAGE_ALIGN 4097 ≤ k)
    ∧ PAGE_ALIGN 4097 - 4097 < 4096
    ∧ PAGE_ALIGN (PAGE_ALIGN 4097) = PAGE_ALIGN 4097
    ∧ PAGE_ALIGN 4097 = PAGE_COUNT 4097 * PAGE_SIZE
    ∧ PAGE_COUNT 4097 * PAGE_SIZE < 2 ^ 32 :=
  ⟨by decide, by decide, by decide, C30_page_align_rounds_up 4097 (by decide)⟩

/-- Claim C29 (the code departs from it).  `S_IFCAP` is the same mask as
`S_IFMT`, and `S_ICAP_READ`, `S_ICAP_WRITE`, `S_ICAP_EXEC`, `S_ICAP_SHARE`
are the bits of `S_IFIFO`, `S_IFCHR`, `S_IFDIR`, `S_IFREG`; `S_ICAP_COW` lies
outside `S_IFCAP`.  Setting `S_ICAP_READ` on the mode `0100644` of a regular
file makes `S_ISREG` false; setting `S_ICAP_SHARE` on the mode `0040755` of a
directory makes `S_ISDIR` false; setting `S_ICAP_EXEC` on the mode `0020644`
of a character device turns it into a block device for `S_ISCHR` and
`S_ISBLK`. -/
theorem C29_capability_flags_overlap_file_type :
    S_IFCAP = S_IFMT
    ∧ S_ICAP_READ = S_IFIFO ∧ S_ICAP_WRITE = S_IFCHR
    ∧ S_ICAP_EXEC = S_IFDIR ∧ S_ICAP_SHARE = S_IFREG
    ∧ S_ICAP_COW &&& S_IFCAP = 0
    ∧ S_ISREG 0o100644 = true ∧ S_ISREG (0o100644 ||| S_ICAP_READ) = false
    ∧ S_ISDIR 0o040755 = true ∧ S_ISDIR (0o040755 ||| S_ICAP_SHARE) = false
    ∧ S_ISCHR 0o020644 = true ∧ S_ISCHR (0o020644 ||| S_ICAP_EXEC) = false
    ∧ S_ISBLK 0o020644 = false ∧ S_ISBLK (0o020644 ||| S_ICAP_EXEC) = true
    ∧ S_ISFIFO 0o100644 = false ∧ S_ISFIFO (0 ||| S_ICAP_READ) = true := by
  decide

/-! ## System identification, unimplemented operations, file times, system
operations, stub table -/

/-- After `a[8] = 0` the byte at index 8 is zero and the first eight bytes are
those of `a`. -/
theorem set_nul_spec (a : char9) :
    (set_nul a).bytes[8]? = some 0
    ∧ (set_nul a).bytes.take 8 = a.bytes.take 8 := by
  have hl : 8 < a.bytes.length := by rw [a.size_eq]; norm_num
  refine ⟨?_, ?_⟩
  · show (a.bytes.set 8 0)[8]? = some 0
    rw [List.getElem?_set_self hl]
  · show (a.bytes.set 8 0).take 8 = a.bytes.take 8
    apply List.ext_getElem?
    intro i
    rw [List.getElem?_take, List.getElem?_take]
    split
    · rename_i hi
      rw [List.getElem?_set_ne (by omega)]
    · rfl

/-- Claim C21.  Whenever `__uname` returns `0` it has stored a record through
`utsbuf`, and each of the five fields of that record has a zero byte at index 8
and the same first eight bytes as the corresponding field of the reply read
from the transport, whatever the reply contains. -/
theorem C21_uname_fields_terminated {σ : Type} (c : Ctx σ) (s : State σ)
    (utsbuf flags : Nat) (h : (__uname c utsbuf flags s).1 = 0) :
    ∃ u : utsname,
      (__uname c utsbuf flags s).2.1 = some u
      ∧ (u.sysname.bytes[8]? = some 0
          ∧ u.sysname.bytes.take 8 = (__uname_reply c flags s).sysname.bytes.take 8)
      ∧ (u.nodename.bytes[8]? = some 0
          ∧ u.nodename.bytes.take 8 = (__uname_reply c flags s).nodename.bytes.take 8)
      ∧ (u.release.bytes[8]? = some 0
          ∧ u.release.bytes.take 8 = (__uname_reply c flags s).release.bytes.take 8)
      ∧ (u.version.bytes[8]? = some 0
          ∧ u.version.bytes.take 8 = (__uname_reply c flags s).version.bytes.take 8)
      ∧ (u.machine.bytes[8]? = some 0
          ∧ u.machine.bytes.take 8 = (__uname_reply c flags s).machine.bytes.take 8) := by
  simp only [__uname] at h ⊢
  split_ifs at h ⊢ with h1 h2 h3 h4
  · simp at h
  · simp at h
  · simp at h
  · dsimp only at h
    omega
  · exact ⟨_, rfl, set_nul_spec _, set_nul_spec _, set_nul_spec _, set_nul_spec _,
      set_nul_spec _⟩

/-- Instance of C21: the system server answers with five fields that each hold
the nine bytes of "MicroKern" and no terminator; the record stored through
`utsbuf` holds "MicroKer" followed by a zero byte in every field. -/
theorem C21_uname_fields_terminated_witness :
    (__uname sample_ctx 500 0
        (sample_state 0 [(0, default), (0, unterminated_uname_reply)])).1 = 0
    ∧ (__uname_reply sample_ctx 0
        (sample_state 0 [(0, default), (0, unterminated_uname_reply)])).sysname.bytes
        = [77, 105, 99, 114, 111, 75, 101, 114, 110]
    ∧ ((__uname sample_ctx 500 0
        (sample_state 0 [(0, default), (0, unterminated_uname_reply)])).2.1.map
          (fun u => u.sysname.bytes))
        = some [77, 105, 99, 114, 111, 75, 101, 114, 0]
    ∧ ∃ u : utsname,
      (__uname sample_ctx 500 0
        (sample_state 0 [(0, default), (0, unterminated_uname_reply)])).2.1 = some u
      ∧ (u.sysname.bytes[8]? = some 0
          ∧ u.sysname.bytes.take 8
            = (__uname_reply sample_ctx 0
                (sample_state 0
                  [(0, default), (0, unterminated_uname_reply)])).sysname.bytes.take 8)
      ∧ (u.nodename.bytes[8]? = some 0
          ∧ u.nodename.bytes.take 8
            = (__uname_reply sample_ctx 0
                (sample_state 0
                  [(0, default), (0, unterminated_uname_reply)])).nodename.bytes.take 8)
      ∧ (u.release.bytes[8]? = some 0
          ∧ u.release.bytes.take 8
            = (__uname_reply sample_ctx 0
                (sample_state 0
                  [(0, default), (0, unterminated_uname_reply)])).release.bytes.take 8)
      ∧ (u.version.bytes[8]? = some 0
          ∧ u.version.bytes.take 8
            = (__uname_reply sample_ctx 0
                (sample_state 0
                  [(0, default), (0, unterminated_uname_reply)])).version.bytes.take 8)
      ∧ (u.machine.bytes[8]? = some 0
          ∧ u.machine.bytes.take 8
            = (__uname_reply sample_ctx 0
                (sample_state 0
                  [(0, default), (0, unterminated_uname_reply)])).machine.bytes.take 8) :=
  ⟨rfl, rfl, rfl,
    C21_uname_fields_terminated sample_ctx
      (sample_state 0 [(0, default), (0, unterminated_uname_reply)]) 500 0 rfl⟩

/-- Claim C22 as stated fails.  `chown` returns the same `-1` in a state
holding `CAP_SYSTEM`, where it reports that the operation is not supported, and
in a state without it, where it reports a capability denial; `mknod` returns
the value that the capability gate of `kill` returns on a denial. -/
theorem C22_chown_same_code_either_way :
    (sample_state CAP_SYSTEM []).current_capability &&& CAP_SYSTEM ≠ 0
    ∧ (sample_state 0 []).current_capability &&& CAP_SYSTEM = 0
    ∧ chown 100 0 0 (sample_state CAP_SYSTEM []) = chown 100 0 0 (sample_state 0 [])
    ∧ mknod 100 0o020644 5 = (kill sample_ctx 5 9 (sample_state 0 [])).1 :=
  ⟨by decide, by decide, rfl, rfl⟩

/-- Claim C22, amended.  `chown`, `mknod`, `vm_allocate`, `vm_deallocate`,
`vm_protect`, `vm_inherit`, `sigwaitinfo`, `sigqueue` and `futime` return `-1`
for all arguments in every state; in particular `chown` returns the same value
in any two states, whether or not they hold `CAP_SYSTEM`. -/
theorem C22_unimplemented_return_minus_one {σ : Type} (s s2 : State σ)
    (a b d : Nat) (i j : Int) :
    chown a b d s = -1
    ∧ chown a b d s = chown a b d s2
    ∧ mknod a b d = -1
    ∧ vm_allocate a b d = -1
    ∧ vm_deallocate a b = -1
    ∧ vm_protect a b d = -1
    ∧ vm_inherit a b d = -1
    ∧ sigwaitinfo a b = -1
    ∧ sigqueue i j a = -1
    ∧ futime i a = -1 := by
  have hc : ∀ t : State σ, chown a b d t = -1 := by
    intro t
    unfold chown
    split_ifs <;> rfl
  exact ⟨hc s, by rw [hc s, hc s2], rfl, rfl, rfl, rfl, rfl, rfl, rfl, rfl⟩

/-- The messages sent by the request part of `__do_utime`: one `MSG_UTIME`
request to the file server. -/
theorem __do_utime_request_sent {σ : Type} (c : Ctx σ) (filename times flags : Nat)
    (s : State σ) :
    sent (__do_utime_request c filename times flags s).2.trace
      = sent s.trace ++ [(c.kernel_state.file_server,
          Msg.utime (__do_utime_msg c filename times flags s))] := by
  simp only [__do_utime_request]
  split_ifs <;> simp [sent_append, sent]

/-- Claim C23 as stated fails.  In a state holding only `CAP_SYSTEM`, so
without the file right, with an escalation that fails (the send of the
capability request returns `-1`), `__do_utime` still sends `MSG_UTIME` to the
file server (endpoint 9) and returns the server's result `0`. -/
theorem C23_utime_sent_on_system_right :
    (sample_state CAP_SYSTEM
        [(-1, default), (0, default), (0, default)]).current_capability
        &&& sample_ctx.target.CAP_FILE = 0
    ∧ ¬ file_escalation_ok sample_ctx
        (sample_state CAP_SYSTEM [(-1, default), (0, default), (0, default)])
    ∧ (request_file_capability sample_ctx
        (sample_state CAP_SYSTEM [(-1, default), (0, default), (0, default)])).1 = -1
    ∧ sent_ids (__do_utime sample_ctx 300 0 0
          (sample_state CAP_SYSTEM [(-1, default), (0, default), (0, default)])).2.trace
        = [(9, some sample_ctx.target.MSG_CAP_REQUEST_FILE), (9, some MSG_UTIME)]
    ∧ (__do_utime sample_ctx 300 0 0
          (sample_state CAP_SYSTEM [(-1, default), (0, default), (0, default)])).1 = 0 :=
  ⟨by decide, by decide, rfl, rfl, rfl⟩

/-- Claim C23, amended.  For every capability set lacking the file right: if
the escalation of `__do_utime` fails and `CAP_SYSTEM` is absent too,
`__do_utime` returns `-1` and sends nothing but the capability request (none at
all for a null `filename`), so it never sends `MSG_UTIME`; if the escalation
fails and `CAP_SYSTEM` is held, `__do_utime` with a non-null `filename` sends
the capability request and then `MSG_UTIME`. -/
theorem C23_utime_refused_without_file_and_system_right {σ : Type} (c : Ctx σ)
    (s : State σ) (filename times flags : Nat)
    (hf : s.current_capability &&& c.target.CAP_FILE = 0)
    (he : ¬ file_escalation_ok c s) :
    (s.current_capability &&& CAP_SYSTEM = 0 →
        (__do_utime c filename times flags s).1 = -1
        ∧ sent (__do_utime c filename times flags s).2.trace
            = sent s.trace ++
                (if filename = 0 then []
                 else [(c.kernel_state.file_server,
                        Msg.cap_request (request_file_capability_msg c))])
        ∧ ∀ (p : Nat) (m : msg_utime),
            (p, Msg.utime m) ∈ sent (__do_utime c filename times flags s).2.trace →
              (p, Msg.utime m) ∈ sent s.trace)
    ∧ (s.current_capability &&& CAP_SYSTEM ≠ 0 → filename ≠ 0 →
        sent (__do_utime c filename times flags s).2.trace
          = sent s.trace ++
              [(c.kernel_state.file_server,
                  Msg.cap_request (request_file_capability_msg c)),
               (c.kernel_state.file_server,
                  Msg.utime (__do_utime_msg c filename times flags
                    (request_file_capability c s).2))]) := by
  obtain ⟨e1, e2⟩ := request_file_capability_fail c s he
  have hs := request_file_capability_sent c s
  constructor
  · intro hsys
    have hres : __do_utime c filename times flags s
        = if filename = 0 then (-1, s) else (-1, (request_file_capability c s).2) := by
      simp only [__do_utime, hf, if_true, e1, e2, hsys]
      split_ifs <;> first | rfl | (exfalso; omega)
    have htr : sent (__do_utime c filename times flags s).2.trace
        = sent s.trace ++
            (if filename = 0 then []
             else [(c.kernel_state.file_server,
                    Msg.cap_request (request_file_capability_msg c))]) := by
      rw [hres]
      split_ifs
      · simp
      · exact hs
    refine ⟨?_, htr, ?_⟩
    · rw [hres]
      split_ifs <;> rfl
    · intro p m hm
      rw [htr] at hm
      split_ifs at hm
      · simpa using hm
      · simpa using hm
  · intro hsys hfn
    have hres : __do_utime c filename times flags s
        = __do_utime_request c filename times flags (request_file_capability c s).2 := by
      simp only [__do_utime, hf, if_true, e1, e2, hsys, hfn, if_false]
      split_ifs <;> rfl
    rw [hres, __do_utime_request_sent, hs]
    simp

/-- Instance of the amended C23: a task without rights whose capability
request is not answered, and a task holding `CAP_SYSTEM`. -/
theorem C23_utime_refused_without_file_and_system_right_witness :
    (sample_state 0 [(0, default), (-1, default)]).current_capability
        &&& sample_ctx.target.CAP_FILE = 0
    ∧ ¬ file_escalation_ok sample_ctx (sample_state 0 [(0, default), (-1, default)])
    ∧ (sample_state 0 [(0, default), (-1, default)]).current_capability
        &&& CAP_SYSTEM = 0
    ∧ (__do_utime sample_ctx 300 0 0
          (sample_state 0 [(0, default), (-1, default)])).1 = -1
    ∧ sent (__do_utime sample_ctx 300 0 0
          (sample_state 0 [(0, default), (-1, default)])).2.trace
        = sent (sample_state 0 [(0, default), (-1, default)]).trace ++
            (if (300 : Nat) = 0 then []
             else [(sample_ctx.kernel_state.file_server,
                    Msg.cap_request (request_file_capability_msg sample_ctx))]) :=
  ⟨by decide, by decide, by decide,
    ((C23_utime_refused_without_file_and_system_right sample_ctx
      (sample_state 0 [(0, default), (-1, default)]) 300 0 0
      (by decide) (by decide)).1 (by decide)).1,
    ((C23_utime_refused_without_file_and_system_right sample_ctx
      (sample_state 0 [(0, default), (-1, default)]) 300 0 0
      (by decide) (by decide)).1 (by decide)).2.1⟩

/-- Claim C24 (the code departs from it for `iret`).  In every state without
`CAP_SYSTEM`, `move_to_user_mode`, `sti`, `cli`, `_set_gate` and
`_set_tss_ldt_desc` leave the state as it was, so they send nothing, and `sti`
and `cli` leave `interrupts_enabled` unchanged; `iret` tests no capability and
sends `MSG_SYS_IRET` to the system server. -/
theorem C24_iret_sends_without_system_right {σ : Type} (c : Ctx σ) (s : State σ)
    (g : cpu_globals) (h : s.current_capability &&& CAP_SYSTEM = 0) :
    (∀ esp eip : Nat, move_to_user_mode c esp eip s = s)
    ∧ sti c g s = (g, s)
    ∧ cli c g s = (g, s)
    ∧ (∀ gate_idx type dpl handler_port : Nat,
        _set_gate c gate_idx type dpl handler_port s = s)
    ∧ (∀ n addr type : Nat, _set_tss_ldt_desc c n addr type s = s)
    ∧ sent (iret c s).trace
        = sent s.trace ++ [(c.kernel_state.system_server, Msg.sys_iret (iret_msg c s))]
    ∧ (iret_msg c s).header.msg_id = MSG_SYS_IRET := by
  refine ⟨?_, ?_, ?_, ?_, ?_, ?_, rfl⟩
  · intro esp eip
    simp only [move_to_user_mode, h, if_true]
  · simp only [sti, h, ne_eq, not_true_eq_false, if_false]
  · simp only [cli, h, ne_eq, not_true_eq_false, if_false]
  · intro gate_idx type dpl handler_port
    simp only [_set_gate, h, if_true]
  · intro n addr type
    simp only [_set_tss_ldt_desc, h, if_true]
  · simp [iret, sent_append, sent]

/-- Instance of C24 in a task without rights, interrupts disabled on CPU 0:
the five gated operations send nothing, `iret` sends `MSG_SYS_IRET` to the
system server (endpoint 8). -/
theorem C24_iret_sends_without_system_right_witness :
    (sample_state 0 [(0, default)]).current_capability &&& CAP_SYSTEM = 0
    ∧ sti sample_ctx { current_cpu := 0, interrupts_enabled := 0 }
          (sample_state 0 [(0, default)])
        = ({ current_cpu := 0, interrupts_enabled := 0 }, sample_state 0 [(0, default)])
    ∧ sent_ids (iret sample_ctx (sample_state 0 [(0, default)])).trace
        = [(8, some MSG_SYS_IRET)]
    ∧ sent (iret sample_ctx (sample_state 0 [(0, default)])).trace
        = sent (sample_state 0 [(0, default)]).trace
            ++ [(sample_ctx.kernel_state.system_server,
                  Msg.sys_iret (iret_msg sample_ctx (sample_state 0 [(0, default)])))] :=
  ⟨by decide,
    (C24_iret_sends_without_system_right sample_ctx (sample_state 0 [(0, default)])
      { current_cpu := 0, interrupts_enabled := 0 } (by decide)).2.1,
    rfl,
    (C24_iret_sends_without_system_right sample_ctx (sample_state 0 [(0, default)])
      { current_cpu := 0, interrupts_enabled := 0 } (by decide)).2.2.2.2.2.1⟩

/-- A stub that is `do_syscall(n, 0, 0, 0, k)` with `n` below 74 and `k` from 0
to 3 reaches the send step: it sends exactly one message, whose header carries
the call number `n`. -/
theorem stub_reaches_send {σ : Type} (c : Ctx σ) (n : Nat) (k : Int)
    (f : State σ → Int × State σ) (hf : ∀ s, f s = do_syscall c n 0 0 0 k s)
    (hn : n < __NR_syscalls) (h0 : 0 ≤ k) (h3 : k ≤ 3) (s : State σ) :
    ∃ port m,
      sent (f s).2.trace = sent s.trace ++ [(port, m)]
      ∧ (syscall_header? m).map (fun hd => hd.syscall_nr) = some n := by
  obtain ⟨h1, h2⟩ := syscall_to_server_at_bounds c.target n hn
  have hs := server_port_isSome c.kernel_state _ h1 h2
  obtain ⟨port, hport⟩ := Option.isSome_iff_exists.mp hs
  obtain ⟨m, size, hsend, hh, ha⟩ := do_syscall_send_spec c port n 0 0 0 k s h0 h3
  refine ⟨port, m, ?_, by rw [hh]; rfl⟩
  rw [hf]
  simp only [do_syscall, hport, hsend]
  split_ifs <;> simp [sent_append, sent]

/-- Claim C25.  The table `sys_call_table` has 74 entries, and for every `n`
below 74 the stub at index `n` is `do_syscall(n, 0, 0, 0, k)` for some `k` in
0, 1, 2, 3; run in any state it sends exactly one message, and the header of
that message carries the call number `n`. -/
theorem C25_stub_table_matches_call_numbers (n : Nat) (h : n < 74) :
    ∃ k : Int, 0 ≤ k ∧ k ≤ 3
      ∧ ∀ (σ : Type) (c : Ctx σ),
          (sys_call_table c).length = __NR_syscalls
          ∧ ∃ f, (sys_call_table c).get? n = some f
            ∧ (∀ s, f s = do_syscall c n 0 0 0 k s)
            ∧ ∀ s, ∃ port m,
                sent (f s).2.trace = sent s.trace ++ [(port, m)]
                ∧ (syscall_header? m).map (fun hd => hd.syscall_nr) = some n := by
  have key : ∀ (n : Nat) (k : Int), n < 74 → 0 ≤ k → k ≤ 3 →
      (∀ (σ : Type) (c : Ctx σ), ∃ f, (sys_call_table c).get? n = some f
        ∧ ∀ s, f s = do_syscall c n 0 0 0 k s) →
      ∃ k : Int, 0 ≤ k ∧ k ≤ 3
        ∧ ∀ (σ : Type) (c : Ctx σ),
            (sys_call_table c).length = __NR_syscalls
            ∧ ∃ f, (sys_call_table c).get? n = some f
              ∧ (∀ s, f s = do_syscall c n 0 0 0 k s)
              ∧ ∀ s, ∃ port m,
                  sent (f s).2.trace = sent s.trace ++ [(port, m)]
                  ∧ (syscall_header? m).map (fun hd => hd.syscall_nr) = some n := by
    intro n k hn h0 h3 hk
    refine ⟨k, h0, h3, fun σ c => ⟨rfl, ?_⟩⟩
    obtain ⟨f, hget, hf⟩ := hk σ c
    exact ⟨f, hget, hf, stub_reaches_send c n k f hf hn h0 h3⟩
  interval_cases n <;>
    first
    | exact key _ 0 (by decide) (by decide) (by decide)
        (fun σ c => ⟨_, rfl, fun s => rfl⟩)
    | exact key _ 1 (by decide) (by decide) (by decide)
        (fun σ c => ⟨_, rfl, fun s => rfl⟩)
    | exact key _ 2 (by decide) (by decide) (by decide)
        (fun σ c => ⟨_, rfl, fun s => rfl⟩)
    | exact key _ 3 (by decide) (by decide) (by decide)
        (fun σ c => ⟨_, rfl, fun s => rfl⟩)

/-- Instance of C25 at the call number of `ptrace`. -/
theorem C25_stub_table_matches_call_numbers_witness :
    (26 : Nat) < 74
    ∧ (sys_call_table sample_ctx).get? 26 = some (stub_ptrace sample_ctx)
    ∧ (stub_ptrace sample_ctx (sample_state 0 [(0, default), (0, result_reply 5)])).1 = 5
    ∧ ∃ k : Int, 0 ≤ k ∧ k ≤ 3
      ∧ ∀ (σ : Type) (c : Ctx σ),
          (sys_call_table c).length = __NR_syscalls
          ∧ ∃ f, (sys_call_table c).get? 26 = some f
            ∧ (∀ s, f s = do_syscall c 26 0 0 0 k s)
            ∧ ∀ s, ∃ port m,
                sent (f s).2.trace = sent s.trace ++ [(port, m)]
                ∧ (syscall_header? m).map (fun hd => hd.syscall_nr) = some 26 :=
  ⟨by decide, rfl, rfl, C25_stub_table_matches_call_numbers 26 (by decide)⟩

end MicroKernel
